import Mathlib

/-!
# dynd-python: conversion / layout engine

A shallow embedding of the parts of `numpy_interop.cpp`,
`copy_to_pyobject_ckernel.cpp` and `utility_functions.hpp` that the
specification talks about, followed by the theorems that settle each claim.

Conventions

* `uintptr_t`, `size_t` are 64 bit wide; a value of such a type is a `Nat`
  and conversions into it reduce modulo `2 ^ 64`.
* `intptr_t` values are `Int`, wrapped into the signed 64 bit range where the
  source computes with them.
* A `PyObject *` is an address (`Nat`, `0` for `NULL`).
* Code that throws returns `Except.error` with the thrown exception.
-/

namespace pydynd

/-! # Part I: definitions -/

/-! ## Machine integers and exceptions -/

/-- Conversion `(uintptr_t)x` of a signed machine integer: reduction modulo `2 ^ 64`. -/
def to_uintptr (x : Int) : Nat := (x % 2 ^ 64).toNat

/-- Conversion `static_cast<int64_t>(x)` of an unsigned 64 bit value: the two's
complement reading of the same bits. -/
def to_int64 (x : Nat) : Int :=
  if x % 2 ^ 64 < 2 ^ 63 then ((x % 2 ^ 64 : Nat) : Int) else ((x % 2 ^ 64 : Nat) : Int) - 2 ^ 64

/-- Result of signed 64 bit (`intptr_t`) arithmetic: the value reduced into
`[-2^63, 2^63)`. -/
def wrap_intptr (x : Int) : Int := (x + 2 ^ 63) % 2 ^ 64 - 2 ^ 63

/-- The C++ exceptions thrown by the embedded code, with their messages. -/
inductive exception where
  | runtime_error (msg : String)
  | type_error (msg : String)
  | invalid_argument (msg : String)
  | overflow_error (msg : String)
  | std_exception
  /-- Not a C++ exception: marks a path on which the source reads through a pointer
  or index that it does not check (undefined behaviour in C++). -/
  | undefined (what : String)
  deriving DecidableEq, Repr

/-- The message carried by an exception (`what()`), empty for a bare `std::exception`. -/
def exception.what : exception → String
  | .runtime_error m => m
  | .type_error m => m
  | .invalid_argument m => m
  | .overflow_error m => m
  | .std_exception => ""
  | .undefined m => m

/-! ## `get_alignment_of` (numpy_interop.cpp, lines 465-491) -/

/-- The `for` loop of `get_alignment_of(uintptr_t)`: `n` iterations are left,
`alignment` is the current candidate. -/
def get_alignment_of.loop (align_bits : Nat) : Nat → Nat → Nat
  | 0, alignment => alignment
  | n + 1, alignment =>
    if align_bits &&& alignment = 0 then
      get_alignment_of.loop align_bits n (alignment <<< 1)
    else
      alignment

/-- Embedding of `get_alignment_of(uintptr_t align_bits)`: start at 1, loop 4 times. -/
def get_alignment_of (align_bits : Nat) : Nat :=
  get_alignment_of.loop align_bits 4 1

/-- Embedding of `get_alignment_of(PyArrayObject *obj)`: the data pointer is or-ed
with every stride (cast to `uintptr_t`), then handed to `get_alignment_of`. -/
def get_alignment_of_array (data : Nat) (strides : List Int) : Nat :=
  get_alignment_of (strides.foldl (fun align_bits s => align_bits ||| to_uintptr s) data)

/-! ## 128 bit integers to host integers (copy_to_pyobject_ckernel.cpp, lines 120-145)

A host (Python) integer is its mathematical value, an `Int`. -/

/-- The two 64 bit halves of `dynd_uint128`. -/
structure dynd_uint128 where
  m_lo : Nat
  m_hi : Nat
  deriving DecidableEq, Repr

/-- The two 64 bit halves of `dynd_int128` (two's complement). -/
structure dynd_int128 where
  m_lo : Nat
  m_hi : Nat
  deriving DecidableEq, Repr

/-- Modelled from the spec: `dynd_int128::is_negative` of libdynd, whose source is not
part of this repository: the top bit of the high half is set. -/
def dynd_int128.is_negative (val : dynd_int128) : Bool :=
  val.m_hi &&& 0x8000000000000000 != 0

/-- Modelled from the spec: unary minus of `dynd_int128` (libdynd): two's complement
negation modulo `2 ^ 128`, split again into two halves. -/
def dynd_int128.neg (val : dynd_int128) : dynd_int128 :=
  let n := (2 ^ 128 - (val.m_hi * 2 ^ 64 + val.m_lo) % 2 ^ 128) % 2 ^ 128
  { m_lo := n % 2 ^ 64, m_hi := n / 2 ^ 64 }

/-- Modelled from the spec: `static_cast<dynd_uint128>` of a `dynd_int128` (libdynd):
the same bits. -/
def dynd_int128.to_uint128 (val : dynd_int128) : dynd_uint128 :=
  { m_lo := val.m_lo, m_hi := val.m_hi }

/-- The mathematical value of a two's complement 128 bit integer. -/
def dynd_int128.value (val : dynd_int128) : Int :=
  if val.m_hi &&& 0x8000000000000000 = 0 then
    (val.m_hi : Int) * 2 ^ 64 + val.m_lo
  else
    (val.m_hi : Int) * 2 ^ 64 + val.m_lo - 2 ^ 128

/-- The mathematical value of an unsigned 128 bit integer. -/
def dynd_uint128.value (val : dynd_uint128) : Int :=
  (val.m_hi : Int) * 2 ^ 64 + val.m_lo

/-- Host API `PyLong_FromUnsignedLongLong`. -/
def PyLong_FromUnsignedLongLong (v : Nat) : Int := (v : Int)

/-- Host API `PyLong_FromLongLong`. -/
def PyLong_FromLongLong (v : Int) : Int := v

/-- Host API `PyLong_FromLong`. -/
def PyLong_FromLong (v : Int) : Int := v

/-- Host API `PyNumber_Lshift` on host integers (shift count not negative). -/
def PyNumber_Lshift (a b : Int) : Int := a * 2 ^ b.toNat

/-- Host API `PyNumber_Or` on host integers. -/
def PyNumber_Or (a b : Int) : Int := Int.lor a b

/-- Host API `PyNumber_Negative` on host integers. -/
def PyNumber_Negative (a : Int) : Int := -a

/-- Embedding of `pyint_from_int(const dynd_uint128 &)`. -/
def pyint_from_int_uint128 (val : dynd_uint128) : Int :=
  if val.m_hi = 0 then
    PyLong_FromUnsignedLongLong val.m_lo
  else
    let hi := PyLong_FromUnsignedLongLong val.m_hi
    let sixtyfour := PyLong_FromLong 64
    let hi_shifted := PyNumber_Lshift hi sixtyfour
    let lo := PyLong_FromUnsignedLongLong val.m_lo
    PyNumber_Or hi_shifted lo

/-- Embedding of `pyint_from_int(const dynd_int128 &)`. -/
def pyint_from_int_int128 (val : dynd_int128) : Int :=
  if val.is_negative then
    if val.m_hi = 0xffffffffffffffff ∧ val.m_hi &&& 0x8000000000000000 ≠ 0 then
      PyLong_FromLongLong (to_int64 val.m_lo)
    else
      let absval := pyint_from_int_uint128 val.neg.to_uint128
      PyNumber_Negative absval
  else
    pyint_from_int_uint128 val.to_uint128

/-! ## Type descriptors (`dynd::ndt::type`)

The type classes themselves are declared in libdynd; the embedding keeps, for each
variant, the attributes that the source of this repository reads. -/

/-- String encodings (`string_encoding_t`). -/
inductive string_encoding_t where
  | string_encoding_ascii
  | string_encoding_ucs_2
  | string_encoding_utf_8
  | string_encoding_utf_16
  | string_encoding_utf_32
  | string_encoding_invalid
  deriving DecidableEq, Repr

/-- Type ids of the builtin types, the ones for which `is_builtin()` holds. -/
inductive builtin_id where
  | bool_id
  | int8_id | int16_id | int32_id | int64_id | int128_id
  | uint8_id | uint16_id | uint32_id | uint64_id | uint128_id
  | float16_id | float32_id | float64_id | float128_id
  | complex_float32_id | complex_float64_id
  | void_id
  deriving DecidableEq, Repr

/-- The is-available arrfunc of an option type (`arrfunc_type_data`): `instantiate`
maps the chain offset at which the predicate kernel is to be built to the offset after
it, or throws. -/
structure arrfunc_type_data where
  instantiate : Nat → Except exception Nat

/-- Type descriptors. `struct` lists, per field, its name, its type and its entry of
`get_arrmeta_offsets_raw()`; `other` stands for every type id that no `case` of the
source names. -/
inductive ndt_type where
  | builtin (id : builtin_id)
  | bytes
  | fixed_bytes (data_size : Nat)
  | char
  | string (encoding : string_encoding_t)
  | fixed_string (data_size : Nat) (encoding : string_encoding_t)
  | date
  | time
  | datetime
  | type
  | option (value_type : ndt_type) (is_avail : arrfunc_type_data)
  | struct (fields : List (String × ndt_type × Nat)) (data_size : Nat)
  | fixed_dim (dim_size : Int) (element_type : ndt_type)
  | view (value_type : ndt_type) (operand_type : ndt_type)
  | other (name : String)

/-- Method `ndt::type::is_builtin`. -/
def ndt_type.is_builtin : ndt_type → Bool
  | .builtin _ => true
  | _ => false

/-! ## Host objects and foreign descriptors (`PyObject`, `PyArray_Descr`) -/

mutual
/-- The host objects that the field table and the subarray shape of a foreign
descriptor can hold. -/
inductive PyObject where
  | none
  | int (v : Int)
  | str (s : String)
  | tuple (items : List PyObject)
  | descr (d : PyArray_Descr)
/-- A foreign descriptor: `elsize`, `flags`, the items of `names`, the dictionary
`fields` as an association list, and `subarray` (its `base` and its `shape`) when it
is not `NULL`. -/
inductive PyArray_Descr where
  | mk (elsize : Int) (flags : Nat) (names : List String)
      (fields : List (String × PyObject)) (subarray : Option (PyArray_Descr × PyObject))
end

/-- Field `elsize` of a foreign descriptor. -/
def PyArray_Descr.elsize : PyArray_Descr → Int
  | .mk e _ _ _ _ => e

/-- Field `flags` of a foreign descriptor. -/
def PyArray_Descr.flags : PyArray_Descr → Nat
  | .mk _ f _ _ _ => f

/-- Field `names` of a foreign descriptor. -/
def PyArray_Descr.names : PyArray_Descr → List String
  | .mk _ _ n _ _ => n

/-- Field `fields` of a foreign descriptor. -/
def PyArray_Descr.fields : PyArray_Descr → List (String × PyObject)
  | .mk _ _ _ f _ => f

/-- Field `subarray` of a foreign descriptor. -/
def PyArray_Descr.subarray : PyArray_Descr → Option (PyArray_Descr × PyObject)
  | .mk _ _ _ _ s => s

mutual
/-- Nesting depth of a host object. -/
def PyObject.depth : PyObject → Nat
  | .none => 0
  | .int _ => 0
  | .str _ => 0
  | .tuple items => PyObject.depthList items + 1
  | .descr d => d.depth + 1
/-- Nesting depth of a foreign descriptor: one more than the deepest object it holds. -/
def PyArray_Descr.depth : PyArray_Descr → Nat
  | .mk _ _ _ fields sub => max (PyObject.depthFields fields) (PyObject.depthSub sub) + 1
/-- Largest depth in a list of host objects. -/
def PyObject.depthList : List PyObject → Nat
  | [] => 0
  | x :: xs => max x.depth (PyObject.depthList xs)
/-- Largest depth among the values of a field dictionary. -/
def PyObject.depthFields : List (String × PyObject) → Nat
  | [] => 0
  | (_, x) :: xs => max x.depth (PyObject.depthFields xs)
/-- Largest depth in a subarray record. -/
def PyObject.depthSub : Option (PyArray_Descr × PyObject) → Nat
  | Option.none => 0
  | some (b, s) => max b.depth s.depth
end

/-- Host API `PyDict_GetItem` on a dictionary with string keys: the value stored under
the key, if any. -/
def PyDict_GetItem (dict : List (String × PyObject)) (key : String) : Option PyObject :=
  match dict with
  | [] => Option.none
  | (k, v) :: rest => if k = key then some v else PyDict_GetItem rest key

/-- Range of a C `int`. -/
def in_int_range (v : Int) : Bool := decide (-2 ^ 31 ≤ v) && decide (v < 2 ^ 31)

/-- Range of `Py_ssize_t` / `intptr_t`. -/
def in_intptr_range (v : Int) : Bool := decide (-2 ^ 63 ≤ v) && decide (v < 2 ^ 63)

/-- Host API `PyArg_ParseTuple(tup, "Oi|O", &fld_dtype, &offset, &title)`: succeeds on
a tuple of two or three items whose second item is an integer that fits a C `int`, and
yields the first two items. -/
def PyArg_ParseTuple_Oi_O (tup : PyObject) : Option (PyObject × Int) :=
  match tup with
  | .tuple [fld_dtype, .int offset] =>
    if in_int_range offset then some (fld_dtype, offset) else Option.none
  | .tuple [fld_dtype, .int offset, _] =>
    if in_int_range offset then some (fld_dtype, offset) else Option.none
  | _ => Option.none

/-- Embedding of `pyobject_as_index` (utility_functions.hpp, lines 139-157):
`PyNumber_Index` fails on an object that is not an integer, and the constructor of
`pyobject_ownref` then throws; `PyLong_AsSsize_t` fails on an integer outside the
`Py_ssize_t` range, and a bare `std::exception` is thrown. -/
def pyobject_as_index (index : PyObject) : Except exception Int :=
  match index with
  | .int v =>
    if in_intptr_range v then .ok v else .error .std_exception
  | _ => .error (.runtime_error "propagating a Python exception...")

/-! ## `fill_arrmeta_from_numpy_dtype` (numpy_interop.cpp, lines 23-97)

The arrmeta buffer is a store of 8 byte words addressed by byte address. The offset
table of a struct is an array of `uintptr_t`; a `fixed_dim_type_arrmeta` record is two
`intptr_t` fields, `dim_size` followed by `stride` (16 bytes). -/

/-- An arrmeta buffer: the 8 byte word at each byte address. -/
abbrev arrmeta_t := Nat → Int

/-- Store of one word. -/
def arrmeta_t.write (mem : arrmeta_t) (addr : Nat) (v : Int) : arrmeta_t :=
  fun a => if a = addr then v else mem a

/-- Size in bytes of `size_t` / `uintptr_t`. -/
def sizeof_size_t : Nat := 8

/-- Size in bytes of `dynd::fixed_dim_type_arrmeta`. -/
def sizeof_fixed_dim_type_arrmeta : Nat := 16

/-- Address of `md[i].dim_size` for `md` at byte address `arrmeta`. -/
def md_dim_size (arrmeta i : Nat) : Nat := arrmeta + sizeof_fixed_dim_type_arrmeta * i

/-- Address of `md[i].stride` for `md` at byte address `arrmeta`. -/
def md_stride (arrmeta i : Nat) : Nat := arrmeta + sizeof_fixed_dim_type_arrmeta * i + 8

/-- Record of the invocations of `fill_arrmeta_from_numpy_dtype`: the `arrmeta`
argument of an invocation and, in order, the invocations it made itself. -/
inductive call_tree where
  | node (arrmeta : Nat) (children : List call_tree)

/-- The `arrmeta` argument of the invocation at the root. -/
def call_tree.arrmeta : call_tree → Nat
  | .node a _ => a

/-- The invocations made directly by the invocation at the root. -/
def call_tree.children : call_tree → List call_tree
  | .node _ cs => cs

/-- Signature of `fill_arrmeta_from_numpy_dtype` once the type, the descriptor and the
`arrmeta` pointer are given: from the buffer to the new buffer and the record of
invocations, or an exception. -/
abbrev fill_fn :=
  ndt_type → PyArray_Descr → Nat → arrmeta_t → Except exception (arrmeta_t × call_tree)

/-- The loop `for (size_t i = 0; i < field_count; ++i)` of the `struct_id` case, from
index `i` on; the argument `fields` holds the fields `i, i + 1, ...` of the struct type
and `self` is the function called on recursion. Returns the buffer and the record of
the recursive invocations made. -/
def fill_arrmeta_struct_loop (self : fill_fn) (d : PyArray_Descr) (arrmeta : Nat) :
    List (String × ndt_type × Nat) → Nat → arrmeta_t → List call_tree →
      Except exception (arrmeta_t × List call_tree)
  | [], _, mem, calls => .ok (mem, calls)
  | (_, ft, arrmeta_offset) :: rest, i, mem, calls =>
    match d.names[i]? with
    | Option.none => .error (.undefined "PyTuple_GET_ITEM(d_names, i) out of range")
    | some name =>
      match PyDict_GetItem d.fields name with
      | Option.none => .error (.undefined "PyDict_GetItem returned NULL")
      | some tup =>
        match PyArg_ParseTuple_Oi_O tup with
        | Option.none => .error (.type_error "Numpy struct dtype has corrupt data")
        | some (fld_dtype, offset) =>
          -- Set the field offset in the output arrmeta
          let mem := mem.write (arrmeta + sizeof_size_t * i) (to_uintptr offset)
          -- Fill the arrmeta for the field, if necessary
          if !ft.is_builtin then
            match fld_dtype with
            | .descr fld_d =>
              match self ft fld_d (arrmeta + arrmeta_offset) mem with
              | .error e => .error e
              | .ok (mem, t) =>
                fill_arrmeta_struct_loop self d arrmeta rest (i + 1) mem (calls ++ [t])
            | _ => .error (.undefined "field table entry is not a PyArray_Descr")
          else
            fill_arrmeta_struct_loop self d arrmeta rest (i + 1) mem calls

/-- The loop `for (int i = ndim - 1; i >= 0; --i)` of the `fixed_dim_id` case: `n`
iterations are left (the next index is `n - 1`), `stride` and `el` are the loop
variables. Returns the buffer and the final `el`. -/
def fill_arrmeta_dim_loop (shape : List PyObject) (arrmeta : Nat) :
    Nat → Int → ndt_type → arrmeta_t → Except exception (arrmeta_t × ndt_type)
  | 0, _, el, mem => .ok (mem, el)
  | i + 1, stride, el, mem =>
    match shape[i]? with
    | Option.none => .error (.undefined "PyTuple_GET_ITEM(adescr->shape, i) out of range")
    | some item =>
      match pyobject_as_index item with
      | .error e => .error e
      | .ok dim_size =>
        let mem := mem.write (md_dim_size arrmeta i) dim_size
        let mem := mem.write (md_stride arrmeta i) stride
        let stride := wrap_intptr (stride * dim_size)
        match el with
        | .fixed_dim _ element_type =>
          fill_arrmeta_dim_loop shape arrmeta i stride element_type mem
        | _ => .error (.undefined "el.extended<fixed_dim_type>() on another type")

/-- One invocation of `fill_arrmeta_from_numpy_dtype`, with `self` the function called
on recursion. -/
def fill_arrmeta_from_numpy_dtype.body (self : fill_fn) : fill_fn :=
  fun dt d arrmeta mem =>
    match dt with
    | .struct fields _ =>
      match fill_arrmeta_struct_loop self d arrmeta fields 0 mem [] with
      | .error e => .error e
      | .ok (mem, calls) => .ok (mem, .node arrmeta calls)
    | .fixed_dim _ element_type =>
      match d.subarray with
      | Option.none =>
        .error (.type_error ("Internal error building dynd arrmeta: Numpy dtype has " ++
          "NULL subarray corresponding to strided_dim type"))
      | some (base, shape) =>
        let filled : Except exception (arrmeta_t × ndt_type × Nat) :=
          match shape with
          | .tuple items =>
            let ndim := items.length
            match fill_arrmeta_dim_loop items arrmeta ndim base.elsize dt mem with
            | .error e => .error e
            | .ok (mem, el) => .ok (mem, el, arrmeta + ndim * sizeof_fixed_dim_type_arrmeta)
          | _ =>
            match pyobject_as_index shape with
            | .error e => .error e
            | .ok dim_size =>
              let mem := mem.write (md_dim_size arrmeta 0) dim_size
              let mem := mem.write (md_stride arrmeta 0) base.elsize
              .ok (mem, element_type, arrmeta + sizeof_fixed_dim_type_arrmeta)
        match filled with
        | .error e => .error e
        | .ok (mem, el, arrmeta') =>
          -- Fill the arrmeta for the array element, if necessary
          if !el.is_builtin then
            match self el base arrmeta' mem with
            | .error e => .error e
            | .ok (mem, t) => .ok (mem, .node arrmeta [t])
          else
            .ok (mem, .node arrmeta [])
    | _ => .ok (mem, .node arrmeta [])

/-- The recursion of `fill_arrmeta_from_numpy_dtype`, unfolded at most `fuel` times.
Every recursive invocation is on a descriptor held inside the current one, so the
depth of the descriptor bounds the recursion. -/
def fill_arrmeta_from_numpy_dtype.go : Nat → fill_fn
  | 0 => fun _ _ _ _ => .error (.undefined "recursion deeper than the descriptor")
  | fuel + 1 => fill_arrmeta_from_numpy_dtype.body (fill_arrmeta_from_numpy_dtype.go fuel)

/-- Embedding of `pydynd::fill_arrmeta_from_numpy_dtype(dt, d, arrmeta)`. -/
def fill_arrmeta_from_numpy_dtype : fill_fn :=
  fun dt d arrmeta mem => fill_arrmeta_from_numpy_dtype.go (d.depth + 1) dt d arrmeta mem

/-! ### Well-formed foreign descriptors

The vocabulary in which the claims about `fill_arrmeta_from_numpy_dtype` are stated:
the byte offset that the foreign field table gives for a field, the element type under
a number of fixed dimensions, and the descriptors that are well formed for a type. -/

/-- The byte offset that the foreign field table holds for the `i`-th named field:
the second item of the entry stored under the `i`-th name. -/
def foreign_field_offset (d : PyArray_Descr) (i : Nat) : Option Int :=
  match d.names[i]? with
  | Option.none => Option.none
  | some name =>
    match PyDict_GetItem d.fields name with
    | Option.none => Option.none
    | some tup =>
      match PyArg_ParseTuple_Oi_O tup with
      | Option.none => Option.none
      | some (_, offset) => some offset

/-- The element type under `n` fixed dimensions, if the type has that many. -/
def ndt_type.peel : Nat → ndt_type → Option ndt_type
  | 0, tp => some tp
  | n + 1, .fixed_dim _ element_type => ndt_type.peel n element_type
  | _ + 1, _ => Option.none

/-- The stride that belongs to dimension `i` of a C-order subarray with base element
size `e` and shape `shape`: `e * s_{i+1} * ... * s_{n-1}`. -/
def suffix_stride (e : Int) (shape : List Int) (i : Nat) : Int :=
  e * (shape.drop (i + 1)).prod

/-- A foreign descriptor that is well formed for a type. For a struct: every field
has a name in `names`, an entry under that name in `fields` that parses as
`(sub-descriptor, integer offset[, title])`, and, when the field type is not builtin, a
sub-descriptor that is a descriptor, well formed for the field type. For a fixed
dimension: the subarray is present, its shape is an integer or a tuple of integers in
the `intptr_t` range, the type has as many fixed dimensions as the tuple has items,
and the base descriptor is well formed for the element type under them when that is
not builtin. Any descriptor is well formed for the other types. -/
inductive descr_matches : ndt_type → PyArray_Descr → Prop where
  | struct (fields : List (String × ndt_type × Nat)) (data_size : Nat) (d : PyArray_Descr)
      (hparse : ∀ (i : Nat) (name : String) (ft : ndt_type) (aoff : Nat),
        fields[i]? = some (name, ft, aoff) →
        ∃ key tup fld off, d.names[i]? = some key ∧
          PyDict_GetItem d.fields key = some tup ∧
          PyArg_ParseTuple_Oi_O tup = some (fld, off) ∧
          (ft.is_builtin = false → ∃ fd, fld = PyObject.descr fd))
      (hrec : ∀ (i : Nat) (name : String) (ft : ndt_type) (aoff : Nat) key tup fd off,
        fields[i]? = some (name, ft, aoff) →
        d.names[i]? = some key → PyDict_GetItem d.fields key = some tup →
        PyArg_ParseTuple_Oi_O tup = some (PyObject.descr fd, off) →
        ft.is_builtin = false → descr_matches ft fd) :
      descr_matches (.struct fields data_size) d
  | fixed_dim_tuple (dim_size : Int) (element_type : ndt_type) (d base : PyArray_Descr)
      (shape : List Int) (el : ndt_type)
      (hsub : d.subarray = some (base, PyObject.tuple (shape.map PyObject.int)))
      (hshape : ∀ s ∈ shape, in_intptr_range s = true)
      (hpeel : ndt_type.peel shape.length (.fixed_dim dim_size element_type) = some el)
      (hel : el.is_builtin = false → descr_matches el base) :
      descr_matches (.fixed_dim dim_size element_type) d
  | fixed_dim_scalar (dim_size : Int) (element_type : ndt_type) (d base : PyArray_Descr)
      (s : Int)
      (hsub : d.subarray = some (base, PyObject.int s))
      (hs : in_intptr_range s = true)
      (hel : element_type.is_builtin = false → descr_matches element_type base) :
      descr_matches (.fixed_dim dim_size element_type) d
  | other (dt : ndt_type) (d : PyArray_Descr)
      (hstruct : ∀ fields data_size, dt ≠ .struct fields data_size)
      (hdim : ∀ dim_size element_type, dt ≠ .fixed_dim dim_size element_type) :
      descr_matches dt d

/-- A fill function that succeeds on a type and a descriptor, wherever the arrmeta is:
it returns a buffer that agrees with the given one below the `arrmeta` argument, and a
record of invocations rooted at that argument. -/
def fill_succeeds (self : fill_fn) (dt : ndt_type) (d : PyArray_Descr) : Prop :=
  ∀ a mem, ∃ mem' t, self dt d a mem = .ok (mem', t) ∧
    (∀ x, x < a → mem' x = mem x) ∧ t.arrmeta = a

/-! ## `array_from_numpy_array` (numpy_interop.cpp, lines 493-571) -/

/-- The access flag constants of `dynd::nd` (declared in libdynd): parameters of the
embedding. -/
structure array_access_flags where
  read_access_flag : Nat
  write_access_flag : Nat
  immutable_access_flag : Nat
  default_access_flags : Nat

/-- NumPy constant `NPY_ARRAY_WRITEABLE`. -/
def NPY_ARRAY_WRITEABLE : Nat := 0x0400

/-- NumPy constant `NPY_ARRAY_UPDATEIFCOPY`. -/
def NPY_ARRAY_UPDATEIFCOPY : Nat := 0x1000

/-- NumPy constant `NPY_ITEM_HASOBJECT`. -/
def NPY_ITEM_HASOBJECT : Nat := 0x01

/-- NumPy macro `PyDataType_FLAGCHK`. -/
def PyDataType_FLAGCHK (dtype : PyArray_Descr) (flag : Nat) : Bool :=
  dtype.flags &&& flag == flag

/-- A foreign array (`PyArrayObject`): its own address as a host object, the data
pointer, shape, strides, descriptor, flags and base object (`0` for `NULL`). -/
structure PyArrayObject where
  ob : Nat
  data : Nat
  dims : List Int
  strides : List Int
  descr : PyArray_Descr
  flags : Nat
  base : Nat

/-- NumPy macro `PyArray_ISWRITEABLE`. -/
def PyArray_ISWRITEABLE (obj : PyArrayObject) : Bool :=
  obj.flags &&& NPY_ARRAY_WRITEABLE != 0

/-- The memory block that keeps the data of an array alive. -/
inductive memory_block where
  /-- `make_external_memory_block(owner, py_decref_function)`. -/
  | external (owner : Nat)
  /-- `array_to_cpp_ref(base).get_data_memblock()`: the block of an existing array. -/
  | data_memblock_of (base : Nat)
  /-- Storage allocated together with the array. -/
  | embedded
  deriving DecidableEq, Repr

/-- An array (`dynd::nd::array`): element type, shape, strides, access flags, data
pointer (`none` for storage of its own), memory block and arrmeta buffer. -/
structure nd_array where
  tp : ndt_type
  dims : List Int
  strides : List Int
  flags : Nat
  data_pointer : Option Nat
  memblock : memory_block
  arrmeta : arrmeta_t

/-- The functions that `array_from_numpy_array` calls and whose source is not part of
this repository's import code: parameters of the embedding. -/
structure import_env where
  /-- `pydynd::_type_from_numpy_dtype(d, data_alignment)`; the one argument overload
  passes alignment 0. -/
  _type_from_numpy_dtype : PyArray_Descr → Nat → Except exception ndt_type
  /-- `ndt::type::get_canonical_type`. -/
  get_canonical_type : ndt_type → ndt_type
  /-- `dynd::nd::dtyped_empty(ndim, shape, tp)`. -/
  dtyped_empty : List Int → ndt_type → Except exception nd_array
  /-- `pydynd::nd::array_copy_from_numpy`, filling the array given first. -/
  array_copy_from_numpy : nd_array → PyArrayObject → Except exception nd_array
  /-- `PyObject_TypeCheck(base, pydynd::get_array_pytypeobject())`. -/
  is_dynd_array : Nat → Bool

/-- The writes of the dimension records of `make_strided_array_from_data`, record `i`
and the following ones. -/
def write_dim_records : List Int → List Int → Nat → arrmeta_t → arrmeta_t
  | dim :: dims, stride :: strides, i, mem =>
    write_dim_records dims strides (i + 1)
      ((mem.write (md_dim_size 0 i) dim).write (md_stride 0 i) stride)
  | _, _, _, mem => mem

/-- Modelled from the spec: `dynd::nd::make_strided_array_from_data` of libdynd. The
array it makes has the given element type, flags, data pointer and memory block, and
an arrmeta buffer "whose FixedDim stride/size records mirror the foreign
strides/shape exactly"; the arrmeta of the element type follows the `ndim` records. -/
def make_strided_array_from_data (d : ndt_type) (dims strides : List Int) (flags : Nat)
    (data : Nat) (memblock : memory_block) : nd_array × Nat :=
  ({ tp := d, dims := dims, strides := strides, flags := flags, data_pointer := some data,
     memblock := memblock, arrmeta := write_dim_records dims strides 0 (fun _ => 0) },
   dims.length * sizeof_fixed_dim_type_arrmeta)

/-- Host macro `Py_INCREF` on the table of reference counts. -/
def Py_INCREF (refcnt : Nat → Int) (ob : Nat) : Nat → Int :=
  fun a => if a = ob then refcnt a + 1 else refcnt a

/-- Host macro `Py_DECREF` on the table of reference counts. -/
def Py_DECREF (refcnt : Nat → Int) (ob : Nat) : Nat → Int :=
  fun a => if a = ob then refcnt a - 1 else refcnt a

/-- Host macro `Py_XDECREF`: nothing for `NULL`. -/
def Py_XDECREF (refcnt : Nat → Int) (ob : Nat) : Nat → Int :=
  if ob = 0 then refcnt else Py_DECREF refcnt ob

/-- Embedding of `pydynd::array_from_numpy_array(obj, access_flags, always_copy)` on
the table of reference counts `refcnt`: the array made and the new table, or the
exception thrown. -/
def array_from_numpy_array (c : array_access_flags) (env : import_env)
    (refcnt : Nat → Int) (obj : PyArrayObject) (access_flags : Nat) (always_copy : Bool) :
    Except exception (nd_array × (Nat → Int)) :=
  -- If a copy isn't requested, make sure the access flags are ok
  let checked : Except exception Unit :=
    if !always_copy then
      if access_flags &&& c.write_access_flag ≠ 0 ∧ !PyArray_ISWRITEABLE obj then
        .error (.runtime_error "cannot view a readonly numpy array as readwrite")
      else if access_flags &&& c.immutable_access_flag ≠ 0 then
        .error (.runtime_error "cannot view a numpy array as immutable")
      else
        .ok ()
    else
      .ok ()
  match checked with
  | .error e => .error e
  | .ok () =>
    let dtype := obj.descr
    if always_copy ∨ PyDataType_FLAGCHK dtype NPY_ITEM_HASOBJECT then
      match env._type_from_numpy_dtype obj.descr 0 with
      | .error e => .error e
      | .ok tp =>
        match env.dtyped_empty obj.dims (env.get_canonical_type tp) with
        | .error e => .error e
        | .ok result =>
          match env.array_copy_from_numpy result obj with
          | .error e => .error e
          | .ok result =>
            if access_flags ≠ 0 then
              -- Use the requested access flags
              .ok ({ result with flags := access_flags }, refcnt)
            else
              .ok ({ result with flags := c.default_access_flags }, refcnt)
    else
      -- Get the dtype of the array
      match env._type_from_numpy_dtype obj.descr (get_alignment_of_array obj.data obj.strides) with
      | .error e => .error e
      | .ok d =>
        -- Get a shared pointer that tracks buffer ownership
        let base := obj.base
        let (memblock, refcnt) :=
          if base = 0 ∨ obj.flags &&& NPY_ARRAY_UPDATEIFCOPY ≠ 0 then
            (memory_block.external obj.ob, Py_INCREF refcnt obj.ob)
          else if env.is_dynd_array base then
            -- If the base of the numpy array is an nd::array, skip the Python reference
            (memory_block.data_memblock_of base, refcnt)
          else
            (memory_block.external base, Py_INCREF refcnt base)
        -- Create the result nd::array
        let (result, arrmeta) := make_strided_array_from_data d obj.dims obj.strides
          (c.read_access_flag ||| (if PyArray_ISWRITEABLE obj then c.write_access_flag else 0))
          obj.data memblock
        let filled : Except exception nd_array :=
          match d with
          | .struct _ _ =>
            -- If it's a struct, there's additional arrmeta that needs to be populated
            match fill_arrmeta_from_numpy_dtype d obj.descr arrmeta result.arrmeta with
            | .error e => .error e
            | .ok (mem, _) => .ok { result with arrmeta := mem }
          | _ => .ok result
        match filled with
        | .error e => .error e
        | .ok result =>
          if access_flags ≠ 0 then
            -- Use the requested access flags
            .ok ({ result with flags := access_flags }, refcnt)
          else
            .ok (result, refcnt)

/-! ### Release of the owner (utility_functions.hpp, lines 117-137) -/

/-- The steps of `py_decref_function` that the host can observe. -/
inductive gil_event where
  | PyGILState_Ensure
  | Py_DECREF (ob : Nat)
  | PyGILState_Release
  deriving DecidableEq, Repr

/-- Embedding of `pydynd::py_decref_function(void *obj)` on the table of reference
counts and the log of observable steps. -/
def py_decref_function (refcnt : Nat → Int) (log : List gil_event) (obj : Nat) :
    (Nat → Int) × List gil_event :=
  if obj ≠ 0 then
    let log := log ++ [gil_event.PyGILState_Ensure]
    let refcnt := Py_DECREF refcnt obj
    let log := log ++ [gil_event.Py_DECREF obj]
    let log := log ++ [gil_event.PyGILState_Release]
    (refcnt, log)
  else
    (refcnt, log)

/-- The access check at the head of `array_from_numpy_array` lets the request pass:
neither of its two `throw` statements is reached. -/
def access_check_passes (c : array_access_flags) (obj : PyArrayObject) (access_flags : Nat)
    (always_copy : Bool) : Prop :=
  always_copy = true ∨
    (¬ (access_flags &&& c.write_access_flag ≠ 0 ∧ PyArray_ISWRITEABLE obj = false) ∧
      access_flags &&& c.immutable_access_flag = 0)

/-- The owner that the view path pins (lines 534-551): the memory block of the view
and the table of reference counts after the selection. -/
def view_owner (env : import_env) (refcnt : Nat → Int) (obj : PyArrayObject) :
    memory_block × (Nat → Int) :=
  if obj.base = 0 ∨ obj.flags &&& NPY_ARRAY_UPDATEIFCOPY ≠ 0 then
    (memory_block.external obj.ob, Py_INCREF refcnt obj.ob)
  else if env.is_dynd_array obj.base then
    (memory_block.data_memblock_of obj.base, refcnt)
  else
    (memory_block.external obj.base, Py_INCREF refcnt obj.base)

/-- The access flags of a view (lines 557-558 and 566-569): the requested flags when
these are not 0, else read access, with write access when the foreign array is
writeable. -/
def view_flags (c : array_access_flags) (obj : PyArrayObject) (access_flags : Nat) : Nat :=
  if access_flags ≠ 0 then access_flags
  else c.read_access_flag ||| (if PyArray_ISWRITEABLE obj then c.write_access_flag else 0)

/-- The arrmeta buffer of a view before the arrmeta of a struct element type is
filled: the dimension records that mirror the foreign shape and strides. -/
def view_dim_records (obj : PyArrayObject) : arrmeta_t :=
  write_dim_records obj.dims obj.strides 0 (fun _ => 0)

/-! ## Export: `numpy_dtype_from__type` (numpy_interop.cpp, lines 99-284) -/

/-- The NumPy type numbers that export uses. -/
inductive NPY_TYPES where
  | NPY_BOOL
  | NPY_INT8 | NPY_INT16 | NPY_INT32 | NPY_INT64
  | NPY_UINT8 | NPY_UINT16 | NPY_UINT32 | NPY_UINT64
  | NPY_FLOAT32 | NPY_FLOAT64
  | NPY_CFLOAT | NPY_CDOUBLE
  | NPY_STRING | NPY_UNICODE
  deriving DecidableEq, Repr

/-- Item size in bytes of the builtin NumPy descriptor of a type number (0 for the
flexible types, whose size is set by the caller). -/
def NPY_TYPES.elsize : NPY_TYPES → Int
  | .NPY_BOOL => 1
  | .NPY_INT8 => 1 | .NPY_INT16 => 2 | .NPY_INT32 => 4 | .NPY_INT64 => 8
  | .NPY_UINT8 => 1 | .NPY_UINT16 => 2 | .NPY_UINT32 => 4 | .NPY_UINT64 => 8
  | .NPY_FLOAT32 => 4 | .NPY_FLOAT64 => 8
  | .NPY_CFLOAT => 8 | .NPY_CDOUBLE => 16
  | .NPY_STRING => 0 | .NPY_UNICODE => 0

/-- A foreign descriptor as export makes it: its type number and its `elsize`. -/
structure npy_descr where
  type_num : NPY_TYPES
  elsize : Int
  deriving DecidableEq, Repr

/-- NumPy API `PyArray_DescrFromType`: the builtin descriptor of a type number. -/
def PyArray_DescrFromType (t : NPY_TYPES) : npy_descr :=
  { type_num := t, elsize := t.elsize }

/-- NumPy API `PyArray_DescrNewFromType`: a new copy of the builtin descriptor. -/
def PyArray_DescrNewFromType (t : NPY_TYPES) : npy_descr :=
  { type_num := t, elsize := t.elsize }

/-- Conversion `(int)x` of a `size_t`: the low 32 bits, read as two's complement. -/
def to_int (x : Nat) : Int :=
  if x % 2 ^ 32 < 2 ^ 31 then ((x % 2 ^ 32 : Nat) : Int) else ((x % 2 ^ 32 : Nat) : Int) - 2 ^ 32

/-- The exception thrown at the end of `numpy_dtype_from__type`; `print` is the
printing of a type into a stream (libdynd). -/
def cannot_convert (print : ndt_type → String) (tp : ndt_type) : exception :=
  .type_error ("cannot convert dynd type " ++ print tp ++ " into a Numpy dtype")

/-- Embedding of `pydynd::numpy_dtype_from__type(const ndt::type &tp)`: the foreign
descriptor returned, or the exception thrown. The struct, tuple and fixed dimension
cases of the source are commented out. -/
def numpy_dtype_from__type (print : ndt_type → String) (tp : ndt_type) :
    Except exception npy_descr :=
  match tp with
  | .builtin .bool_id => .ok (PyArray_DescrFromType .NPY_BOOL)
  | .builtin .int8_id => .ok (PyArray_DescrFromType .NPY_INT8)
  | .builtin .int16_id => .ok (PyArray_DescrFromType .NPY_INT16)
  | .builtin .int32_id => .ok (PyArray_DescrFromType .NPY_INT32)
  | .builtin .int64_id => .ok (PyArray_DescrFromType .NPY_INT64)
  | .builtin .uint8_id => .ok (PyArray_DescrFromType .NPY_UINT8)
  | .builtin .uint16_id => .ok (PyArray_DescrFromType .NPY_UINT16)
  | .builtin .uint32_id => .ok (PyArray_DescrFromType .NPY_UINT32)
  | .builtin .uint64_id => .ok (PyArray_DescrFromType .NPY_UINT64)
  | .builtin .float32_id => .ok (PyArray_DescrFromType .NPY_FLOAT32)
  | .builtin .float64_id => .ok (PyArray_DescrFromType .NPY_FLOAT64)
  | .builtin .complex_float32_id => .ok (PyArray_DescrFromType .NPY_CFLOAT)
  | .builtin .complex_float64_id => .ok (PyArray_DescrFromType .NPY_CDOUBLE)
  | .fixed_string data_size encoding =>
    match encoding with
    | .string_encoding_ascii =>
      let result := PyArray_DescrNewFromType .NPY_STRING
      .ok { result with elsize := to_int data_size }
    | .string_encoding_utf_32 =>
      let result := PyArray_DescrNewFromType .NPY_UNICODE
      .ok { result with elsize := to_int data_size }
    | _ => .error (cannot_convert print tp)
  | .view value_type operand_type =>
    -- If there's a view which is for alignment purposes, throw it
    -- away because Numpy works differently
    match operand_type with
    | .fixed_bytes _ => numpy_dtype_from__type print value_type
    | _ => .error (cannot_convert print tp)
  | _ => .error (cannot_convert print tp)

/-! ### Vocabulary for the export claims -/

/-- Kind and signedness of a scalar. -/
inductive scalar_kind where
  | boolean
  | signed_int
  | unsigned_int
  | floating
  | complex
  deriving DecidableEq, Repr

/-- Kind, signedness and byte width of the builtin type descriptors that are Bool, Int
of width 8 to 64, Float of width 32 or 64, or Complex over float32 or float64. -/
def builtin_id.primitive : builtin_id → Option (scalar_kind × Int)
  | .bool_id => some (.boolean, 1)
  | .int8_id => some (.signed_int, 1)
  | .int16_id => some (.signed_int, 2)
  | .int32_id => some (.signed_int, 4)
  | .int64_id => some (.signed_int, 8)
  | .uint8_id => some (.unsigned_int, 1)
  | .uint16_id => some (.unsigned_int, 2)
  | .uint32_id => some (.unsigned_int, 4)
  | .uint64_id => some (.unsigned_int, 8)
  | .float32_id => some (.floating, 4)
  | .float64_id => some (.floating, 8)
  | .complex_float32_id => some (.complex, 8)
  | .complex_float64_id => some (.complex, 16)
  | _ => Option.none

/-- Kind, signedness and byte width of the foreign primitive kinds. -/
def NPY_TYPES.primitive : NPY_TYPES → Option (scalar_kind × Int)
  | .NPY_BOOL => some (.boolean, 1)
  | .NPY_INT8 => some (.signed_int, 1)
  | .NPY_INT16 => some (.signed_int, 2)
  | .NPY_INT32 => some (.signed_int, 4)
  | .NPY_INT64 => some (.signed_int, 8)
  | .NPY_UINT8 => some (.unsigned_int, 1)
  | .NPY_UINT16 => some (.unsigned_int, 2)
  | .NPY_UINT32 => some (.unsigned_int, 4)
  | .NPY_UINT64 => some (.unsigned_int, 8)
  | .NPY_FLOAT32 => some (.floating, 4)
  | .NPY_FLOAT64 => some (.floating, 8)
  | .NPY_CFLOAT => some (.complex, 8)
  | .NPY_CDOUBLE => some (.complex, 16)
  | _ => Option.none


/-- The exportable types of the specification: Bool, Int and UInt of width 8 to 64,
Float32, Float64, Complex over float32 or float64, FixedString with ASCII or UTF-32
encoding, and a view over fixed bytes of an exportable value type. -/
def exportable : ndt_type → Bool
  | .builtin id => id.primitive.isSome
  | .fixed_string _ encoding =>
    encoding == .string_encoding_ascii || encoding == .string_encoding_utf_32
  | .view value_type (.fixed_bytes _) => exportable value_type
  | _ => false

/-! ### Export with arrmeta (numpy_interop.cpp, lines 285-356) -/

/-- Embedding of `pydynd::numpy_dtype_from__type(const ndt::type &tp, const char
*arrmeta)`; `arrmeta` is `none` for `NULL`. The first statement of the struct case is
`throw std::runtime_error("converting")`, so the statements after it (the check of
`arrmeta`, the lists of names, formats and offsets, the item size and the call of
`PyArray_DescrConverter`) are never reached. -/
def numpy_dtype_from__type_arrmeta (print : ndt_type → String) (tp : ndt_type)
    (_arrmeta : Option Nat) : Except exception npy_descr :=
  match tp with
  | .struct _ _ =>
    -- throw std::runtime_error("converting");
    .error (.runtime_error "converting")
  | _ => numpy_dtype_from__type print tp
/-! ## Conversion kernels (copy_to_pyobject_ckernel.cpp)

Kernels run on a host state: memory cells by address (one cell per C object: a
`char`, an integer or a pointer), the table of reference counts, the host objects
allocated so far, a log of the kernel functions invoked through a function pointer,
and a log of the stores and of the reference count changes, in the order in which
they happen. A kernel function is identified by its code address; `self` is the byte
offset of a kernel record in the chain buffer. -/

/-- One step of a kernel that the log of events records: a store into a memory cell,
a `Py_DECREF` or a `Py_INCREF` of a host object. -/
inductive ref_event where
  | store (addr v : Nat)
  | Py_DECREF (ob : Nat)
  | Py_INCREF (ob : Nat)
  deriving DecidableEq, Repr

/-- The host state on which kernels run. -/
structure kernel_state where
  mem : Nat → Nat
  refcnt : Nat → Int
  heap : Nat → Option PyObject
  next : Nat
  calls : List (Nat × Nat)
  events : List ref_event

/-- Store into one memory cell. -/
def kernel_state.write (st : kernel_state) (addr v : Nat) : kernel_state :=
  { st with
      mem := fun a => if a = addr then v else st.mem a
      events := st.events ++ [ref_event.store addr v] }

/-- Host macro `Py_XDECREF` on the host state: nothing for `NULL`. -/
def kernel_state.Py_XDECREF (st : kernel_state) (ob : Nat) : kernel_state :=
  if ob = 0 then st
  else { st with
      refcnt := Py_DECREF st.refcnt ob
      events := st.events ++ [ref_event.Py_DECREF ob] }

/-- Host macro `Py_INCREF` on the host state. -/
def kernel_state.Py_INCREF (st : kernel_state) (ob : Nat) : kernel_state :=
  { st with
      refcnt := pydynd.Py_INCREF st.refcnt ob
      events := st.events ++ [ref_event.Py_INCREF ob] }

/-- A new host object with the given value: one reference, at the next free address. -/
def kernel_state.new_object (st : kernel_state) (v : PyObject) : kernel_state × Nat :=
  ({ st with
      heap := fun a => if a = st.next then some v else st.heap a
      refcnt := fun a => if a = st.next then 1 else st.refcnt a
      next := st.next + 1 },
   st.next)

/-- A kernel record as far as its parent sees it: the function pointer stored in its
`ckernel_prefix`. -/
structure ckernel_prefix where
  function : Nat

/-- Type `expr_single_t` of a kernel function, `void (char *dst, char *const *src,
ckernel_prefix *self)`, run on the chain buffer and the host state. -/
abbrev expr_single_t :=
  (Nat → ckernel_prefix) → kernel_state → Nat → Nat → Nat → kernel_state

/-- Call through a function pointer: the code at address `fn` is run, and the call is
logged with the record it is given as `self`. -/
def invoke (code : Nat → expr_single_t) (ckb : Nat → ckernel_prefix) (fn : Nat)
    (st : kernel_state) (dst src self : Nat) : kernel_state :=
  code fn ckb { st with calls := st.calls ++ [(fn, self)] } dst src self

/-- Size in bytes of `ckernel_prefix`: the function pointer and the destructor
pointer. -/
def sizeof_ckernel_prefix : Nat := 16

/-- Size in bytes of `option_ck`: the prefix and `intptr_t m_copy_value_offset`. -/
def sizeof_option_ck : Nat := sizeof_ckernel_prefix + 8

/-- Embedding of `option_ck::single(dst, src)` for the record at offset `self` of the
chain buffer `ckb`, with member `m_copy_value_offset`; `frame` is the address of the
local variable `value_is_avail`. -/
def option_ck.single (code : Nat → expr_single_t) (ckb : Nat → ckernel_prefix)
    (Py_None frame self m_copy_value_offset : Nat)
    (st : kernel_state) (dst src : Nat) : kernel_state :=
  -- Py_XDECREF(*dst_obj); *dst_obj = NULL;
  let st := st.Py_XDECREF (st.mem dst)
  let st := st.write dst 0
  -- ckernel_prefix *is_avail = get_child_ckernel();
  let is_avail := self + sizeof_option_ck
  let is_avail_fn := (ckb is_avail).function
  -- ckernel_prefix *copy_value = get_child_ckernel(m_copy_value_offset);
  let copy_value := self + m_copy_value_offset
  -- expr_single_t copy_value_fn = is_avail->get_function<expr_single_t>();
  let copy_value_fn := (ckb is_avail).function
  -- char value_is_avail = 0;
  let st := st.write frame 0
  let st := invoke code ckb is_avail_fn st frame src is_avail
  if st.mem frame ≠ 0 then
    invoke code ckb copy_value_fn st dst src copy_value
  else
    let st := st.write dst Py_None
    st.Py_INCREF (st.mem dst)

/-- The value of an `int32_t` read from a memory cell. -/
def to_int32 (x : Nat) : Int :=
  if x % 2 ^ 32 < 2 ^ 31 then ((x % 2 ^ 32 : Nat) : Int) else ((x % 2 ^ 32 : Nat) : Int) - 2 ^ 32

/-- Embedding of `pyint_from_int(int32_t)`. -/
def pyint_from_int_int32 (v : Int) : Int := PyLong_FromLong v

/-- Embedding of `int_ck<int32_t>::single(dst, src)`. -/
def int_ck_int32.single (st : kernel_state) (dst src : Nat) : kernel_state :=
  -- Py_XDECREF(*dst_obj); *dst_obj = NULL;
  let st := st.Py_XDECREF (st.mem dst)
  let st := st.write dst 0
  -- *dst_obj = pyint_from_int(*reinterpret_cast<const T *>(src));
  let (st, ob) := st.new_object (.int (pyint_from_int_int32 (to_int32 (st.mem src))))
  st.write dst ob

/-- Modelled from the spec: the is-available predicate kernel of `Option{Int32}`
(libdynd), "invoked against the source element": it stores 1 at its destination when
the element is available and 0 when it holds the missing marker, the smallest
`int32_t`. -/
def is_avail_int32.single (st : kernel_state) (dst src : Nat) : kernel_state :=
  st.write dst (if to_int32 (st.mem src) = -2 ^ 31 then 0 else 1)

/-! ### Fixed-width strings: the length handed to the decoder (lines 266-320) -/

/-- Algorithm `std::find(first, first + n, 0) - first` on a sequence of code units:
`loop r i` scans the `r` units from index `i` on. -/
def std_find.loop (unit : Nat → Nat) : Nat → Nat → Nat
  | 0, i => i
  | r + 1, i => if unit i = 0 then i else std_find.loop unit r (i + 1)

/-- Index of the first zero among the first `n` code units, `n` if there is none. -/
def std_find (unit : Nat → Nat) (n : Nat) : Nat :=
  std_find.loop unit n 0

/-- Code unit `i` of `reinterpret_cast<const uint16_t *>(src)`, for the bytes `src`. -/
def char16_src (src : Nat → Nat) (i : Nat) : Nat :=
  src (2 * i) % 256 + 256 * (src (2 * i + 1) % 256)

/-- Code unit `i` of `reinterpret_cast<const uint32_t *>(src)`, for the bytes `src`. -/
def char32_src (src : Nat → Nat) (i : Nat) : Nat :=
  src (4 * i) % 256 + 256 * (src (4 * i + 1) % 256) + 65536 * (src (4 * i + 2) % 256)
    + 16777216 * (src (4 * i + 3) % 256)

/-- Length passed to `PyUnicode_DecodeASCII` by `fixedstring_ascii_ck::single`:
`find(src, src + m_data_size, 0) - src`. -/
def fixedstring_ascii_ck.size (m_data_size : Nat) (src : Nat → Nat) : Nat :=
  std_find (fun i => src i % 256) m_data_size

/-- Length passed to `PyUnicode_DecodeUTF8` by `fixedstring_utf8_ck::single`:
`find(src, src + m_data_size, 0) - src`. -/
def fixedstring_utf8_ck.size (m_data_size : Nat) (src : Nat → Nat) : Nat :=
  std_find (fun i => src i % 256) m_data_size

/-- Length passed to `PyUnicode_DecodeUTF16` by `fixedstring_utf16_ck::single`:
`size * 2` for `size = find(char16_src, char16_src + (m_data_size >> 1), 0) -
char16_src`. -/
def fixedstring_utf16_ck.size (m_data_size : Nat) (src : Nat → Nat) : Nat :=
  std_find (char16_src src) (m_data_size >>> 1) * 2

/-- Length passed to `PyUnicode_DecodeUTF32` by `fixedstring_utf32_ck::single`:
`size * 4` for `size = find(char32_src, char32_src + (m_data_size >> 2), 0) -
char32_src`. -/
def fixedstring_utf32_ck.size (m_data_size : Nat) (src : Nat → Nat) : Nat :=
  std_find (char32_src src) (m_data_size >>> 2) * 4

/-- The four fixed-width string kernels. -/
inductive fixedstring_ck where
  | fixedstring_ascii_ck
  | fixedstring_utf8_ck
  | fixedstring_utf16_ck
  | fixedstring_utf32_ck
  deriving DecidableEq, Repr

/-- Size in bytes of the code unit that a fixed-width string kernel scans. -/
def fixedstring_ck.unit_size : fixedstring_ck → Nat
  | .fixedstring_ascii_ck => 1
  | .fixedstring_utf8_ck => 1
  | .fixedstring_utf16_ck => 2
  | .fixedstring_utf32_ck => 4

/-- Code unit `i` of the source buffer as a fixed-width string kernel reads it. -/
def fixedstring_ck.unit (k : fixedstring_ck) (src : Nat → Nat) (i : Nat) : Nat :=
  match k with
  | .fixedstring_ascii_ck => src i % 256
  | .fixedstring_utf8_ck => src i % 256
  | .fixedstring_utf16_ck => char16_src src i
  | .fixedstring_utf32_ck => char32_src src i

/-- Number of bytes that a fixed-width string kernel hands to its decoder. -/
def fixedstring_ck.size (k : fixedstring_ck) (m_data_size : Nat) (src : Nat → Nat) : Nat :=
  match k with
  | .fixedstring_ascii_ck => fixedstring_ascii_ck.size m_data_size src
  | .fixedstring_utf8_ck => fixedstring_utf8_ck.size m_data_size src
  | .fixedstring_utf16_ck => fixedstring_utf16_ck.size m_data_size src
  | .fixedstring_utf32_ck => fixedstring_utf32_ck.size m_data_size src

/-! ### A chain for `Option{Int32}`

The chain that `make_copy_to_pyobject_kernel` lays out for `Option{Int32}` at root
offset 0: the `option_ck` record, the is-available predicate at offset 24 and
`int_ck<int32_t>` at offset 40. Code address 1 is the predicate kernel function,
code address 2 the function of `int_ck<int32_t>`. -/

/-- The code behind the two function pointers of the `Option{Int32}` chain. -/
def option_int32_code (fn : Nat) : expr_single_t :=
  if fn = 1 then fun _ st dst src _ => is_avail_int32.single st dst src
  else fun _ st dst src _ => int_ck_int32.single st dst src

/-- The records of the `Option{Int32}` chain: function pointer 1 at offset 24,
function pointer 2 elsewhere. -/
def option_int32_ckb (offset : Nat) : ckernel_prefix :=
  { function := if offset = 24 then 1 else 2 }

/-- A host state whose source element, at address 200, holds the `int32_t` bits `v`;
the destination slot at address 100 is `NULL`, no host object is allocated and the
next free address is 1000. -/
def option_int32_state (v : Nat) : kernel_state :=
  { mem := fun a => if a = 200 then v else 0
    refcnt := fun _ => 1
    heap := fun _ => Option.none
    next := 1000
    calls := []
    events := [] }

/-! ## `make_copy_to_pyobject_kernel` (copy_to_pyobject_ckernel.cpp, lines 415-576) -/

/-- Request modes (`kernel_request_t`). -/
inductive kernel_request_t where
  | kernel_request_single
  | kernel_request_strided
  deriving DecidableEq, Repr

/-- The kernels of copy_to_pyobject_ckernel.cpp with the members they store;
`is_avail_ck` stands for whatever the is-available arrfunc of an option type builds. -/
inductive ck where
  | bool_ck
  | int_ck (T : builtin_id)
  | float_ck (T : builtin_id)
  | complex_float_ck (T : builtin_id)
  | bytes_ck
  | fixedbytes_ck (m_data_size : Nat)
  | char_ck
  | string_ascii_ck
  | string_utf8_ck
  | string_utf16_ck
  | string_utf32_ck
  | fixedstring_ascii_ck (m_data_size : Nat)
  | fixedstring_utf8_ck (m_data_size : Nat)
  | fixedstring_utf16_ck (m_data_size : Nat)
  | fixedstring_utf32_ck (m_data_size : Nat)
  | date_ck (m_src_tp : ndt_type) (m_src_arrmeta : Nat)
  | time_ck (m_src_tp : ndt_type) (m_src_arrmeta : Nat)
  | datetime_ck (m_src_tp : ndt_type) (m_src_arrmeta : Nat)
  | type_ck
  | option_ck (m_copy_value_offset : Int)
  | is_avail_ck

/-- Size in bytes of a kernel structure: the prefix and the members, 8 bytes each. -/
def ck.sizeof : ck → Nat
  | .fixedbytes_ck _ => sizeof_ckernel_prefix + 8
  | .fixedstring_ascii_ck _ => sizeof_ckernel_prefix + 8
  | .fixedstring_utf8_ck _ => sizeof_ckernel_prefix + 8
  | .fixedstring_utf16_ck _ => sizeof_ckernel_prefix + 8
  | .fixedstring_utf32_ck _ => sizeof_ckernel_prefix + 8
  | .date_ck _ _ => sizeof_ckernel_prefix + 16
  | .time_ck _ _ => sizeof_ckernel_prefix + 16
  | .datetime_ck _ _ => sizeof_ckernel_prefix + 16
  | .option_ck _ => sizeof_option_ck
  | _ => sizeof_ckernel_prefix

/-- A record of the chain buffer: where it starts, the request mode it was created
with, and the kernel. -/
structure ck_record where
  offset : Nat
  kernreq : kernel_request_t
  kernel : ck

/-- The chain buffer under construction (`ckernel_builder`): its records, in the order
of their creation. -/
abbrev ckernel_builder := List ck_record

/-- Modelled from the spec: `create` / `create_leaf` of `kernels::unary_ck` (libdynd):
the record is reserved at the current chain offset ("a parent reserves its header
before recursing") and the offset, passed by reference, advances past it. -/
def ck.create (ckb : ckernel_builder) (kernreq : kernel_request_t) (ckb_offset : Nat)
    (self : ck) : ckernel_builder × Nat :=
  (ckb ++ [{ offset := ckb_offset, kernreq := kernreq, kernel := self }],
   ckb_offset + self.sizeof)

/-- Assignment `self->m_copy_value_offset = v` for `self = ckb->get_at<option_ck>(root)`. -/
def set_copy_value_offset (ckb : ckernel_builder) (root : Nat) (v : Int) : ckernel_builder :=
  ckb.map fun r =>
    match r.kernel with
    | .option_ck _ => if r.offset = root then { r with kernel := .option_ck v } else r
    | _ => r

/-- The exception thrown at the end of `make_copy_to_pyobject_kernel`; `print` is the
printing of a type into a stream (libdynd). -/
def unable_to_copy (print : ndt_type → String) (src_tp : ndt_type) : exception :=
  .invalid_argument ("Unable to copy dynd value with type " ++ print src_tp ++
    " to a Python object")

/-- Embedding of `pydynd::make_copy_to_pyobject_kernel(ckb, ckb_offset, src_tp,
src_arrmeta, kernreq, ectx)`: the chain buffer and the chain offset returned, or the
exception thrown. The parameter `print` is the printing of a type into a stream. -/
def make_copy_to_pyobject_kernel (print : ndt_type → String) (ckb : ckernel_builder)
    (ckb_offset : Nat) (src_tp : ndt_type) (src_arrmeta : Nat)
    (kernreq : kernel_request_t) : Except exception (ckernel_builder × Nat) :=
  match src_tp with
  | .builtin .bool_id => .ok (ck.create ckb kernreq ckb_offset .bool_ck)
  | .builtin .int8_id => .ok (ck.create ckb kernreq ckb_offset (.int_ck .int8_id))
  | .builtin .int16_id => .ok (ck.create ckb kernreq ckb_offset (.int_ck .int16_id))
  | .builtin .int32_id => .ok (ck.create ckb kernreq ckb_offset (.int_ck .int32_id))
  | .builtin .int64_id => .ok (ck.create ckb kernreq ckb_offset (.int_ck .int64_id))
  | .builtin .int128_id => .ok (ck.create ckb kernreq ckb_offset (.int_ck .int128_id))
  | .builtin .uint8_id => .ok (ck.create ckb kernreq ckb_offset (.int_ck .uint8_id))
  | .builtin .uint16_id => .ok (ck.create ckb kernreq ckb_offset (.int_ck .uint16_id))
  | .builtin .uint32_id => .ok (ck.create ckb kernreq ckb_offset (.int_ck .uint32_id))
  | .builtin .uint64_id => .ok (ck.create ckb kernreq ckb_offset (.int_ck .uint64_id))
  | .builtin .uint128_id => .ok (ck.create ckb kernreq ckb_offset (.int_ck .uint128_id))
  | .builtin .float16_id => .ok (ck.create ckb kernreq ckb_offset (.float_ck .float16_id))
  | .builtin .float32_id => .ok (ck.create ckb kernreq ckb_offset (.float_ck .float32_id))
  | .builtin .float64_id => .ok (ck.create ckb kernreq ckb_offset (.float_ck .float64_id))
  | .builtin .complex_float32_id =>
    .ok (ck.create ckb kernreq ckb_offset (.complex_float_ck .float32_id))
  | .builtin .complex_float64_id =>
    .ok (ck.create ckb kernreq ckb_offset (.complex_float_ck .float64_id))
  | .bytes => .ok (ck.create ckb kernreq ckb_offset .bytes_ck)
  | .fixed_bytes data_size => .ok (ck.create ckb kernreq ckb_offset (.fixedbytes_ck data_size))
  | .char => .ok (ck.create ckb kernreq ckb_offset .char_ck)
  | .string encoding =>
    match encoding with
    | .string_encoding_ascii => .ok (ck.create ckb kernreq ckb_offset .string_ascii_ck)
    | .string_encoding_utf_8 => .ok (ck.create ckb kernreq ckb_offset .string_utf8_ck)
    | .string_encoding_ucs_2 => .ok (ck.create ckb kernreq ckb_offset .string_utf16_ck)
    | .string_encoding_utf_16 => .ok (ck.create ckb kernreq ckb_offset .string_utf16_ck)
    | .string_encoding_utf_32 => .ok (ck.create ckb kernreq ckb_offset .string_utf32_ck)
    | _ => .error (unable_to_copy print src_tp)
  | .fixed_string data_size encoding =>
    match encoding with
    | .string_encoding_ascii =>
      .ok (ck.create ckb kernreq ckb_offset (.fixedstring_ascii_ck data_size))
    | .string_encoding_utf_8 =>
      .ok (ck.create ckb kernreq ckb_offset (.fixedstring_utf8_ck data_size))
    | .string_encoding_ucs_2 =>
      .ok (ck.create ckb kernreq ckb_offset (.fixedstring_utf16_ck data_size))
    | .string_encoding_utf_16 =>
      .ok (ck.create ckb kernreq ckb_offset (.fixedstring_utf16_ck data_size))
    | .string_encoding_utf_32 =>
      .ok (ck.create ckb kernreq ckb_offset (.fixedstring_utf32_ck data_size))
    | _ => .error (unable_to_copy print src_tp)
  | .date => .ok (ck.create ckb kernreq ckb_offset (.date_ck src_tp src_arrmeta))
  | .time => .ok (ck.create ckb kernreq ckb_offset (.time_ck src_tp src_arrmeta))
  | .datetime => .ok (ck.create ckb kernreq ckb_offset (.datetime_ck src_tp src_arrmeta))
  | .type => .ok (ck.create ckb kernreq ckb_offset .type_ck)
  | .option value_type is_avail_af =>
    let root_ckb_offset := ckb_offset
    let (ckb, ckb_offset) := ck.create ckb kernreq ckb_offset (.option_ck 0)
    match is_avail_af.instantiate ckb_offset with
    | .error e => .error e
    | .ok ckb_offset' =>
      let ckb := ckb ++ [{ offset := ckb_offset, kernreq := .kernel_request_single,
                           kernel := .is_avail_ck }]
      let ckb_offset := ckb_offset'
      let ckb := set_copy_value_offset ckb root_ckb_offset
        ((ckb_offset : Int) - (root_ckb_offset : Int))
      make_copy_to_pyobject_kernel print ckb ckb_offset value_type src_arrmeta
        .kernel_request_single
  | _ => .error (unable_to_copy print src_tp)

/-- The type descriptors whose variant no `case` of the `switch` in
`make_copy_to_pyobject_kernel` converts: structs, fixed dimensions, views, the
variants the source does not name, the builtin types `float128` and `void`, and
strings and fixed-width strings whose stored encoding is none of ASCII, UTF-8, UCS-2,
UTF-16, UTF-32. -/
def no_conversion_case : ndt_type → Bool
  | .struct _ _ => true
  | .fixed_dim _ _ => true
  | .view _ _ => true
  | .other _ => true
  | .builtin .float128_id => true
  | .builtin .void_id => true
  | .string .string_encoding_invalid => true
  | .fixed_string _ .string_encoding_invalid => true
  | _ => false

/-! ### Vocabulary for the claims about the set of convertible types -/

/-- The types, other than Option, that the specification lists as convertible: Bool;
Int of width 8 to 128, signed or unsigned; Float of width 16, 32 or 64; Complex over
float32 or float64; Bytes; FixedBytes; Char; Date; Time; DateTime; TypeValue; String
or FixedString with encoding ASCII, UTF-8, UCS-2, UTF-16 or UTF-32. -/
def in_leaf_set : ndt_type → Bool
  | .builtin id =>
    match id with
    | .bool_id => true
    | .int8_id | .int16_id | .int32_id | .int64_id | .int128_id => true
    | .uint8_id | .uint16_id | .uint32_id | .uint64_id | .uint128_id => true
    | .float16_id | .float32_id | .float64_id => true
    | .complex_float32_id | .complex_float64_id => true
    | _ => false
  | .bytes => true
  | .fixed_bytes _ => true
  | .char => true
  | .date => true
  | .time => true
  | .datetime => true
  | .type => true
  | .string encoding => encoding != .string_encoding_invalid
  | .fixed_string _ encoding => encoding != .string_encoding_invalid
  | _ => false

/-- The leaf kernel that the specification assigns to a type of the leaf set: selected
by the variant tag and, for strings, by the stored encoding, UCS-2 using the UTF-16
kernel. -/
def leaf_kernel (tp : ndt_type) (src_arrmeta : Nat) : Option ck :=
  match tp with
  | .builtin id =>
    match id with
    | .bool_id => some .bool_ck
    | .int8_id | .int16_id | .int32_id | .int64_id | .int128_id => some (.int_ck id)
    | .uint8_id | .uint16_id | .uint32_id | .uint64_id | .uint128_id => some (.int_ck id)
    | .float16_id | .float32_id | .float64_id => some (.float_ck id)
    | .complex_float32_id => some (.complex_float_ck .float32_id)
    | .complex_float64_id => some (.complex_float_ck .float64_id)
    | _ => Option.none
  | .bytes => some .bytes_ck
  | .fixed_bytes data_size => some (.fixedbytes_ck data_size)
  | .char => some .char_ck
  | .date => some (.date_ck tp src_arrmeta)
  | .time => some (.time_ck tp src_arrmeta)
  | .datetime => some (.datetime_ck tp src_arrmeta)
  | .type => some .type_ck
  | .string encoding =>
    match encoding with
    | .string_encoding_ascii => some .string_ascii_ck
    | .string_encoding_utf_8 => some .string_utf8_ck
    | .string_encoding_ucs_2 | .string_encoding_utf_16 => some .string_utf16_ck
    | .string_encoding_utf_32 => some .string_utf32_ck
    | .string_encoding_invalid => Option.none
  | .fixed_string data_size encoding =>
    match encoding with
    | .string_encoding_ascii => some (.fixedstring_ascii_ck data_size)
    | .string_encoding_utf_8 => some (.fixedstring_utf8_ck data_size)
    | .string_encoding_ucs_2 | .string_encoding_utf_16 => some (.fixedstring_utf16_ck data_size)
    | .string_encoding_utf_32 => some (.fixedstring_utf32_ck data_size)
    | .string_encoding_invalid => Option.none
  | _ => Option.none

/-- The convertible types of the specification, for a chain built at offset `off`: the
types of the leaf set, and `Option{value_type}` where the is-available predicate
instantiates (right after the header of the option record) and `value_type` is
convertible at the offset that the predicate returns. -/
def convertible : Nat → ndt_type → Prop
  | off, .option value_type is_avail_af =>
    ∃ off', is_avail_af.instantiate (off + sizeof_option_ck) = .ok off' ∧
      convertible off' value_type
  | _, tp => in_leaf_set tp = true

/-! ## The `single` functions of the conversion kernels (lines 36-404)

Every kernel reads its destination slot as a `PyObject *`, releases what the slot
holds and stores a new reference. The host functions that make the new object, and
the accessors of libdynd that read a source element, are parameters: a host function
gives the value of the object it makes, or nothing when it fails and returns `NULL`. -/

/-- The host API and the libdynd accessors that the kernels call. -/
structure host_api where
  /-- Addresses of the singletons `Py_True`, `Py_False` and `Py_None`. -/
  Py_True : Nat
  Py_False : Nat
  Py_None : Nat
  /-- `PyFloat_FromDouble`, on the bits of a value of the floating point type `T`. -/
  PyFloat_FromDouble : builtin_id → Nat → Option PyObject
  /-- `PyComplex_FromDoubles`, on the bits of the real and of the imaginary part. -/
  PyComplex_FromDoubles : builtin_id → Nat → Nat → Option PyObject
  /-- `PyBytes_FromStringAndSize(v, len)`, reading the memory at `v`. -/
  PyBytes_FromStringAndSize : (Nat → Nat) → Nat → Int → Option PyObject
  /-- `PyUnicode_DecodeASCII(s, size, NULL)`. -/
  PyUnicode_DecodeASCII : (Nat → Nat) → Nat → Int → Option PyObject
  /-- `PyUnicode_DecodeUTF8(s, size, NULL)`. -/
  PyUnicode_DecodeUTF8 : (Nat → Nat) → Nat → Int → Option PyObject
  /-- `PyUnicode_DecodeUTF16(s, size, NULL, NULL)`. -/
  PyUnicode_DecodeUTF16 : (Nat → Nat) → Nat → Int → Option PyObject
  /-- `PyUnicode_DecodeUTF32(s, size, NULL, NULL)`. -/
  PyUnicode_DecodeUTF32 : (Nat → Nat) → Nat → Int → Option PyObject
  /-- `date_type::get_ymd(arrmeta, data)`: year, month, day. -/
  get_ymd : ndt_type → Nat → (Nat → Nat) → Nat → Int × Int × Int
  /-- `time_type::get_time(arrmeta, data)`: hour, minute, second, tick. -/
  get_time : ndt_type → Nat → (Nat → Nat) → Nat → Int × Int × Int × Int
  /-- `datetime_type::get_cal(arrmeta, data, ...)`: year, month, day, hour, minute,
  second, tick. -/
  get_cal : ndt_type → Nat → (Nat → Nat) → Nat → Int × Int × Int × Int × Int × Int × Int
  /-- Constant `DYND_TICKS_PER_MICROSECOND` of libdynd. -/
  DYND_TICKS_PER_MICROSECOND : Int
  /-- `PyDate_FromDate(year, month, day)`. -/
  PyDate_FromDate : Int → Int → Int → Option PyObject
  /-- `PyTime_FromTime(hour, minute, second, usecond)`. -/
  PyTime_FromTime : Int → Int → Int → Int → Option PyObject
  /-- `PyDateTime_FromDateAndTime(year, month, day, hour, minute, second, usecond)`. -/
  PyDateTime_FromDateAndTime : Int → Int → Int → Int → Int → Int → Int → Option PyObject
  /-- `wrap_ndt_type`, on the type held by a `type_type_data`. -/
  wrap_ndt_type : Nat → Option PyObject

/-- Assignment `*dst_obj = f(...)` for a host function `f` that returns a new reference
or `NULL`: the object with value `v` is allocated and its address stored, or `NULL` is
stored. -/
def kernel_state.store_new (st : kernel_state) (dst : Nat) (v : Option PyObject) :
    kernel_state :=
  match v with
  | some v =>
    let (st, ob) := st.new_object v
    st.write dst ob
  | Option.none => st.write dst 0

/-- Embedding of `bool_ck::single(dst, src)`. -/
def bool_ck.single (api : host_api) (st : kernel_state) (dst src : Nat) : kernel_state :=
  -- Py_XDECREF(*dst_obj);
  let st := st.Py_XDECREF (st.mem dst)
  -- *dst_obj = (*src != 0) ? Py_True : Py_False;
  let st := st.write dst (if st.mem src % 256 ≠ 0 then api.Py_True else api.Py_False)
  -- Py_INCREF(*dst_obj);
  st.Py_INCREF (st.mem dst)

/-- The value of a two's complement integer of `w` bits read from a memory cell. -/
def to_signed (w : Nat) (x : Nat) : Int :=
  if x % 2 ^ w < 2 ^ (w - 1) then ((x % 2 ^ w : Nat) : Int)
  else ((x % 2 ^ w : Nat) : Int) - 2 ^ w

/-- Host API `PyLong_FromUnsignedLong`. -/
def PyLong_FromUnsignedLong (v : Nat) : Int := (v : Int)

/-- The overloads of `pyint_from_int` (lines 46-145) on the element of type `T` at
`src`; a 128 bit integer has its low half in the first cell and its high half 8 bytes
later. The host integers that the 128 bit overloads make on the way are released
before they return. -/
def pyint_from_int (T : builtin_id) (mem : Nat → Nat) (src : Nat) : Int :=
  match T with
  | .int8_id => PyLong_FromLong (to_signed 8 (mem src))
  | .uint8_id => PyLong_FromLong ((mem src % 2 ^ 8 : Nat) : Int)
  | .int16_id => PyLong_FromLong (to_signed 16 (mem src))
  | .uint16_id => PyLong_FromLong ((mem src % 2 ^ 16 : Nat) : Int)
  | .int32_id => pyint_from_int_int32 (to_int32 (mem src))
  | .uint32_id => PyLong_FromUnsignedLong (mem src % 2 ^ 32)
  | .int64_id => PyLong_FromLong (to_int64 (mem src))
  | .uint64_id => PyLong_FromUnsignedLong (mem src % 2 ^ 64)
  | .int128_id =>
    pyint_from_int_int128 { m_lo := mem src % 2 ^ 64, m_hi := mem (src + 8) % 2 ^ 64 }
  | .uint128_id =>
    pyint_from_int_uint128 { m_lo := mem src % 2 ^ 64, m_hi := mem (src + 8) % 2 ^ 64 }
  | _ => 0

/-- Embedding of `int_ck<T>::single(dst, src)`. -/
def int_ck.single (T : builtin_id) (st : kernel_state) (dst src : Nat) : kernel_state :=
  -- Py_XDECREF(*dst_obj); *dst_obj = NULL;
  let st := st.Py_XDECREF (st.mem dst)
  let st := st.write dst 0
  -- *dst_obj = pyint_from_int(*reinterpret_cast<const T *>(src));
  st.store_new dst (some (.int (pyint_from_int T st.mem src)))

/-- Embedding of `float_ck<T>::single(dst, src)`. -/
def float_ck.single (api : host_api) (T : builtin_id) (st : kernel_state) (dst src : Nat) :
    kernel_state :=
  -- Py_XDECREF(*dst_obj); *dst_obj = NULL;
  let st := st.Py_XDECREF (st.mem dst)
  let st := st.write dst 0
  -- *dst_obj = PyFloat_FromDouble(*reinterpret_cast<const T *>(src));
  st.store_new dst (api.PyFloat_FromDouble T (st.mem src))

/-- Size in bytes of a builtin floating point type. -/
def builtin_id.float_size : builtin_id → Nat
  | .float16_id => 2
  | .float32_id => 4
  | .float64_id => 8
  | .float128_id => 16
  | _ => 0

/-- Embedding of `complex_float_ck<T>::single(dst, src)`. -/
def complex_float_ck.single (api : host_api) (T : builtin_id) (st : kernel_state)
    (dst src : Nat) : kernel_state :=
  -- Py_XDECREF(*dst_obj); *dst_obj = NULL;
  let st := st.Py_XDECREF (st.mem dst)
  let st := st.write dst 0
  -- const dynd_complex<T> *val = reinterpret_cast<const dynd_complex<T> *>(src);
  let real := st.mem src
  let imag := st.mem (src + T.float_size)
  -- *dst_obj = PyComplex_FromDoubles(val->real(), val->imag());
  st.store_new dst (api.PyComplex_FromDoubles T real imag)

/-- Embedding of `bytes_ck::single(dst, src)`. -/
def bytes_ck.single (api : host_api) (st : kernel_state) (dst src : Nat) : kernel_state :=
  -- Py_XDECREF(*dst_obj); *dst_obj = NULL;
  let st := st.Py_XDECREF (st.mem dst)
  let st := st.write dst 0
  -- const bytes_type_data *bd = reinterpret_cast<const bytes_type_data *>(src);
  let bd_begin := st.mem src
  let bd_end := st.mem (src + 8)
  -- *dst_obj = PyBytes_FromStringAndSize(bd->begin, bd->end - bd->begin);
  st.store_new dst
    (api.PyBytes_FromStringAndSize st.mem bd_begin ((bd_end : Int) - (bd_begin : Int)))

/-- Embedding of `fixedbytes_ck::single(dst, src)`. -/
def fixedbytes_ck.single (api : host_api) (m_data_size : Nat) (st : kernel_state)
    (dst src : Nat) : kernel_state :=
  -- Py_XDECREF(*dst_obj); *dst_obj = NULL;
  let st := st.Py_XDECREF (st.mem dst)
  let st := st.write dst 0
  -- *dst_obj = PyBytes_FromStringAndSize(src, m_data_size);
  st.store_new dst (api.PyBytes_FromStringAndSize st.mem src m_data_size)

/-- Embedding of `char_ck::single(dst, src)`. -/
def char_ck.single (api : host_api) (st : kernel_state) (dst src : Nat) : kernel_state :=
  -- Py_XDECREF(*dst_obj); *dst_obj = NULL;
  let st := st.Py_XDECREF (st.mem dst)
  let st := st.write dst 0
  -- *dst_obj = PyUnicode_DecodeUTF32(src, 4, NULL, NULL);
  st.store_new dst (api.PyUnicode_DecodeUTF32 st.mem src 4)

/-- Embedding of `string_ascii_ck::single(dst, src)`. -/
def string_ascii_ck.single (api : host_api) (st : kernel_state) (dst src : Nat) :
    kernel_state :=
  -- Py_XDECREF(*dst_obj); *dst_obj = NULL;
  let st := st.Py_XDECREF (st.mem dst)
  let st := st.write dst 0
  -- const string_type_data *sd = reinterpret_cast<const string_type_data *>(src);
  let sd_begin := st.mem src
  let sd_end := st.mem (src + 8)
  -- *dst_obj = PyUnicode_DecodeASCII(sd->begin, sd->end - sd->begin, NULL);
  st.store_new dst
    (api.PyUnicode_DecodeASCII st.mem sd_begin ((sd_end : Int) - (sd_begin : Int)))

/-- Embedding of `string_utf8_ck::single(dst, src)`. -/
def string_utf8_ck.single (api : host_api) (st : kernel_state) (dst src : Nat) :
    kernel_state :=
  -- Py_XDECREF(*dst_obj); *dst_obj = NULL;
  let st := st.Py_XDECREF (st.mem dst)
  let st := st.write dst 0
  -- const string_type_data *sd = reinterpret_cast<const string_type_data *>(src);
  let sd_begin := st.mem src
  let sd_end := st.mem (src + 8)
  -- *dst_obj = PyUnicode_DecodeUTF8(sd->begin, sd->end - sd->begin, NULL);
  st.store_new dst
    (api.PyUnicode_DecodeUTF8 st.mem sd_begin ((sd_end : Int) - (sd_begin : Int)))

/-- Embedding of `string_utf16_ck::single(dst, src)`. -/
def string_utf16_ck.single (api : host_api) (st : kernel_state) (dst src : Nat) :
    kernel_state :=
  -- Py_XDECREF(*dst_obj); *dst_obj = NULL;
  let st := st.Py_XDECREF (st.mem dst)
  let st := st.write dst 0
  -- const string_type_data *sd = reinterpret_cast<const string_type_data *>(src);
  let sd_begin := st.mem src
  let sd_end := st.mem (src + 8)
  -- *dst_obj = PyUnicode_DecodeUTF16(sd->begin, sd->end - sd->begin, NULL, NULL);
  st.store_new dst
    (api.PyUnicode_DecodeUTF16 st.mem sd_begin ((sd_end : Int) - (sd_begin : Int)))

/-- Embedding of `string_utf32_ck::single(dst, src)`. -/
def string_utf32_ck.single (api : host_api) (st : kernel_state) (dst src : Nat) :
    kernel_state :=
  -- Py_XDECREF(*dst_obj); *dst_obj = NULL;
  let st := st.Py_XDECREF (st.mem dst)
  let st := st.write dst 0
  -- const string_type_data *sd = reinterpret_cast<const string_type_data *>(src);
  let sd_begin := st.mem src
  let sd_end := st.mem (src + 8)
  -- *dst_obj = PyUnicode_DecodeUTF32(sd->begin, sd->end - sd->begin, NULL, NULL);
  st.store_new dst
    (api.PyUnicode_DecodeUTF32 st.mem sd_begin ((sd_end : Int) - (sd_begin : Int)))

/-- Embedding of `fixedstring_ascii_ck::single(dst, src)`. -/
def fixedstring_ascii_ck.single (api : host_api) (m_data_size : Nat) (st : kernel_state)
    (dst src : Nat) : kernel_state :=
  -- Py_XDECREF(*dst_obj); *dst_obj = NULL;
  let st := st.Py_XDECREF (st.mem dst)
  let st := st.write dst 0
  -- intptr_t size = find(src, src + m_data_size, 0) - src;
  let size := fixedstring_ascii_ck.size m_data_size (fun i => st.mem (src + i))
  -- *dst_obj = PyUnicode_DecodeASCII(src, size, NULL);
  st.store_new dst (api.PyUnicode_DecodeASCII st.mem src size)

/-- Embedding of `fixedstring_utf8_ck::single(dst, src)`. -/
def fixedstring_utf8_ck.single (api : host_api) (m_data_size : Nat) (st : kernel_state)
    (dst src : Nat) : kernel_state :=
  -- Py_XDECREF(*dst_obj); *dst_obj = NULL;
  let st := st.Py_XDECREF (st.mem dst)
  let st := st.write dst 0
  -- intptr_t size = find(src, src + m_data_size, 0) - src;
  let size := fixedstring_utf8_ck.size m_data_size (fun i => st.mem (src + i))
  -- *dst_obj = PyUnicode_DecodeUTF8(src, size, NULL);
  st.store_new dst (api.PyUnicode_DecodeUTF8 st.mem src size)

/-- Embedding of `fixedstring_utf16_ck::single(dst, src)`. -/
def fixedstring_utf16_ck.single (api : host_api) (m_data_size : Nat) (st : kernel_state)
    (dst src : Nat) : kernel_state :=
  -- Py_XDECREF(*dst_obj); *dst_obj = NULL;
  let st := st.Py_XDECREF (st.mem dst)
  let st := st.write dst 0
  -- intptr_t size = find(char16_src, char16_src + (m_data_size >> 1), 0) - char16_src;
  -- *dst_obj = PyUnicode_DecodeUTF16(src, size * 2, NULL, NULL);
  st.store_new dst (api.PyUnicode_DecodeUTF16 st.mem src
    (fixedstring_utf16_ck.size m_data_size (fun i => st.mem (src + i))))

/-- Embedding of `fixedstring_utf32_ck::single(dst, src)`. -/
def fixedstring_utf32_ck.single (api : host_api) (m_data_size : Nat) (st : kernel_state)
    (dst src : Nat) : kernel_state :=
  -- Py_XDECREF(*dst_obj); *dst_obj = NULL;
  let st := st.Py_XDECREF (st.mem dst)
  let st := st.write dst 0
  -- intptr_t size = find(char32_src, char32_src + (m_data_size >> 2), 0) - char32_src;
  -- *dst_obj = PyUnicode_DecodeUTF32(src, size * 4, NULL, NULL);
  st.store_new dst (api.PyUnicode_DecodeUTF32 st.mem src
    (fixedstring_utf32_ck.size m_data_size (fun i => st.mem (src + i))))

/-- Embedding of `date_ck::single(dst, src)`. -/
def date_ck.single (api : host_api) (m_src_tp : ndt_type) (m_src_arrmeta : Nat)
    (st : kernel_state) (dst src : Nat) : kernel_state :=
  -- Py_XDECREF(*dst_obj); *dst_obj = NULL;
  let st := st.Py_XDECREF (st.mem dst)
  let st := st.write dst 0
  -- date_ymd ymd = dd->get_ymd(m_src_arrmeta, src);
  let (year, month, day) := api.get_ymd m_src_tp m_src_arrmeta st.mem src
  -- *dst_obj = PyDate_FromDate(ymd.year, ymd.month, ymd.day);
  st.store_new dst (api.PyDate_FromDate year month day)

/-- Embedding of `time_ck::single(dst, src)`. -/
def time_ck.single (api : host_api) (m_src_tp : ndt_type) (m_src_arrmeta : Nat)
    (st : kernel_state) (dst src : Nat) : kernel_state :=
  -- Py_XDECREF(*dst_obj); *dst_obj = NULL;
  let st := st.Py_XDECREF (st.mem dst)
  let st := st.write dst 0
  -- time_hmst hmst = tt->get_time(m_src_arrmeta, src);
  let (hour, minute, second, tick) := api.get_time m_src_tp m_src_arrmeta st.mem src
  -- *dst_obj = PyTime_FromTime(hmst.hour, hmst.minute, hmst.second,
  --                            hmst.tick / DYND_TICKS_PER_MICROSECOND);
  st.store_new dst
    (api.PyTime_FromTime hour minute second (Int.tdiv tick api.DYND_TICKS_PER_MICROSECOND))

/-- Embedding of `datetime_ck::single(dst, src)`. -/
def datetime_ck.single (api : host_api) (m_src_tp : ndt_type) (m_src_arrmeta : Nat)
    (st : kernel_state) (dst src : Nat) : kernel_state :=
  -- Py_XDECREF(*dst_obj); *dst_obj = NULL;
  let st := st.Py_XDECREF (st.mem dst)
  let st := st.write dst 0
  -- dd->get_cal(m_src_arrmeta, src, year, month, day, hour, minute, second, tick);
  let (year, month, day, hour, minute, second, tick) :=
    api.get_cal m_src_tp m_src_arrmeta st.mem src
  -- int32_t usecond = tick / 10;
  let usecond := Int.tdiv tick 10
  -- *dst_obj = PyDateTime_FromDateAndTime(year, month, day, hour, minute, second, usecond);
  st.store_new dst
    (api.PyDateTime_FromDateAndTime year month day hour minute second usecond)

/-- Embedding of `type_ck::single(dst, src)`. -/
def type_ck.single (api : host_api) (st : kernel_state) (dst src : Nat) : kernel_state :=
  -- Py_XDECREF(*dst_obj); *dst_obj = NULL;
  let st := st.Py_XDECREF (st.mem dst)
  let st := st.write dst 0
  -- ndt::type tp(reinterpret_cast<const type_type_data *>(src)->tp, true);
  let tp := st.mem src
  -- *dst_obj = wrap_ndt_type(DYND_MOVE(tp));
  st.store_new dst (api.wrap_ndt_type tp)

/-- The function `single` of the kernel in the record at offset `self` of the chain
buffer: what a call through the function pointer of the record runs. The local
variable of `option_ck::single` is at address `frame`; the record of the is-available
predicate runs the code that its function pointer names. -/
def ck.single (api : host_api) (code : Nat → expr_single_t) (ckb : Nat → ckernel_prefix)
    (frame self : Nat) : ck → kernel_state → Nat → Nat → kernel_state
  | .bool_ck => bool_ck.single api
  | .int_ck T => int_ck.single T
  | .float_ck T => float_ck.single api T
  | .complex_float_ck T => complex_float_ck.single api T
  | .bytes_ck => bytes_ck.single api
  | .fixedbytes_ck m_data_size => fixedbytes_ck.single api m_data_size
  | .char_ck => char_ck.single api
  | .string_ascii_ck => string_ascii_ck.single api
  | .string_utf8_ck => string_utf8_ck.single api
  | .string_utf16_ck => string_utf16_ck.single api
  | .string_utf32_ck => string_utf32_ck.single api
  | .fixedstring_ascii_ck m_data_size => fixedstring_ascii_ck.single api m_data_size
  | .fixedstring_utf8_ck m_data_size => fixedstring_utf8_ck.single api m_data_size
  | .fixedstring_utf16_ck m_data_size => fixedstring_utf16_ck.single api m_data_size
  | .fixedstring_utf32_ck m_data_size => fixedstring_utf32_ck.single api m_data_size
  | .date_ck m_src_tp m_src_arrmeta => date_ck.single api m_src_tp m_src_arrmeta
  | .time_ck m_src_tp m_src_arrmeta => time_ck.single api m_src_tp m_src_arrmeta
  | .datetime_ck m_src_tp m_src_arrmeta => datetime_ck.single api m_src_tp m_src_arrmeta
  | .type_ck => type_ck.single api
  | .option_ck m_copy_value_offset =>
    option_ck.single code ckb api.Py_None frame self m_copy_value_offset.toNat
  | .is_avail_ck => fun st dst src => code (ckb self).function ckb st dst src self
/-! ## `pyobject_ownref` (utility_functions.hpp, lines 25-103)

A holder of one reference. Member functions run on the holder and on the table of
reference counts, and give both back, also when they throw. -/

/-- A holder (`pyobject_ownref`): its member `m_obj`, 0 for `NULL`. -/
structure pyobject_ownref where
  m_obj : Nat
  deriving DecidableEq, Repr

/-- The message of the exception that the holder throws on `NULL`. -/
def propagating : exception := .runtime_error "propagating a Python exception..."

/-- Constructor `pyobject_ownref()`. -/
def pyobject_ownref.ctor_default : pyobject_ownref := { m_obj := 0 }

/-- Constructor `pyobject_ownref(PyObject *obj)`: the holder, or the exception thrown
(no holder exists then, and no destructor runs). -/
def pyobject_ownref.ctor (obj : Nat) : Except exception pyobject_ownref :=
  if obj = 0 then .error propagating
  else .ok { m_obj := obj }

/-- Constructor `pyobject_ownref(PyObject *obj, bool inc_ref)`. -/
def pyobject_ownref.ctor_inc_ref (refcnt : Nat → Int) (obj : Nat) (inc_ref : Bool) :
    Except exception (pyobject_ownref × (Nat → Int)) :=
  if obj = 0 then .error propagating
  else if inc_ref then .ok ({ m_obj := obj }, Py_INCREF refcnt obj)
  else .ok ({ m_obj := obj }, refcnt)

/-- Destructor `~pyobject_ownref()`: `Py_XDECREF(m_obj)`. -/
def pyobject_ownref.dtor (self : pyobject_ownref) (refcnt : Nat → Int) : Nat → Int :=
  Py_XDECREF refcnt self.m_obj

/-- Embedding of `pyobject_ownref::reset(PyObject *obj)`: whether it threw, the holder
and the table of reference counts afterwards. -/
def pyobject_ownref.reset (self : pyobject_ownref) (refcnt : Nat → Int) (obj : Nat) :
    Except exception Unit × pyobject_ownref × (Nat → Int) :=
  if obj = 0 then
    (.error propagating, self, refcnt)
  else
    let refcnt := Py_XDECREF refcnt self.m_obj
    let self := { self with m_obj := obj }
    (.ok (), self, refcnt)

/-- Embedding of `pyobject_ownref::clear()`. -/
def pyobject_ownref.clear (self : pyobject_ownref) (refcnt : Nat → Int) :
    pyobject_ownref × (Nat → Int) :=
  let refcnt := Py_XDECREF refcnt self.m_obj
  let self := { self with m_obj := 0 }
  (self, refcnt)

/-- Embedding of `pyobject_ownref::get()`. -/
def pyobject_ownref.get (self : pyobject_ownref) : Nat := self.m_obj

/-- Embedding of `pyobject_ownref::release()`: the pointer returned, the holder and the
table of reference counts afterwards. -/
def pyobject_ownref.release (self : pyobject_ownref) (refcnt : Nat → Int) :
    Nat × pyobject_ownref × (Nat → Int) :=
  let result := self.m_obj
  let self := { self with m_obj := 0 }
  (result, self, refcnt)

/-! ## `pyobject_as_int_index` (utility_functions.hpp, lines 159-174) -/

/-- Embedding of `pyobject_as_int_index(PyObject *index)` for a C `long` of `long_bits`
bits. `PyNumber_Index` fails on an object that is not an integer, and the constructor
of `pyobject_ownref` then throws; `PyLong_AsLong` fails on an integer outside the
range of `long`, and a bare `std::exception` is thrown. -/
def pyobject_as_int_index (long_bits : Nat) (index : PyObject) : Except exception Int :=
  match index with
  | .int v =>
    -- long result = PyLong_AsLong(start_obj);
    if -(2 ^ (long_bits - 1) : Int) ≤ v ∧ v < 2 ^ (long_bits - 1) then
      let result := v
      -- (unsigned long)result
      let u := (result % 2 ^ long_bits).toNat
      if u &&& 0xffffffff ≠ u then
        .error (.overflow_error "overflow converting Python integer to 32-bit int")
      else
        -- return (int)result;
        .ok (to_int u)
    else .error .std_exception
  | _ => .error propagating
/-! ## `array_from_ptr` (py_lowlevel_api.cpp, lines 31-59) -/

/-- The functions that `array_from_ptr` calls and whose source is not part of this
repository's low level API code: parameters of the embedding. -/
structure lowlevel_env where
  /-- `make_ndt_type_from_pyobject`. -/
  make_ndt_type_from_pyobject : PyObject → Except exception ndt_type
  /-- `pyobject_as_size_t`. -/
  pyobject_as_size_t : PyObject → Except exception Nat
  /-- `ndt::type::get_metadata_size`. -/
  get_metadata_size : ndt_type → Nat
  /-- Printing of a type into a stream. -/
  print : ndt_type → String
  /-- The exception that `pyarg_strings_to_int` throws for an object that matches none
  of its strings. -/
  no_match : String → exception

/-- Modelled from the spec: `pyarg_strings_to_int(obj, argname, default_value, string0,
value0, ...)`, declared in utility_functions.hpp and defined outside this repository's
sources: "Matches the input object against one of several strings, returning the
corresponding integer"; an argument left out (`None`) gives the default value. -/
def pyarg_strings_to_int (no_match : String → exception) (obj : PyObject) (argname : String)
    (default_value : Nat) (table : List (String × Nat)) : Except exception Nat :=
  match obj with
  | .none => .ok default_value
  | .str s =>
    match table.lookup s with
    | some value => .ok value
    | Option.none => .error (no_match argname)
  | _ => .error (no_match argname)

/-- Embedding of `array_from_ptr(dt, ptr, owner, access)`: the array wrapped, or the
exception that `translate_exception` turns into a host error while `NULL` is returned,
and the table of reference counts afterwards. `owner` is the address of the owner
object. -/
def array_from_ptr (c : array_access_flags) (env : lowlevel_env) (refcnt : Nat → Int)
    (dt ptr : PyObject) (owner : Nat) (access : PyObject) :
    Except exception nd_array × (Nat → Int) :=
  -- ndt::type d = make_ndt_type_from_pyobject(dt);
  match env.make_ndt_type_from_pyobject dt with
  | .error e => (.error e, refcnt)
  | .ok d =>
    -- size_t ptr_val = pyobject_as_size_t(ptr);
    match env.pyobject_as_size_t ptr with
    | .error e => (.error e, refcnt)
    | .ok ptr_val =>
      -- uint32_t access_flags = pyarg_strings_to_int(access, "access", ...);
      match pyarg_strings_to_int env.no_match access "access" c.read_access_flag
          [("readwrite", c.read_access_flag ||| c.write_access_flag),
           ("readonly", c.read_access_flag),
           ("immutable", c.read_access_flag ||| c.immutable_access_flag)] with
      | .error e => (.error e, refcnt)
      | .ok v =>
        let access_flags := v % 2 ^ 32
        if env.get_metadata_size d ≠ 0 then
          (.error (.runtime_error
            ("Cannot create a dynd array from a raw pointer with non-empty metadata, type: "
              ++ env.print d)), refcnt)
        else
          -- nd::array result(make_array_memory_block(0));
          -- result.get_ndo()->m_data_pointer = reinterpret_cast<char *>(ptr_val);
          -- memory_block_ptr owner_memblock =
          --     make_external_memory_block(owner, &py_decref_function);
          let owner_memblock := memory_block.external owner
          -- Py_INCREF(owner);
          let refcnt := Py_INCREF refcnt owner
          -- result.get_ndo()->m_data_reference = owner_memblock.release();
          -- result.get_ndo()->m_flags = access_flags;
          (.ok { tp := d, dims := [], strides := [], flags := access_flags,
                 data_pointer := some ptr_val, memblock := owner_memblock,
                 arrmeta := fun _ => 0 }, refcnt)
/-! ## `array_from_numpy_scalar` (numpy_interop.cpp, lines 590-700) -/

/-- NumPy datetime unit `NPY_FR_Y` (years). -/
def NPY_FR_Y : Int := 0

/-- NumPy datetime unit `NPY_FR_M` (months). -/
def NPY_FR_M : Int := 1

/-- NumPy datetime unit `NPY_FR_W` (weeks). -/
def NPY_FR_W : Int := 2

/-- NumPy datetime unit `NPY_FR_D` (days). -/
def NPY_FR_D : Int := 4

/-- NumPy datetime unit `NPY_FR_h` (hours). -/
def NPY_FR_h : Int := 5

/-- NumPy datetime unit `NPY_FR_s` (seconds). -/
def NPY_FR_s : Int := 7

/-- NumPy constant `NPY_DATETIME_NAT`, the smallest `int64_t`. -/
def NPY_DATETIME_NAT : Int := -2 ^ 63

/-- A NumPy scalar object as `PyArray_IsScalar` classifies it, with its `obval`; for a
datetime scalar also `obmeta.base`, for a void scalar the address of the object, and
for every other object the `repr` of its type. -/
inductive numpy_scalar where
  | Bool (obval : Nat)
  | Byte (obval : Int)
  | UByte (obval : Int)
  | Short (obval : Int)
  | UShort (obval : Int)
  | Int (obval : Int)
  | UInt (obval : Int)
  | Long (obval : Int)
  | ULong (obval : Int)
  | LongLong (obval : Int)
  | ULongLong (obval : Int)
  | Float (obval : Nat)
  | Double (obval : Nat)
  | CFloat (real imag : Nat)
  | CDouble (real imag : Nat)
  | Datetime (obval : Int) (base : Int)
  | Void (ob : Nat)
  | other (type_repr : String)

/-- A scalar array made by `dynd::nd::array(value)` or `dynd::nd::empty(tp)`: its type,
the values stored in its data and its access flags. -/
structure scalar_array where
  tp : ndt_type
  data : List Int
  flags : Nat

/-- What `array_from_numpy_scalar` returns: a scalar array of its own, or the array
that `array_from_numpy_array` made for a void scalar. -/
inductive scalar_import where
  | scalar (a : scalar_array)
  | array (a : nd_array)

/-- The functions and constants that `array_from_numpy_scalar` uses and whose source is
not part of this repository's import code: parameters of the embedding. -/
structure scalar_env where
  /-- The builtin ids of the C types `long` and `unsigned long`. -/
  long_id : builtin_id
  ulong_id : builtin_id
  /-- Constant `DYND_DATE_NA` of libdynd. -/
  DYND_DATE_NA : Int
  /-- `date_ymd::to_days()` of libdynd, on year, month and day. -/
  to_days : Int → Int → Int → Int
  /-- `PyArray_FromAny(obj, NULL, 0, 0, 0, NULL)`: the array made and the table of
  reference counts with the new reference, or nothing for `NULL`. -/
  PyArray_FromAny : Nat → (Nat → Int) → Option (PyArrayObject × (Nat → Int))

/-- Conversion `static_cast<intN_t>(x)` to a signed integer type of `w` bits. -/
def static_cast_int (w : Nat) (x : Int) : Int :=
  to_signed w (x % 2 ^ w).toNat

/-- The datetime case of `array_from_numpy_scalar` (lines 643-681): the type and the
data of `result` after it, `none` while `result` is still null, or the exception
thrown. -/
def array_from_numpy_scalar.datetime (senv : scalar_env) (val base : Int) :
    Except exception (Option (ndt_type × List Int)) :=
  if base ≤ NPY_FR_D then
    -- result = dynd::nd::empty(dynd::ndt::date_type::make());
    if val = NPY_DATETIME_NAT then
      .ok (some (.date, [senv.DYND_DATE_NA]))
    else if base = NPY_FR_Y then
      let year := static_cast_int 16 (val + 1970)
      let month := 1
      let day := 1
      .ok (some (.date, [senv.to_days year month day]))
    else if base = NPY_FR_M then
      let year :=
        if val ≥ 0 then static_cast_int 16 (Int.tdiv val 12 + 1970)
        else static_cast_int 16 (Int.tdiv (val - 11) 12 + 1970)
      let month := static_cast_int 8 (val - (year - 1970) * 12 + 1)
      let day := 1
      .ok (some (.date, [senv.to_days year month day]))
    else if base = NPY_FR_D then
      .ok (some (.date, [static_cast_int 32 val]))
    else
      .error (.type_error "Unsupported NumPy date unit")
  else
    .ok Option.none

/-- Embedding of `pydynd::array_from_numpy_scalar(obj, access_flags)` on the table of
reference counts: what is returned and the new table, or the exception thrown. The
final assignment `result.get()->flags = ...` on a `result` that is still null is marked
as undefined. -/
def array_from_numpy_scalar (c : array_access_flags) (senv : scalar_env) (env : import_env)
    (refcnt : Nat → Int) (obj : numpy_scalar) (access_flags : Nat) :
    Except exception (scalar_import × (Nat → Int)) :=
  let finish (result : Option (ndt_type × List Int)) :
      Except exception (scalar_import × (Nat → Int)) :=
    match result with
    | Option.none => .error (.undefined "result.get()->flags on a null nd::array")
    | some (tp, data) =>
      .ok (.scalar { tp := tp, data := data,
                     flags := if access_flags ≠ 0 then access_flags
                              else c.default_access_flags }, refcnt)
  match obj with
  | .Bool obval => finish (some (.builtin .bool_id, [if obval ≠ 0 then 1 else 0]))
  | .Byte obval => finish (some (.builtin .int8_id, [obval]))
  | .UByte obval => finish (some (.builtin .uint8_id, [obval]))
  | .Short obval => finish (some (.builtin .int16_id, [obval]))
  | .UShort obval => finish (some (.builtin .uint16_id, [obval]))
  | .Int obval => finish (some (.builtin .int32_id, [obval]))
  | .UInt obval => finish (some (.builtin .uint32_id, [obval]))
  | .Long obval => finish (some (.builtin senv.long_id, [obval]))
  | .ULong obval => finish (some (.builtin senv.ulong_id, [obval]))
  | .LongLong obval => finish (some (.builtin .int64_id, [obval]))
  | .ULongLong obval => finish (some (.builtin .uint64_id, [obval]))
  | .Float obval => finish (some (.builtin .float32_id, [(obval : Int)]))
  | .Double obval => finish (some (.builtin .float64_id, [(obval : Int)]))
  | .CFloat real imag =>
    finish (some (.builtin .complex_float32_id, [(real : Int), (imag : Int)]))
  | .CDouble real imag =>
    finish (some (.builtin .complex_float64_id, [(real : Int), (imag : Int)]))
  | .Datetime val base =>
    match array_from_numpy_scalar.datetime senv val base with
    | .error e => .error e
    | .ok result => finish result
  | .Void ob =>
    -- pyobject_ownref arr(PyArray_FromAny(obj, NULL, 0, 0, 0, NULL));
    match senv.PyArray_FromAny ob refcnt with
    | Option.none => .error propagating
    | some (arr, refcnt) =>
      -- return array_from_numpy_array((PyArrayObject *)arr.get(), access_flags, true);
      match array_from_numpy_array c env refcnt arr access_flags true with
      | .error e => .error e
      | .ok (r, refcnt) => .ok (.array r, Py_XDECREF refcnt arr.ob)
  | .other type_repr =>
    .error (.type_error ("could not create a dynd array from the numpy scalar object" ++
      " of type " ++ type_repr))
/-! # Part II: theorems -/

/-! ## Results of fallible code -/

theorem except_cases {α : Type} (x : Except exception α) :
    (∃ e, x = .error e) ∨ (∃ a, x = .ok a) := by
  cases x with
  | error e => exact Or.inl ⟨e, rfl⟩
  | ok a => exact Or.inr ⟨a, rfl⟩

/-! ## Alignment detection -/

theorem mod_two_pow_eq_zero_iff (x k : Nat) :
    x % 2 ^ k = 0 ↔ ∀ i, i < k → x.testBit i = false := by
  constructor
  · intro h i hi
    have := Nat.testBit_mod_two_pow x k i
    rw [h] at this
    simpa [hi] using this.symm
  · intro h
    apply Nat.eq_of_testBit_eq
    intro i
    rw [Nat.testBit_mod_two_pow]
    by_cases hi : i < k
    · simp [hi, h i hi]
    · simp [hi]

theorem two_pow_dvd_or (a b k : Nat) :
    2 ^ k ∣ (a ||| b) ↔ 2 ^ k ∣ a ∧ 2 ^ k ∣ b := by
  simp only [Nat.dvd_iff_mod_eq_zero, mod_two_pow_eq_zero_iff, Nat.testBit_or,
    Bool.or_eq_false_iff]
  constructor
  · intro h; exact ⟨fun i hi => (h i hi).1, fun i hi => (h i hi).2⟩
  · intro h i hi; exact ⟨h.1 i hi, h.2 i hi⟩

theorem two_pow_dvd_to_uintptr (s : Int) (k : Nat) (hk : k ≤ 64) :
    2 ^ k ∣ to_uintptr s ↔ ((2 ^ k : Nat) : Int) ∣ s := by
  unfold to_uintptr
  have hnn : 0 ≤ s % 2 ^ 64 := Int.emod_nonneg _ (by norm_num)
  have hd : ((2 ^ k : Nat) : Int) ∣ (2 ^ 64 : Int) := by
    have : (2:Int) ^ k ∣ 2 ^ 64 := pow_dvd_pow 2 hk
    simpa using this
  rw [← Int.natCast_dvd_natCast, Int.toNat_of_nonneg hnn]
  exact EuclideanDomain.dvd_mod_iff hd

theorem two_pow_dvd_foldl (k : Nat) (hk : k ≤ 64) (strides : List Int) (p : Nat) :
    2 ^ k ∣ strides.foldl (fun align_bits s => align_bits ||| to_uintptr s) p ↔
      2 ^ k ∣ p ∧ ∀ s ∈ strides, ((2 ^ k : Nat) : Int) ∣ s := by
  induction strides generalizing p with
  | nil => simp
  | cons s rest ih =>
    simp only [List.foldl_cons, ih, two_pow_dvd_or, two_pow_dvd_to_uintptr s k hk,
      List.mem_cons, forall_eq_or_imp]
    tauto

theorem get_alignment_of_mod (bits : Nat) :
    get_alignment_of bits = get_alignment_of (bits % 16) := by
  have h : ∀ i, i < 4 → bits &&& 2 ^ i = (bits % 2 ^ 4) &&& 2 ^ i := by
    intro i hi
    rw [Nat.and_two_pow, Nat.and_two_pow, Nat.testBit_mod_two_pow]
    simp [hi]
  have h1 := h 1 (by norm_num)
  have h2 := h 2 (by norm_num)
  have h3 := h 3 (by norm_num)
  norm_num at h1 h2 h3
  have h0 : bits % 16 % 2 = bits % 2 := by omega
  simp [get_alignment_of, get_alignment_of.loop, h0, h1, h2, h3]

theorem get_alignment_of_small : ∀ r, r < 16 →
    (get_alignment_of r ∈ [1, 2, 4, 8, 16] ∧ r % get_alignment_of r = 0 ∧
      ∀ k, k ≤ 4 → r % 2 ^ k = 0 → 2 ^ k ≤ get_alignment_of r) := by
  decide

theorem get_alignment_of_array_core (p : Nat) (strides : List Int) :
    (∃ k, k ≤ 4 ∧ get_alignment_of_array p strides = 2 ^ k) ∧
    get_alignment_of_array p strides ∣ p ∧
    (∀ s ∈ strides, ((get_alignment_of_array p strides : Nat) : Int) ∣ s) ∧
    (∀ k, k ≤ 4 → 2 ^ k ∣ p → (∀ s ∈ strides, ((2 ^ k : Nat) : Int) ∣ s) →
        2 ^ k ≤ get_alignment_of_array p strides) := by
  unfold get_alignment_of_array
  generalize hb : strides.foldl (fun align_bits s => align_bits ||| to_uintptr s) p = bits
  have hfold := fun k hk => two_pow_dvd_foldl k hk strides p
  rw [hb] at hfold
  have hsmall := get_alignment_of_small (bits % 16) (Nat.mod_lt _ (by norm_num))
  rw [← get_alignment_of_mod] at hsmall
  obtain ⟨hmem, hdiv, hmax⟩ := hsmall
  have hpow : ∃ k, k ≤ 4 ∧ get_alignment_of bits = 2 ^ k := by
    simp only [List.mem_cons, List.mem_singleton, List.not_mem_nil, or_false] at hmem
    rcases hmem with h | h | h | h | h
    · exact ⟨0, by norm_num, by rw [h]; rfl⟩
    · exact ⟨1, by norm_num, by rw [h]; rfl⟩
    · exact ⟨2, by norm_num, by rw [h]; rfl⟩
    · exact ⟨3, by norm_num, by rw [h]; rfl⟩
    · exact ⟨4, by norm_num, by rw [h]; rfl⟩
  have h16 : ∀ k, k ≤ 4 → (2 ^ k ∣ bits % 16 ↔ 2 ^ k ∣ bits) := by
    intro k hk
    have : 2 ^ k ∣ 16 := by
      have : 2 ^ k ∣ 2 ^ 4 := pow_dvd_pow 2 hk
      simpa using this
    exact (Nat.dvd_mod_iff this)
  obtain ⟨k, hk, hk2⟩ := hpow
  have hdvd : 2 ^ k ∣ bits := by
    rw [← h16 k hk, ← hk2]
    exact Nat.dvd_of_mod_eq_zero hdiv
  have hall := (hfold k (by omega)).1 hdvd
  refine ⟨⟨k, hk, hk2⟩, ?_, ?_, ?_⟩
  · rw [hk2]; exact hall.1
  · rw [hk2]; exact hall.2
  · intro j hj hp hs
    have : 2 ^ j ∣ bits := (hfold j (by omega)).2 ⟨hp, hs⟩
    exact hmax j hj (Nat.mod_eq_zero_of_dvd ((h16 j hj).2 this))

/-- C1: the alignment computed for a foreign array from its data pointer `p` and its
strides is the largest power of two among 1, 2, 4, 8, 16 that divides `p` and every
stride: it is one of these five values, it divides `p` and every stride, and every
one of the five values that divides `p` and every stride is at most the result. It is
16 when `p` and all strides are 0, and exactly 8 when `p` and all strides are multiples
of 8 and one of them is not a multiple of 16. -/
theorem get_alignment_of_array_largest_power_of_two (p : Nat) (strides : List Int) :
    get_alignment_of_array p strides ∈ [1, 2, 4, 8, 16] ∧
    get_alignment_of_array p strides ∣ p ∧
    (∀ s ∈ strides, ((get_alignment_of_array p strides : Nat) : Int) ∣ s) ∧
    (∀ b ∈ [1, 2, 4, 8, 16], b ∣ p → (∀ s ∈ strides, ((b : Nat) : Int) ∣ s) →
        b ≤ get_alignment_of_array p strides) ∧
    (p = 0 → (∀ s ∈ strides, s = 0) → get_alignment_of_array p strides = 16) ∧
    (8 ∣ p → (∀ s ∈ strides, (8 : Int) ∣ s) →
        (¬ 16 ∣ p ∨ ∃ s ∈ strides, ¬ (16 : Int) ∣ s) →
        get_alignment_of_array p strides = 8) := by
  obtain ⟨⟨k, hk, hk2⟩, hp, hs, hmax⟩ := get_alignment_of_array_core p strides
  have hmem : get_alignment_of_array p strides ∈ [1, 2, 4, 8, 16] := by
    rw [hk2]
    interval_cases k <;> simp
  have hmax' : ∀ b ∈ [1, 2, 4, 8, 16], b ∣ p → (∀ s ∈ strides, ((b : Nat) : Int) ∣ s) →
      b ≤ get_alignment_of_array p strides := by
    intro b hb hbp hbs
    simp only [List.mem_cons, List.mem_singleton, List.not_mem_nil, or_false] at hb
    rcases hb with rfl | rfl | rfl | rfl | rfl
    · exact hmax 0 (by norm_num) hbp hbs
    · exact hmax 1 (by norm_num) hbp hbs
    · exact hmax 2 (by norm_num) hbp hbs
    · exact hmax 3 (by norm_num) hbp hbs
    · exact hmax 4 (by norm_num) hbp hbs
  refine ⟨hmem, hp, hs, hmax', ?_, ?_⟩
  · intro h0 hs0
    have h16 : 16 ≤ get_alignment_of_array p strides :=
      hmax' 16 (by simp) (by rw [h0]; exact dvd_zero _)
        (fun s hs => by rw [hs0 s hs]; exact dvd_zero _)
    simp only [List.mem_cons, List.mem_singleton, List.not_mem_nil, or_false] at hmem
    omega
  · intro h8 hs8 hnot
    have h8le : 8 ≤ get_alignment_of_array p strides :=
      hmax' 8 (by simp) h8 (fun s hs => by simpa using hs8 s hs)
    simp only [List.mem_cons, List.mem_singleton, List.not_mem_nil, or_false] at hmem
    rcases hmem with h | h | h | h | h
    · omega
    · omega
    · omega
    · exact h
    · exfalso
      rw [h] at hp hs
      rcases hnot with hn | ⟨s, hsm, hn⟩
      · exact hn hp
      · exact hn (by simpa using hs s hsm)

/-- C1, at a concrete array: data pointer 24 with strides -8 and 40 has alignment 8. -/
theorem get_alignment_of_array_largest_power_of_two_witness :
    get_alignment_of_array 24 [-8, 40] = 8 :=
  (get_alignment_of_array_largest_power_of_two 24 [-8, 40]).2.2.2.2.2
    (by decide) (by decide) (Or.inl (by decide))

/-! ## 128 bit integers -/

theorem shift_or_eq_add (hi lo : Nat) (hlo : lo < 2 ^ 64) :
    Int.lor ((hi : Int) * 2 ^ 64) (lo : Int) = (hi : Int) * 2 ^ 64 + lo := by
  have h1 : ((hi : Int) * 2 ^ 64) = ((2 ^ 64 * hi : Nat) : Int) := by push_cast; ring
  rw [h1]
  have h2 : Int.lor ((2 ^ 64 * hi : Nat) : Int) (lo : Int) = ((2 ^ 64 * hi ||| lo : Nat) : Int) := rfl
  rw [h2, ← Nat.mul_add_lt_is_or hlo]
  push_cast
  ring

theorem pyint_from_int_uint128_eq (val : dynd_uint128) (hlo : val.m_lo < 2 ^ 64) :
    pyint_from_int_uint128 val = val.value := by
  unfold pyint_from_int_uint128 dynd_uint128.value
  by_cases h : val.m_hi = 0
  · simp [h, PyLong_FromUnsignedLongLong]
  · simp only [h, if_false, PyLong_FromUnsignedLongLong, PyLong_FromLong, PyNumber_Lshift,
      PyNumber_Or]
    exact shift_or_eq_add val.m_hi val.m_lo hlo

theorem and_top_bit_eq_zero_iff (x : Nat) (hx : x < 2 ^ 64) :
    x &&& 0x8000000000000000 = 0 ↔ x < 2 ^ 63 := by
  have h : (0x8000000000000000 : Nat) = 2 ^ 63 := by norm_num
  rw [h, Nat.and_two_pow, Nat.testBit_to_div_mod]
  by_cases hlt : x < 2 ^ 63
  · have : x / 2 ^ 63 = 0 := Nat.div_eq_of_lt hlt
    rw [this]; simp; omega
  · have : x / 2 ^ 63 = 1 := by omega
    rw [this]; simp; omega

/-- Off the 64 bit shortcut the signed conversion is exact: for halves below `2 ^ 64`,
unless the high half is all ones and the low half is below `2 ^ 63`, the host integer
returned is the value of the 128 bit integer (the minimum `-2 ^ 127` included). -/
theorem pyint_from_int_int128_eq (val : dynd_int128) (hlo : val.m_lo < 2 ^ 64)
    (hhi : val.m_hi < 2 ^ 64)
    (hns : ¬ (val.m_hi = 0xffffffffffffffff ∧ val.m_lo < 2 ^ 63)) :
    pyint_from_int_int128 val = val.value := by
  obtain ⟨lo, hi⟩ := val
  simp only at hlo hhi hns
  have htop := and_top_bit_eq_zero_iff hi hhi
  unfold pyint_from_int_int128 dynd_int128.value dynd_int128.is_negative
  by_cases hneg : hi &&& 0x8000000000000000 = 0
  · have e := pyint_from_int_uint128_eq (dynd_int128.to_uint128 ⟨lo, hi⟩) hlo
    simp only [hneg, bne_self_eq_false, Bool.false_eq_true, if_false, if_true, e]
    rfl
  · have hge : 2 ^ 63 ≤ hi := by
      by_contra hc
      exact hneg (htop.2 (by omega))
    have hb : (hi &&& 0x8000000000000000 != 0) = true := by simpa using hneg
    simp only [hb, if_true, hneg, if_false]
    by_cases hones : hi = 0xffffffffffffffff
    · have hlo63 : 2 ^ 63 ≤ lo := by
        by_contra hc
        exact hns ⟨hones, by omega⟩
      have hne : hi &&& 0x8000000000000000 ≠ 0 := hneg
      simp only [hones, true_and]
      rw [hones] at hne
      rw [if_pos hne]
      simp only [PyLong_FromLongLong, to_int64]
      have hm : lo % 2 ^ 64 = lo := Nat.mod_eq_of_lt hlo
      rw [hm]
      have : ¬ lo < 2 ^ 63 := by omega
      simp only [this, if_false]
      push_cast
      ring
    · simp only [hones, false_and, if_false, PyNumber_Negative]
      have hv : hi * 2 ^ 64 + lo < 2 ^ 128 := by
        have : hi ≤ 2 ^ 64 - 1 := by omega
        calc hi * 2 ^ 64 + lo < hi * 2 ^ 64 + 2 ^ 64 := by omega
          _ = (hi + 1) * 2 ^ 64 := by ring
          _ ≤ 2 ^ 64 * 2 ^ 64 := Nat.mul_le_mul_right _ (by omega)
          _ = 2 ^ 128 := by norm_num
      have hpos : 0 < hi * 2 ^ 64 + lo := by
        have : 0 < hi := by omega
        positivity
      have e := pyint_from_int_uint128_eq (dynd_int128.to_uint128 (dynd_int128.neg ⟨lo, hi⟩))
        (Nat.mod_lt _ (by norm_num))
      rw [e]
      simp only [dynd_uint128.value, dynd_int128.to_uint128, dynd_int128.neg]
      rw [Nat.mod_eq_of_lt hv]
      have hn : (2 ^ 128 - (hi * 2 ^ 64 + lo)) % 2 ^ 128 = 2 ^ 128 - (hi * 2 ^ 64 + lo) :=
        Nat.mod_eq_of_lt (by omega)
      rw [hn]
      have hsplit : (2 ^ 128 - (hi * 2 ^ 64 + lo)) / 2 ^ 64 * 2 ^ 64 +
          (2 ^ 128 - (hi * 2 ^ 64 + lo)) % 2 ^ 64 = 2 ^ 128 - (hi * 2 ^ 64 + lo) :=
        Nat.div_add_mod' _ _
      have : (((2 ^ 128 - (hi * 2 ^ 64 + lo)) / 2 ^ 64 : Nat) : Int) * 2 ^ 64 +
          (((2 ^ 128 - (hi * 2 ^ 64 + lo)) % 2 ^ 64 : Nat) : Int)
          = ((2 ^ 128 - (hi * 2 ^ 64 + lo) : Nat) : Int) := by
        exact_mod_cast hsplit
      rw [this]
      rw [Nat.cast_sub (le_of_lt hv)]
      push_cast
      ring

/-- C4: for halves `m_hi`, `m_lo` below `2 ^ 64`, `pyint_from_int(dynd_uint128)` returns
the host integer `m_hi * 2 ^ 64 + m_lo`, on the shortcut for `m_hi = 0` as on the
general shift-and-or path. -/
theorem pyint_from_int_uint128_exact (m_hi m_lo : Nat) (hhi : m_hi < 2 ^ 64)
    (hlo : m_lo < 2 ^ 64) :
    pyint_from_int_uint128 { m_lo := m_lo, m_hi := m_hi } = (m_hi : Int) * 2 ^ 64 + m_lo ∧
    (m_hi = 0 → pyint_from_int_uint128 { m_lo := m_lo, m_hi := m_hi } = m_lo) ∧
    (m_hi ≠ 0 → PyNumber_Or (PyNumber_Lshift (PyLong_FromUnsignedLongLong m_hi)
        (PyLong_FromLong 64)) (PyLong_FromUnsignedLongLong m_lo)
          = (m_hi : Int) * 2 ^ 64 + m_lo) := by
  have _ := hhi
  refine ⟨pyint_from_int_uint128_eq _ hlo, ?_, ?_⟩
  · intro h
    simp [pyint_from_int_uint128, h, PyLong_FromUnsignedLongLong]
  · intro _
    exact shift_or_eq_add m_hi m_lo hlo

/-- C4, at the maximum value: both halves `2 ^ 64 - 1` give `2 ^ 128 - 1`. -/
theorem pyint_from_int_uint128_exact_witness :
    pyint_from_int_uint128 { m_lo := 2 ^ 64 - 1, m_hi := 2 ^ 64 - 1 } = 2 ^ 128 - 1 := by
  have h := (pyint_from_int_uint128_exact (2 ^ 64 - 1) (2 ^ 64 - 1) (by norm_num)
    (by norm_num)).1
  rw [h]
  norm_num

/-- C3: at the signed 128 bit value `-2 ^ 64` (high half all ones, low half 0) the code
takes the 64 bit shortcut and returns the host integer 0, not `-2 ^ 64`; at
`-2 ^ 64 + 1` it returns 1. -/
theorem pyint_from_int_int128_high_ones_wrong :
    pyint_from_int_int128 { m_lo := 0, m_hi := 0xffffffffffffffff } = 0 ∧
    dynd_int128.value { m_lo := 0, m_hi := 0xffffffffffffffff } = -2 ^ 64 ∧
    pyint_from_int_int128 { m_lo := 1, m_hi := 0xffffffffffffffff } = 1 ∧
    dynd_int128.value { m_lo := 1, m_hi := 0xffffffffffffffff } = -2 ^ 64 + 1 := by
  refine ⟨?_, ?_, ?_, ?_⟩ <;> decide

/-! ## Import: the access check -/

/-- C2: without force-copy, a request that includes write access on a foreign array
that is not writeable fails with the error "cannot view a readonly numpy array as
readwrite", and a request that includes immutable access fails with that error or with
"cannot view a numpy array as immutable"; in both cases no array is returned. -/
theorem array_from_numpy_array_access_check (c : array_access_flags) (env : import_env)
    (refcnt : Nat → Int) (obj : PyArrayObject) (access_flags : Nat) :
    (access_flags &&& c.write_access_flag ≠ 0 → PyArray_ISWRITEABLE obj = false →
      array_from_numpy_array c env refcnt obj access_flags false =
        .error (.runtime_error "cannot view a readonly numpy array as readwrite")) ∧
    (access_flags &&& c.immutable_access_flag ≠ 0 →
      (array_from_numpy_array c env refcnt obj access_flags false =
          .error (.runtime_error "cannot view a readonly numpy array as readwrite") ∨
        array_from_numpy_array c env refcnt obj access_flags false =
          .error (.runtime_error "cannot view a numpy array as immutable")) ∧
      ∀ r, array_from_numpy_array c env refcnt obj access_flags false ≠ .ok r) := by
  constructor
  · intro hw hro
    simp [array_from_numpy_array, hw, hro]
  · intro hi
    have hcases : array_from_numpy_array c env refcnt obj access_flags false =
          .error (.runtime_error "cannot view a readonly numpy array as readwrite") ∨
        array_from_numpy_array c env refcnt obj access_flags false =
          .error (.runtime_error "cannot view a numpy array as immutable") := by
      by_cases hw : access_flags &&& c.write_access_flag = 0
      · right
        simp [array_from_numpy_array, hw, hi]
      · cases hro : PyArray_ISWRITEABLE obj
        · left
          simp [array_from_numpy_array, hw, hro]
        · right
          simp [array_from_numpy_array, hro, hi]
    refine ⟨hcases, fun r hr => ?_⟩
    rcases hcases with h | h <;> rw [h] at hr <;> cases hr

/-- C2, at a concrete import: a read-write request (flags 3, with write flag 2) on a
read-only array (flags 0) fails. -/
theorem array_from_numpy_array_access_check_witness :
    array_from_numpy_array ⟨1, 2, 4, 3⟩
      ⟨fun _ _ => .error .std_exception, fun t => t, fun _ _ => .error .std_exception,
        fun a _ => .ok a, fun _ => false⟩
      (fun _ => 1) ⟨100, 4096, [2], [8], .mk 8 0 [] [] none, 0, 0⟩ 3 false =
        .error (.runtime_error "cannot view a readonly numpy array as readwrite") :=
  (array_from_numpy_array_access_check ⟨1, 2, 4, 3⟩
      ⟨fun _ _ => .error .std_exception, fun t => t, fun _ _ => .error .std_exception,
        fun a _ => .ok a, fun _ => false⟩
      (fun _ => 1) ⟨100, 4096, [2], [8], .mk 8 0 [] [] none, 0, 0⟩ 3).1
    (by decide) (by decide)

/-! ## Fixed-width strings -/

theorem std_find_loop_spec (unit : Nat → Nat) (r i : Nat) :
    i ≤ std_find.loop unit r i ∧ std_find.loop unit r i ≤ i + r ∧
    (∀ j, i ≤ j → j < std_find.loop unit r i → unit j ≠ 0) ∧
    (std_find.loop unit r i < i + r → unit (std_find.loop unit r i) = 0) := by
  induction r generalizing i with
  | zero =>
    simp only [std_find.loop]
    exact ⟨le_refl _, by omega, fun j h1 h2 => by omega, fun h => by omega⟩
  | succ r ih =>
    unfold std_find.loop
    by_cases h : unit i = 0
    · simp [h]
      intro j h1 h2
      omega
    · simp only [h, if_false]
      obtain ⟨h1, h2, h3, h4⟩ := ih (i + 1)
      refine ⟨by omega, by omega, ?_, ?_⟩
      · intro j hj hlt
        by_cases hji : j = i
        · rw [hji]; exact h
        · exact h3 j (by omega) hlt
      · intro hlt
        exact h4 (by omega)

theorem std_find_spec (unit : Nat → Nat) (n : Nat) :
    std_find unit n ≤ n ∧ (∀ j, j < std_find unit n → unit j ≠ 0) ∧
    (std_find unit n < n → unit (std_find unit n) = 0) := by
  obtain ⟨_, h2, h3, h4⟩ := std_find_loop_spec unit n 0
  refine ⟨by simpa [std_find] using h2, ?_, ?_⟩
  · intro j hj
    exact h3 j (Nat.zero_le _) hj
  · intro h
    exact h4 (by simpa [std_find] using h)

theorem fixedstring_ck_size_eq (k : fixedstring_ck) (w : Nat) (src : Nat → Nat) :
    fixedstring_ck.size k w src = k.unit_size * std_find (k.unit src) (w / k.unit_size) := by
  cases k
  · simp [fixedstring_ck.size, fixedstring_ascii_ck.size, fixedstring_ck.unit_size]
    rfl
  · simp [fixedstring_ck.size, fixedstring_utf8_ck.size, fixedstring_ck.unit_size]
    rfl
  · simp only [fixedstring_ck.size, fixedstring_utf16_ck.size, fixedstring_ck.unit_size,
      Nat.shiftRight_eq_div_pow, pow_one]
    rw [Nat.mul_comm]
    rfl
  · simp only [fixedstring_ck.size, fixedstring_utf32_ck.size, fixedstring_ck.unit_size,
      Nat.shiftRight_eq_div_pow]
    rw [Nat.mul_comm]
    rfl

/-- C9: a fixed-width string kernel with declared byte width `w` and code-unit size `u`
hands `u * n` bytes to its decoder, where `n` is the index of the first zero code unit
among the first `w / u` code units, or `w / u` when none of them is zero. Hence the
code units handed over are all non-zero, the length never exceeds `w`, it stops before
the first embedded terminator, and without a terminator it is `u * (w / u)`, the full
declared width `w` whenever `u` divides `w`, as it does for every fixed-width string
type. -/
theorem fixedstring_ck_size_spec (k : fixedstring_ck) (w : Nat) (src : Nat → Nat) :
    ∃ n, fixedstring_ck.size k w src = k.unit_size * n ∧
      n ≤ w / k.unit_size ∧
      (∀ j, j < n → k.unit src j ≠ 0) ∧
      (n < w / k.unit_size → k.unit src n = 0) ∧
      fixedstring_ck.size k w src ≤ w ∧
      (∀ j, j < w / k.unit_size → k.unit src j = 0 → n ≤ j) ∧
      ((∀ j, j < w / k.unit_size → k.unit src j ≠ 0) → n = w / k.unit_size) ∧
      ((∀ j, j < w / k.unit_size → k.unit src j ≠ 0) → k.unit_size ∣ w →
        fixedstring_ck.size k w src = w) := by
  obtain ⟨h1, h2, h3⟩ := std_find_spec (k.unit src) (w / k.unit_size)
  have hfull : (∀ j, j < w / k.unit_size → k.unit src j ≠ 0) →
      std_find (k.unit src) (w / k.unit_size) = w / k.unit_size := by
    intro hall
    by_contra hne
    have hlt : std_find (k.unit src) (w / k.unit_size) < w / k.unit_size :=
      lt_of_le_of_ne h1 hne
    exact hall _ hlt (h3 hlt)
  refine ⟨std_find (k.unit src) (w / k.unit_size), fixedstring_ck_size_eq k w src, h1, h2, h3,
    ?_, ?_, hfull, ?_⟩
  · rw [fixedstring_ck_size_eq]
    calc k.unit_size * std_find (k.unit src) (w / k.unit_size)
        ≤ k.unit_size * (w / k.unit_size) := Nat.mul_le_mul_left _ h1
      _ ≤ w := Nat.mul_div_le w k.unit_size
  · intro j _ hz
    by_contra hlt
    exact h2 j (by omega) hz
  · intro hall hdvd
    rw [fixedstring_ck_size_eq, hfull hall]
    exact Nat.mul_div_cancel' hdvd

/-- C9, at concrete buffers: the 8 byte UTF-16 buffer `41 00 42 00 00 00 43 00` is
decoded from its first 4 bytes, and the 4 byte ASCII buffer `61 62 63 64` without
terminator from all 4 bytes. -/
theorem fixedstring_ck_size_spec_witness :
    fixedstring_ck.size .fixedstring_utf16_ck 8
        (fun i => [0x41, 0, 0x42, 0, 0, 0, 0x43, 0].getD i 0) = 4 ∧
    fixedstring_ck.size .fixedstring_ascii_ck 4 (fun i => [0x61, 0x62, 0x63, 0x64].getD i 0) = 4 := by
  refine ⟨by decide, ?_⟩
  obtain ⟨n, _, _, _, _, _, _, _, h⟩ :=
    fixedstring_ck_size_spec .fixedstring_ascii_ck 4 (fun i => [0x61, 0x62, 0x63, 0x64].getD i 0)
  exact h (by decide) (by decide)

/-! ## Kernel builder: unsupported types -/

/-- C10: for a source type whose variant has no conversion case (a struct, a fixed
dimension, a view, an unnamed variant, `float128`, `void`, or a string or fixed-width
string with an encoding outside ASCII, UTF-8, UCS-2, UTF-16, UTF-32) the builder throws
`invalid_argument` with the message "Unable to copy dynd value with type T to a Python
object", where T is the printed description of the rejected type; the message contains
that description and no chain offset is returned. -/
theorem make_copy_to_pyobject_kernel_unsupported (print : ndt_type → String)
    (ckb : ckernel_builder) (ckb_offset : Nat) (src_tp : ndt_type) (src_arrmeta : Nat)
    (kernreq : kernel_request_t) (h : no_conversion_case src_tp = true) :
    make_copy_to_pyobject_kernel print ckb ckb_offset src_tp src_arrmeta kernreq =
      .error (.invalid_argument ("Unable to copy dynd value with type " ++ print src_tp ++
        " to a Python object")) ∧
    (∃ e, make_copy_to_pyobject_kernel print ckb ckb_offset src_tp src_arrmeta kernreq =
        .error e ∧ ∃ pre post, e.what = pre ++ print src_tp ++ post) ∧
    (∀ r, make_copy_to_pyobject_kernel print ckb ckb_offset src_tp src_arrmeta kernreq ≠
      .ok r) := by
  have hmain : make_copy_to_pyobject_kernel print ckb ckb_offset src_tp src_arrmeta kernreq =
      .error (.invalid_argument ("Unable to copy dynd value with type " ++ print src_tp ++
        " to a Python object")) := by
    cases src_tp with
    | builtin id =>
      cases id <;> simp [no_conversion_case] at h <;>
        simp [make_copy_to_pyobject_kernel, unable_to_copy]
    | string encoding =>
      cases encoding <;> simp [no_conversion_case] at h
      simp [make_copy_to_pyobject_kernel, unable_to_copy]
    | fixed_string n encoding =>
      cases encoding <;> simp [no_conversion_case] at h
      simp [make_copy_to_pyobject_kernel, unable_to_copy]
    | struct fields n => simp [make_copy_to_pyobject_kernel, unable_to_copy]
    | fixed_dim n e => simp [make_copy_to_pyobject_kernel, unable_to_copy]
    | view v o => simp [make_copy_to_pyobject_kernel, unable_to_copy]
    | other name => simp [make_copy_to_pyobject_kernel, unable_to_copy]
    | _ => simp [no_conversion_case] at h
  refine ⟨hmain, ⟨_, hmain, "Unable to copy dynd value with type ", " to a Python object", ?_⟩,
    fun r hr => ?_⟩
  · simp [exception.what]
  · rw [hmain] at hr
    cases hr

/-- C10, at a concrete type: a struct with one `int32` field, printed as "struct", is
rejected with the message that names it. -/
theorem make_copy_to_pyobject_kernel_unsupported_witness :
    make_copy_to_pyobject_kernel (fun _ => "struct") [] 0
        (.struct [("x", .builtin .int32_id, 8)] 4) 0 .kernel_request_single =
      .error (.invalid_argument "Unable to copy dynd value with type struct to a Python object") :=
  (make_copy_to_pyobject_kernel_unsupported (fun _ => "struct") [] 0
    (.struct [("x", .builtin .int32_id, 8)] 4) 0 .kernel_request_single rfl).1

/-! ## The option kernel -/

theorem kernel_state_Py_XDECREF_refcnt (st : kernel_state) (ob : Nat) :
    (st.Py_XDECREF ob).refcnt = Py_XDECREF st.refcnt ob := by
  by_cases h : ob = 0 <;> simp [kernel_state.Py_XDECREF, Py_XDECREF, h]

theorem kernel_state_Py_XDECREF_mem (st : kernel_state) (ob : Nat) :
    (st.Py_XDECREF ob).mem = st.mem := by
  by_cases h : ob = 0 <;> simp [kernel_state.Py_XDECREF, h]

theorem kernel_state_Py_XDECREF_heap (st : kernel_state) (ob : Nat) :
    (st.Py_XDECREF ob).heap = st.heap ∧ (st.Py_XDECREF ob).next = st.next ∧
      (st.Py_XDECREF ob).calls = st.calls := by
  by_cases h : ob = 0 <;> simp [kernel_state.Py_XDECREF, h]

theorem kernel_state_Py_XDECREF_events (st : kernel_state) (ob : Nat) :
    (st.Py_XDECREF ob).events =
      st.events ++ (if ob = 0 then [] else [ref_event.Py_DECREF ob]) := by
  by_cases h : ob = 0 <;> simp [kernel_state.Py_XDECREF, h]

theorem option_ck_single_unavailable_state (code : Nat → expr_single_t)
    (ckb : Nat → ckernel_prefix) (Py_None frame self m_copy_value_offset : Nat)
    (st : kernel_state) (dst src : Nat)
    (hsd : src ≠ dst) (hsf : src ≠ frame)
    (hpred : ∀ s : kernel_state, s.mem src = st.mem src →
      code (ckb (self + sizeof_option_ck)).function ckb s frame src (self + sizeof_option_ck) =
        s.write frame 0) :
    option_ck.single code ckb Py_None frame self m_copy_value_offset st dst src =
      { mem := fun a => if a = dst then Py_None else if a = frame then 0 else st.mem a
        refcnt := Py_INCREF (Py_XDECREF st.refcnt (st.mem dst)) Py_None
        heap := st.heap
        next := st.next
        calls := st.calls ++
          [((ckb (self + sizeof_option_ck)).function, self + sizeof_option_ck)]
        events := st.events ++
          (if st.mem dst = 0 then [] else [ref_event.Py_DECREF (st.mem dst)]) ++
          [ref_event.store dst 0, ref_event.store frame 0, ref_event.store frame 0,
            ref_event.store dst Py_None, ref_event.Py_INCREF Py_None] } := by
  unfold option_ck.single invoke
  simp only []
  rw [hpred _ (by simp [kernel_state.write, kernel_state_Py_XDECREF_mem, hsd, hsf])]
  simp only [kernel_state.write, kernel_state.Py_INCREF, if_true, ne_eq, not_true_eq_false,
    if_false, kernel_state_Py_XDECREF_refcnt, kernel_state_Py_XDECREF_mem,
    kernel_state_Py_XDECREF_heap, kernel_state_Py_XDECREF_events, List.append_assoc,
    List.cons_append, List.nil_append, List.singleton_append]
  congr 1
  funext a
  by_cases h1 : a = dst
  · simp [h1]
  · by_cases h2 : a = frame
    · simp [h1, h2]
    · simp [h1, h2]

/-- C6: when the is-available predicate kernel reports the source element as
unavailable (it stores 0 at its destination and does nothing else),
`option_ck::single` leaves the destination slot holding the sentinel `Py_None`; the
reference count of the sentinel is one more than after the release of the reference
held before in the slot (so one more than at entry unless the slot held the sentinel
itself), no other reference count changes after that release; and the only kernel
function invoked is the predicate's, on the predicate's record: the value kernel's
record is never handed to a kernel function. -/
theorem option_ck_single_unavailable (code : Nat → expr_single_t)
    (ckb : Nat → ckernel_prefix) (Py_None frame self m_copy_value_offset : Nat)
    (st : kernel_state) (dst src : Nat)
    (hsd : src ≠ dst) (hsf : src ≠ frame)
    (hoff : m_copy_value_offset ≠ sizeof_option_ck)
    (hpred : ∀ s : kernel_state, s.mem src = st.mem src →
      code (ckb (self + sizeof_option_ck)).function ckb s frame src (self + sizeof_option_ck) =
        s.write frame 0) :
    (option_ck.single code ckb Py_None frame self m_copy_value_offset st dst src).mem dst =
      Py_None ∧
    (option_ck.single code ckb Py_None frame self m_copy_value_offset st dst src).refcnt Py_None =
      (Py_XDECREF st.refcnt (st.mem dst)) Py_None + 1 ∧
    (st.mem dst ≠ Py_None →
      (option_ck.single code ckb Py_None frame self m_copy_value_offset st dst src).refcnt
        Py_None = st.refcnt Py_None + 1) ∧
    (∀ ob, ob ≠ Py_None →
      (option_ck.single code ckb Py_None frame self m_copy_value_offset st dst src).refcnt ob =
        (Py_XDECREF st.refcnt (st.mem dst)) ob) ∧
    (option_ck.single code ckb Py_None frame self m_copy_value_offset st dst src).calls =
      st.calls ++ [((ckb (self + sizeof_option_ck)).function, self + sizeof_option_ck)] ∧
    (∀ fn, (fn, self + m_copy_value_offset) ∉
      (option_ck.single code ckb Py_None frame self m_copy_value_offset st dst src).calls.drop
        st.calls.length) := by
  rw [option_ck_single_unavailable_state code ckb Py_None frame self m_copy_value_offset st dst
    src hsd hsf hpred]
  refine ⟨by simp, by simp [Py_INCREF], ?_, ?_, rfl, ?_⟩
  · intro hne
    have : Py_None ≠ st.mem dst := fun h => hne h.symm
    by_cases h0 : st.mem dst = 0
    · simp [Py_INCREF, Py_XDECREF, h0]
    · simp [Py_INCREF, Py_XDECREF, Py_DECREF, h0, this]
  · intro ob hob
    simp [Py_INCREF, hob]
  · intro fn
    simp only [List.drop_left, List.mem_singleton, Prod.mk.injEq, not_and]
    intro _ h
    exact hoff (by omega)

/-- C6, on the `Option{Int32}` chain: for a source element holding the missing marker
(bits `2 ^ 31`), with `Py_None` at address 7 and the local variable at address 300, the
destination slot 100 ends up holding 7, the reference count of 7 goes from 1 to 2, and
the only call is the predicate function 1 on the record at offset 24. -/
theorem option_ck_single_unavailable_witness :
    (option_ck.single option_int32_code option_int32_ckb 7 300 0 40
        (option_int32_state (2 ^ 31)) 100 200).mem 100 = 7 ∧
    (option_ck.single option_int32_code option_int32_ckb 7 300 0 40
        (option_int32_state (2 ^ 31)) 100 200).refcnt 7 = 2 ∧
    (option_ck.single option_int32_code option_int32_ckb 7 300 0 40
        (option_int32_state (2 ^ 31)) 100 200).calls = [(1, 24)] := by
  have h := option_ck_single_unavailable option_int32_code option_int32_ckb 7 300 0 40
    (option_int32_state (2 ^ 31)) 100 200 (by decide) (by decide) (by decide)
    (by
      intro s hs
      have hs' : s.mem 200 = 2 ^ 31 := by simpa [option_int32_state] using hs
      simp [option_int32_code, option_int32_ckb, sizeof_option_ck, sizeof_ckernel_prefix,
        is_avail_int32.single, hs', to_int32])
  refine ⟨h.1, ?_, ?_⟩
  · rw [h.2.1]
    simp [Py_XDECREF, option_int32_state]
  · rw [h.2.2.2.2.1]
    simp [option_int32_state, option_int32_ckb, sizeof_option_ck, sizeof_ckernel_prefix]

/-- C5: on the `Option{Int32}` chain, for an available source element holding 42,
`option_ck::single` invokes the predicate function (code address 1) twice, the second
time on the destination slot with the value kernel's record (offset 40) as its state:
the slot ends up holding the raw value 1 and no host integer is created; the value
kernel `int_ck<int32_t>` (code address 2), run on the same element, stores the address
of a new host integer 42. -/
theorem option_ck_single_available_wrong_function :
    (option_ck.single option_int32_code option_int32_ckb 7 300 0 40
        (option_int32_state 42) 100 200).calls = [(1, 24), (1, 40)] ∧
    (option_ck.single option_int32_code option_int32_ckb 7 300 0 40
        (option_int32_state 42) 100 200).mem 100 = 1 ∧
    (option_ck.single option_int32_code option_int32_ckb 7 300 0 40
        (option_int32_state 42) 100 200).heap 1000 = Option.none ∧
    (option_int32_ckb 40).function = 2 ∧
    (invoke option_int32_code option_int32_ckb 2 (option_int32_state 42) 100 200 40).mem 100 =
      1000 ∧
    (invoke option_int32_code option_int32_ckb 2 (option_int32_state 42) 100 200 40).heap 1000 =
      some (.int 42) := by
  refine ⟨?_, ?_, ?_, ?_, ?_, ?_⟩ <;>
    simp [option_ck.single, invoke, option_int32_code, option_int32_ckb, option_int32_state,
      sizeof_option_ck, sizeof_ckernel_prefix, is_avail_int32.single, int_ck_int32.single,
      kernel_state.write, kernel_state.new_object, kernel_state.Py_XDECREF, to_int32,
      Py_XDECREF, pyint_from_int_int32, PyLong_FromLong]

/-! ## The conversion kernels: release of the destination slot -/

theorem kernel_state_store_new_mem (st : kernel_state) (dst : Nat) (v : Option PyObject)
    (a : Nat) (h : a ≠ dst) : (st.store_new dst v).mem a = st.mem a := by
  cases v with
  | none => simp [kernel_state.store_new, kernel_state.write, h]
  | some v => simp [kernel_state.store_new, kernel_state.write, kernel_state.new_object, h]

theorem arrmeta_write_of_ne (mem : arrmeta_t) (addr x : Nat) (v : Int) (h : x ≠ addr) :
    (mem.write addr v) x = mem x := by
  simp [arrmeta_t.write, h]

theorem arrmeta_write_same (mem : arrmeta_t) (addr : Nat) (v : Int) :
    (mem.write addr v) addr = v := by
  simp [arrmeta_t.write]

theorem struct_loop_cons_builtin (self : fill_fn) (d : PyArray_Descr) (a : Nat)
    (name : String) (ft : ndt_type) (aoff : Nat) (rest : List (String × ndt_type × Nat))
    (i : Nat) (mem : arrmeta_t) (calls : List call_tree) (key : String) (tup fld : PyObject)
    (off : Int) (h1 : d.names[i]? = some key) (h2 : PyDict_GetItem d.fields key = some tup)
    (h3 : PyArg_ParseTuple_Oi_O tup = some (fld, off)) (hb : ft.is_builtin = true) :
    fill_arrmeta_struct_loop self d a ((name, ft, aoff) :: rest) i mem calls =
      fill_arrmeta_struct_loop self d a rest (i + 1)
        (mem.write (a + sizeof_size_t * i) (to_uintptr off)) calls := by
  rw [fill_arrmeta_struct_loop]
  simp [h1, h2, h3, hb]

theorem struct_loop_cons_nested (self : fill_fn) (d : PyArray_Descr) (a : Nat)
    (name : String) (ft : ndt_type) (aoff : Nat) (rest : List (String × ndt_type × Nat))
    (i : Nat) (mem : arrmeta_t) (calls : List call_tree) (key : String) (tup : PyObject)
    (fd : PyArray_Descr) (off : Int) (mem2 : arrmeta_t) (t : call_tree)
    (h1 : d.names[i]? = some key) (h2 : PyDict_GetItem d.fields key = some tup)
    (h3 : PyArg_ParseTuple_Oi_O tup = some (PyObject.descr fd, off))
    (hb : ft.is_builtin = false)
    (hs : self ft fd (a + aoff) (mem.write (a + sizeof_size_t * i) (to_uintptr off)) =
      .ok (mem2, t)) :
    fill_arrmeta_struct_loop self d a ((name, ft, aoff) :: rest) i mem calls =
      fill_arrmeta_struct_loop self d a rest (i + 1) mem2 (calls ++ [t]) := by
  rw [fill_arrmeta_struct_loop]
  simp [h1, h2, h3, hb, hs]

theorem foreign_field_offset_eq (d : PyArray_Descr) (i : Nat) (key : String)
    (tup fld : PyObject) (off : Int) (h1 : d.names[i]? = some key)
    (h2 : PyDict_GetItem d.fields key = some tup)
    (h3 : PyArg_ParseTuple_Oi_O tup = some (fld, off)) :
    foreign_field_offset d i = some off := by
  simp [foreign_field_offset, h1, h2, h3]

/-- The struct loop on well-formed fields: it succeeds, leaves the words below
`arrmeta` and the table entries before index `i` alone, stores in each table entry
from `i` on the offset of the foreign field table, and calls `self` exactly for the
fields whose type is not builtin, at `arrmeta` plus their arrmeta offset. The table
statements are for the entries below `n`, given that the sub-metadata of every field
starts at `8 * n` or later. -/
theorem struct_loop_spec (self : fill_fn) (d : PyArray_Descr) (a n : Nat)
    (rest : List (String × ndt_type × Nat)) :
    ∀ (i : Nat) (mem : arrmeta_t) (calls : List call_tree),
      (∀ (k : Nat) (name : String) (ft : ndt_type) (aoff : Nat),
        rest[k]? = some (name, ft, aoff) →
        ∃ key tup fld off, d.names[i + k]? = some key ∧
          PyDict_GetItem d.fields key = some tup ∧
          PyArg_ParseTuple_Oi_O tup = some (fld, off) ∧
          (ft.is_builtin = false →
            8 * n ≤ aoff ∧ ∃ fd, fld = PyObject.descr fd ∧ fill_succeeds self ft fd)) →
      ∃ mem' calls', fill_arrmeta_struct_loop self d a rest i mem calls = .ok (mem', calls') ∧
        (∀ x, x < a → mem' x = mem x) ∧
        (∀ j, j < i → j < n → mem' (a + sizeof_size_t * j) = mem (a + sizeof_size_t * j)) ∧
        (∀ k, k < rest.length → i + k < n →
          ∃ off, foreign_field_offset d (i + k) = some off ∧
            mem' (a + sizeof_size_t * (i + k)) = to_uintptr off) ∧
        calls'.map call_tree.arrmeta = calls.map call_tree.arrmeta ++
          (rest.filter (fun f => !f.2.1.is_builtin)).map (fun f => a + f.2.2) := by
  induction rest with
  | nil =>
    intro i mem calls _
    refine ⟨mem, calls, by simp [fill_arrmeta_struct_loop], fun _ _ => rfl, fun _ _ _ => rfl,
      ?_, by simp⟩
    intro k hk
    simp at hk
  | cons f rest ih =>
    obtain ⟨name, ft, aoff⟩ := f
    intro i mem calls hfields
    obtain ⟨key, tup, fld, off, h1, h2, h3, hnb⟩ := hfields 0 name ft aoff (by simp)
    simp only [Nat.add_zero] at h1
    have hrest : ∀ (k : Nat) (name : String) (ft : ndt_type) (aoff : Nat),
        rest[k]? = some (name, ft, aoff) →
        ∃ key tup fld off, d.names[i + 1 + k]? = some key ∧
          PyDict_GetItem d.fields key = some tup ∧
          PyArg_ParseTuple_Oi_O tup = some (fld, off) ∧
          (ft.is_builtin = false →
            8 * n ≤ aoff ∧ ∃ fd, fld = PyObject.descr fd ∧ fill_succeeds self ft fd) := by
      intro k name' ft' aoff' hk
      have := hfields (k + 1) name' ft' aoff' (by simpa using hk)
      have e : i + (k + 1) = i + 1 + k := by omega
      rw [e] at this
      exact this
    have hoff0 := foreign_field_offset_eq d i key tup fld off h1 h2 h3
    cases hb : ft.is_builtin with
    | true =>
      rw [struct_loop_cons_builtin self d a name ft aoff rest i mem calls key tup fld off
        h1 h2 h3 hb]
      obtain ⟨mem', calls', hok, hlow, hprev, htab, hcalls⟩ :=
        ih (i + 1) (mem.write (a + sizeof_size_t * i) (to_uintptr off)) calls hrest
      refine ⟨mem', calls', hok, ?_, ?_, ?_, ?_⟩
      · intro x hx
        rw [hlow x hx, arrmeta_write_of_ne _ _ _ _ (by omega)]
      · intro j hj hjn
        rw [hprev j (by omega) hjn, arrmeta_write_of_ne _ _ _ _ (by simp [sizeof_size_t]; omega)]
      · intro k hk hkn
        cases k with
        | zero =>
          refine ⟨off, hoff0, ?_⟩
          rw [Nat.add_zero, hprev i (by omega) (by omega), arrmeta_write_same]
        | succ k =>
          have e : i + (k + 1) = i + 1 + k := by omega
          rw [e]
          exact htab k (by simpa using hk) (by omega)
      · rw [hcalls]
        simp [List.filter_cons, hb]
    | false =>
      obtain ⟨hlay, fd, hfd, hsucc⟩ := hnb hb
      subst hfd
      obtain ⟨mem2, t, hs, hlow2, hroot⟩ :=
        hsucc (a + aoff) (mem.write (a + sizeof_size_t * i) (to_uintptr off))
      rw [struct_loop_cons_nested self d a name ft aoff rest i mem calls key tup fd off mem2 t
        h1 h2 h3 hb hs]
      obtain ⟨mem', calls', hok, hlow, hprev, htab, hcalls⟩ :=
        ih (i + 1) mem2 (calls ++ [t]) hrest
      refine ⟨mem', calls', hok, ?_, ?_, ?_, ?_⟩
      · intro x hx
        rw [hlow x hx, hlow2 x (by omega), arrmeta_write_of_ne _ _ _ _ (by omega)]
      · intro j hj hjn
        rw [hprev j (by omega) hjn, hlow2 _ (by simp [sizeof_size_t]; omega),
          arrmeta_write_of_ne _ _ _ _ (by simp [sizeof_size_t]; omega)]
      · intro k hk hkn
        cases k with
        | zero =>
          refine ⟨off, hoff0, ?_⟩
          rw [Nat.add_zero, hprev i (by omega) (by omega),
            hlow2 _ (by simp [sizeof_size_t]; omega), arrmeta_write_same]
        | succ k =>
          have e : i + (k + 1) = i + 1 + k := by omega
          rw [e]
          exact htab k (by simpa using hk) (by omega)
      · rw [hcalls]
        simp [List.filter_cons, hb, hroot]

theorem wrap_intptr_of_in_range (x : Int) (h : in_intptr_range x = true) :
    wrap_intptr x = x := by
  simp only [in_intptr_range, Bool.and_eq_true, decide_eq_true_eq] at h
  unfold wrap_intptr
  have : (x + 2 ^ 63) % 2 ^ 64 = x + 2 ^ 63 :=
    Int.emod_eq_of_lt (by omega) (by omega)
  rw [this]
  ring

theorem dim_loop_succ (shape : List Int) (a i : Nat) (stride : Int) (dim_size : Int)
    (elem : ndt_type) (mem : arrmeta_t) (v : Int) (hitem : shape[i]? = some v)
    (hv : in_intptr_range v = true) :
    fill_arrmeta_dim_loop (shape.map PyObject.int) a (i + 1) stride
        (.fixed_dim dim_size elem) mem =
      fill_arrmeta_dim_loop (shape.map PyObject.int) a i (wrap_intptr (stride * v)) elem
        ((mem.write (md_dim_size a i) v).write (md_stride a i) stride) := by
  rw [fill_arrmeta_dim_loop]
  simp [hitem, pyobject_as_index, hv]

theorem suffix_stride_step (e : Int) (shape : List Int) (i : Nat) (v : Int)
    (h : shape[i + 1]? = some v) :
    suffix_stride e shape i = suffix_stride e shape (i + 1) * v := by
  unfold suffix_stride
  have hlt : i + 1 < shape.length := by
    by_contra hc
    rw [List.getElem?_eq_none (by omega)] at h
    cases h
  have hv : shape[i + 1] = v := by
    rw [List.getElem?_eq_getElem hlt] at h
    exact Option.some.inj h
  rw [List.drop_eq_getElem_cons hlt, List.prod_cons, hv]
  ring

/-- The dimension loop on a shape of integers in range, with `n` iterations left, on a
type with at least `n` fixed dimensions: it succeeds with the element type under the
`n` dimensions, stores the size `s_j` in record `j < n`, and leaves every word outside
these records alone; when the strides do not overflow, the stride stored in record `j`
is `e * s_{j+1} * ...`. -/
theorem dim_loop_spec (shape : List Int) (a : Nat) (e : Int)
    (hshape : ∀ s ∈ shape, in_intptr_range s = true) :
    ∀ (n : Nat) (stride : Int) (el el' : ndt_type) (mem : arrmeta_t),
      n ≤ shape.length →
      ndt_type.peel n el = some el' →
      ∃ mem', fill_arrmeta_dim_loop (shape.map PyObject.int) a n stride el mem =
          .ok (mem', el') ∧
        (∀ j, j < n → ∃ s, shape[j]? = some s ∧ mem' (md_dim_size a j) = s) ∧
        ((0 < n → stride = suffix_stride e shape (n - 1)) →
          (∀ j, j + 1 < n → in_intptr_range (suffix_stride e shape j) = true) →
          ∀ j, j < n → mem' (md_stride a j) = suffix_stride e shape j) ∧
        (∀ x, (∀ j, j < n → x ≠ md_dim_size a j ∧ x ≠ md_stride a j) → mem' x = mem x) := by
  intro n
  induction n with
  | zero =>
    intro stride el el' mem _ hpeel
    simp only [ndt_type.peel, Option.some.injEq] at hpeel
    subst hpeel
    exact ⟨mem, by simp [fill_arrmeta_dim_loop], fun j hj => by omega,
      fun _ _ j hj => by omega, fun _ _ => rfl⟩
  | succ n ih =>
    intro stride el el' mem hn hpeel
    cases el with
    | fixed_dim dim_size elem =>
      simp only [ndt_type.peel] at hpeel
      have hlt : n < shape.length := by omega
      have hitem : shape[n]? = some shape[n] := List.getElem?_eq_getElem hlt
      have hv : in_intptr_range shape[n] = true := hshape _ (List.getElem_mem hlt)
      rw [dim_loop_succ shape a n stride dim_size elem mem shape[n] hitem hv]
      obtain ⟨mem', hok, hrec, hstr, hframe⟩ := ih (wrap_intptr (stride * shape[n])) elem el'
        ((mem.write (md_dim_size a n) shape[n]).write (md_stride a n) stride)
        (by omega) hpeel
      have hother : ∀ k, k < n → md_dim_size a n ≠ md_dim_size a k ∧
          md_dim_size a n ≠ md_stride a k ∧ md_stride a n ≠ md_dim_size a k ∧
          md_stride a n ≠ md_stride a k := by
        intro k hk
        simp only [md_dim_size, md_stride, sizeof_fixed_dim_type_arrmeta]
        refine ⟨?_, ?_, ?_, ?_⟩ <;> omega
      refine ⟨mem', hok, ?_, ?_, ?_⟩
      · intro j hj
        by_cases hjn : j = n
        · subst hjn
          refine ⟨shape[j], hitem, ?_⟩
          rw [hframe _ (fun k hk => ⟨(hother k hk).1, (hother k hk).2.1⟩)]
          rw [arrmeta_write_of_ne _ _ _ _ (by
            simp only [md_dim_size, md_stride, sizeof_fixed_dim_type_arrmeta]; omega)]
          exact arrmeta_write_same _ _ _
        · exact hrec j (by omega)
      · intro hstride hrange j hj
        have hs : stride = suffix_stride e shape n := by simpa using hstride (by omega)
        by_cases hjn : j = n
        · subst hjn
          rw [hframe _ (fun k hk => ⟨(hother k hk).2.2.1, (hother k hk).2.2.2⟩)]
          rw [arrmeta_write_same, hs]
        · refine hstr ?_ (fun k hk => hrange k (by omega)) j (by omega)
          intro hpos
          have h1 : suffix_stride e shape (n - 1) =
              suffix_stride e shape (n - 1 + 1) * shape[n] :=
            suffix_stride_step e shape (n - 1) shape[n] (by
              have : n - 1 + 1 = n := by omega
              rw [this]; exact hitem)
          have h2 : n - 1 + 1 = n := by omega
          rw [h2] at h1
          rw [hs, ← h1]
          exact wrap_intptr_of_in_range _ (hrange (n - 1) (by omega))
      · intro x hx
        rw [hframe x (fun j hj => hx j (by omega))]
        rw [arrmeta_write_of_ne _ _ _ _ (hx n (by omega)).2,
          arrmeta_write_of_ne _ _ _ _ (hx n (by omega)).1]
    | _ => simp [ndt_type.peel] at hpeel

theorem depth_PyDict_GetItem (fields : List (String × PyObject)) (key : String)
    (tup : PyObject) (h : PyDict_GetItem fields key = some tup) :
    tup.depth ≤ PyObject.depthFields fields := by
  induction fields with
  | nil => simp [PyDict_GetItem] at h
  | cons f rest ih =>
    obtain ⟨k, v⟩ := f
    simp only [PyDict_GetItem] at h
    simp only [PyObject.depthFields]
    by_cases hk : k = key
    · simp only [hk, if_true, Option.some.injEq] at h
      subst h
      exact le_max_left _ _
    · simp only [hk, if_false] at h
      exact le_trans (ih h) (le_max_right _ _)

theorem depth_PyArg_ParseTuple (tup fld : PyObject) (off : Int)
    (h : PyArg_ParseTuple_Oi_O tup = some (fld, off)) : fld.depth < tup.depth := by
  unfold PyArg_ParseTuple_Oi_O at h
  split at h
  · split at h
    · simp only [Option.some.injEq, Prod.mk.injEq] at h
      obtain ⟨rfl, _⟩ := h
      simp only [PyObject.depth, PyObject.depthList]
      omega
    · cases h
  · split at h
    · simp only [Option.some.injEq, Prod.mk.injEq] at h
      obtain ⟨rfl, _⟩ := h
      simp only [PyObject.depth, PyObject.depthList]
      omega
    · cases h
  · cases h

theorem depth_field (d : PyArray_Descr) (key : String) (tup : PyObject) (fd : PyArray_Descr)
    (off : Int) (h2 : PyDict_GetItem d.fields key = some tup)
    (h3 : PyArg_ParseTuple_Oi_O tup = some (PyObject.descr fd, off)) :
    fd.depth < d.depth := by
  have h4 := depth_PyArg_ParseTuple tup _ off h3
  cases d with
  | mk e f n fields sub =>
    simp only [PyArray_Descr.fields] at h2
    have h5 := depth_PyDict_GetItem fields key tup h2
    simp only [PyObject.depth] at h4
    simp only [PyArray_Descr.depth]
    have := le_max_left (PyObject.depthFields fields) (PyObject.depthSub sub)
    omega

theorem depth_subarray (d base : PyArray_Descr) (shape : PyObject)
    (h : d.subarray = some (base, shape)) : base.depth < d.depth := by
  cases d with
  | mk e f n fields sub =>
    simp only [PyArray_Descr.subarray] at h
    subst h
    simp only [PyArray_Descr.depth, PyObject.depthSub]
    have h1 := le_max_left base.depth shape.depth
    have h2 := le_max_right (PyObject.depthFields fields) (max base.depth shape.depth)
    omega

theorem body_struct (self : fill_fn) (fields : List (String × ndt_type × Nat))
    (data_size : Nat) (d : PyArray_Descr) (a : Nat) (mem mem' : arrmeta_t)
    (calls : List call_tree)
    (h : fill_arrmeta_struct_loop self d a fields 0 mem [] = .ok (mem', calls)) :
    fill_arrmeta_from_numpy_dtype.body self (.struct fields data_size) d a mem =
      .ok (mem', .node a calls) := by
  simp [fill_arrmeta_from_numpy_dtype.body, h]

theorem body_fixed_dim_tuple_builtin (self : fill_fn) (dim_size : Int)
    (element_type : ndt_type) (d base : PyArray_Descr) (shape : List Int) (a : Nat)
    (mem mem1 : arrmeta_t) (el : ndt_type)
    (hsub : d.subarray = some (base, PyObject.tuple (shape.map PyObject.int)))
    (hloop : fill_arrmeta_dim_loop (shape.map PyObject.int) a shape.length base.elsize
      (.fixed_dim dim_size element_type) mem = .ok (mem1, el))
    (hb : el.is_builtin = true) :
    fill_arrmeta_from_numpy_dtype.body self (.fixed_dim dim_size element_type) d a mem =
      .ok (mem1, .node a []) := by
  simp [fill_arrmeta_from_numpy_dtype.body, hsub, hloop, hb]

theorem body_fixed_dim_tuple_nested (self : fill_fn) (dim_size : Int)
    (element_type : ndt_type) (d base : PyArray_Descr) (shape : List Int) (a : Nat)
    (mem mem1 mem2 : arrmeta_t) (el : ndt_type) (t : call_tree)
    (hsub : d.subarray = some (base, PyObject.tuple (shape.map PyObject.int)))
    (hloop : fill_arrmeta_dim_loop (shape.map PyObject.int) a shape.length base.elsize
      (.fixed_dim dim_size element_type) mem = .ok (mem1, el))
    (hb : el.is_builtin = false)
    (hs : self el base (a + shape.length * sizeof_fixed_dim_type_arrmeta) mem1 =
      .ok (mem2, t)) :
    fill_arrmeta_from_numpy_dtype.body self (.fixed_dim dim_size element_type) d a mem =
      .ok (mem2, .node a [t]) := by
  simp [fill_arrmeta_from_numpy_dtype.body, hsub, hloop, hb, hs]

theorem body_fixed_dim_scalar_builtin (self : fill_fn) (dim_size : Int)
    (element_type : ndt_type) (d base : PyArray_Descr) (s : Int) (a : Nat) (mem : arrmeta_t)
    (hsub : d.subarray = some (base, PyObject.int s)) (hs : in_intptr_range s = true)
    (hb : element_type.is_builtin = true) :
    fill_arrmeta_from_numpy_dtype.body self (.fixed_dim dim_size element_type) d a mem =
      .ok ((mem.write (md_dim_size a 0) s).write (md_stride a 0) base.elsize,
        .node a []) := by
  simp [fill_arrmeta_from_numpy_dtype.body, hsub, pyobject_as_index, hs, hb]

theorem body_fixed_dim_scalar_nested (self : fill_fn) (dim_size : Int)
    (element_type : ndt_type) (d base : PyArray_Descr) (s : Int) (a : Nat)
    (mem mem2 : arrmeta_t) (t : call_tree)
    (hsub : d.subarray = some (base, PyObject.int s)) (hs : in_intptr_range s = true)
    (hb : element_type.is_builtin = false)
    (hcall : self element_type base (a + sizeof_fixed_dim_type_arrmeta)
      ((mem.write (md_dim_size a 0) s).write (md_stride a 0) base.elsize) = .ok (mem2, t)) :
    fill_arrmeta_from_numpy_dtype.body self (.fixed_dim dim_size element_type) d a mem =
      .ok (mem2, .node a [t]) := by
  simp [fill_arrmeta_from_numpy_dtype.body, hsub, pyobject_as_index, hs, hb, hcall]

theorem body_other (self : fill_fn) (dt : ndt_type) (d : PyArray_Descr) (a : Nat)
    (mem : arrmeta_t)
    (hstruct : ∀ fields data_size, dt ≠ .struct fields data_size)
    (hdim : ∀ dim_size element_type, dt ≠ .fixed_dim dim_size element_type) :
    fill_arrmeta_from_numpy_dtype.body self dt d a mem = .ok (mem, .node a []) := by
  cases dt with
  | struct fields data_size => exact absurd rfl (hstruct fields data_size)
  | fixed_dim dim_size element_type => exact absurd rfl (hdim dim_size element_type)
  | _ => simp [fill_arrmeta_from_numpy_dtype.body]

theorem md_below (a x j : Nat) (hx : x < a) : x ≠ md_dim_size a j ∧ x ≠ md_stride a j := by
  simp only [md_dim_size, md_stride, sizeof_fixed_dim_type_arrmeta]
  constructor <;> omega

/-- On a well-formed descriptor the recursion succeeds as soon as the fuel exceeds the
depth of the descriptor. -/
theorem go_succeeds : ∀ (fuel : Nat) (dt : ndt_type) (d : PyArray_Descr),
    descr_matches dt d → d.depth < fuel →
    fill_succeeds (fill_arrmeta_from_numpy_dtype.go fuel) dt d := by
  intro fuel
  induction fuel with
  | zero => intro dt d _ h; omega
  | succ fuel ih =>
    intro dt d hm hdepth a mem
    simp only [fill_arrmeta_from_numpy_dtype.go]
    cases hm with
    | struct fields data_size d hparse hrec =>
      obtain ⟨mem', calls', hok, hlow, _, _, _⟩ :=
        struct_loop_spec (fill_arrmeta_from_numpy_dtype.go fuel) d a 0 fields 0 mem []
          (by
            intro k name ft aoff hk
            obtain ⟨key, tup, fld, off, h1, h2, h3, h4⟩ := hparse k name ft aoff hk
            refine ⟨key, tup, fld, off, by simpa using h1, h2, h3, ?_⟩
            intro hb
            obtain ⟨fd, hfd⟩ := h4 hb
            subst hfd
            refine ⟨by omega, fd, rfl, ?_⟩
            have hd := depth_field d key tup fd off h2 h3
            exact ih ft fd (hrec k name ft aoff key tup fd off hk h1 h2 h3 hb) (by omega))
      exact ⟨mem', .node a calls', body_struct _ _ _ _ _ _ _ _ hok, hlow, rfl⟩
    | fixed_dim_tuple dim_size element_type d base shape el hsub hshape hpeel hel =>
      obtain ⟨mem1, hloop, _, _, hframe⟩ := dim_loop_spec shape a base.elsize hshape
        shape.length base.elsize (.fixed_dim dim_size element_type) el mem (le_refl _) hpeel
      have hlow1 : ∀ x, x < a → mem1 x = mem x :=
        fun x hx => hframe x (fun j _ => md_below a x j hx)
      cases hb : el.is_builtin with
      | true =>
        exact ⟨mem1, .node a [],
          body_fixed_dim_tuple_builtin _ _ _ _ _ _ _ _ _ _ hsub hloop hb, hlow1, rfl⟩
      | false =>
        have hd := depth_subarray d base _ hsub
        obtain ⟨mem2, t, hs, hlow2, _⟩ := ih el base (hel hb) (by omega)
          (a + shape.length * sizeof_fixed_dim_type_arrmeta) mem1
        refine ⟨mem2, .node a [t],
          body_fixed_dim_tuple_nested _ _ _ _ _ _ _ _ _ _ _ _ hsub hloop hb hs, ?_, rfl⟩
        intro x hx
        rw [hlow2 x (by omega), hlow1 x hx]
    | fixed_dim_scalar dim_size element_type d base s hsub hs hel =>
      have hlow1 : ∀ x, x < a →
          ((mem.write (md_dim_size a 0) s).write (md_stride a 0) base.elsize) x = mem x := by
        intro x hx
        rw [arrmeta_write_of_ne _ _ _ _ (md_below a x 0 hx).2,
          arrmeta_write_of_ne _ _ _ _ (md_below a x 0 hx).1]
      cases hb : element_type.is_builtin with
      | true =>
        exact ⟨_, .node a [], body_fixed_dim_scalar_builtin _ _ _ _ _ _ _ _ hsub hs hb,
          hlow1, rfl⟩
      | false =>
        have hd := depth_subarray d base _ hsub
        obtain ⟨mem2, t, hs2, hlow2, _⟩ := ih element_type base (hel hb) (by omega)
          (a + sizeof_fixed_dim_type_arrmeta)
          ((mem.write (md_dim_size a 0) s).write (md_stride a 0) base.elsize)
        refine ⟨mem2, .node a [t],
          body_fixed_dim_scalar_nested _ _ _ _ _ _ _ _ _ _ hsub hs hb hs2, ?_, rfl⟩
        intro x hx
        rw [hlow2 x (by omega), hlow1 x hx]
    | other dt d hstruct hdim =>
      exact ⟨mem, .node a [], body_other _ _ _ _ _ hstruct hdim, fun _ _ => rfl, rfl⟩

theorem foreign_field_offset_range (d : PyArray_Descr) (i : Nat) (off : Int)
    (h : foreign_field_offset d i = some off) : in_int_range off = true := by
  unfold foreign_field_offset at h
  split at h
  · cases h
  · split at h
    · cases h
    · rename_i tup _
      split at h
      · cases h
      · rename_i fld offset hp
        simp only [Option.some.injEq] at h
        subst h
        unfold PyArg_ParseTuple_Oi_O at hp
        split at hp
        · split at hp
          · rename_i hr
            simp only [Option.some.injEq, Prod.mk.injEq] at hp
            rw [← hp.2]; exact hr
          · cases hp
        · split at hp
          · rename_i hr
            simp only [Option.some.injEq, Prod.mk.injEq] at hp
            rw [← hp.2]; exact hr
          · cases hp
        · cases hp

theorem to_uintptr_of_nonneg (off : Int) (h0 : 0 ≤ off) (h : in_int_range off = true) :
    ((to_uintptr off : Nat) : Int) = off := by
  simp only [in_int_range, Bool.and_eq_true, decide_eq_true_eq] at h
  unfold to_uintptr
  rw [Int.toNat_of_nonneg (Int.emod_nonneg _ (by norm_num))]
  exact Int.emod_eq_of_lt h0 (by omega)

/-- C7: for a struct type and a foreign descriptor that is well formed for it, where
the sub-metadata of every field that is not builtin starts after the offset table
(at `8 * n` or later, `n` the field count), `fill_arrmeta_from_numpy_dtype` succeeds;
afterwards entry `i` of the offset table holds the byte offset that the foreign field
table gives for the `i`-th named field, for every `i < n`, whatever the order and the
padding of the fields; and the invocations made by this invocation are exactly, in
order, one per field whose type is not builtin, at `arrmeta + arrmeta_offsets[i]`. -/
theorem fill_arrmeta_struct_offsets (fields : List (String × ndt_type × Nat))
    (data_size : Nat) (d : PyArray_Descr) (arrmeta : Nat) (mem : arrmeta_t)
    (hwf : descr_matches (.struct fields data_size) d)
    (hlayout : ∀ (i : Nat) (name : String) (ft : ndt_type) (aoff : Nat),
      fields[i]? = some (name, ft, aoff) → ft.is_builtin = false →
      sizeof_size_t * fields.length ≤ aoff) :
    ∃ mem' calls,
      fill_arrmeta_from_numpy_dtype (.struct fields data_size) d arrmeta mem =
        .ok (mem', .node arrmeta calls) ∧
      (∀ i, i < fields.length → ∃ off, foreign_field_offset d i = some off ∧
        mem' (arrmeta + sizeof_size_t * i) = to_uintptr off ∧
        (0 ≤ off → mem' (arrmeta + sizeof_size_t * i) = off)) ∧
      calls.map call_tree.arrmeta =
        (fields.filter (fun f => !f.2.1.is_builtin)).map (fun f => arrmeta + f.2.2) ∧
      (∀ x, x < arrmeta → mem' x = mem x) := by
  cases hwf with
  | other dt d hstruct hdim => exact absurd rfl (hstruct fields data_size)
  | struct fields data_size d hparse hrec =>
    obtain ⟨mem', calls', hok, hlow, _, htab, hcalls⟩ :=
      struct_loop_spec (fill_arrmeta_from_numpy_dtype.go d.depth) d arrmeta fields.length
        fields 0 mem []
        (by
          intro k name ft aoff hk
          obtain ⟨key, tup, fld, off, h1, h2, h3, h4⟩ := hparse k name ft aoff hk
          refine ⟨key, tup, fld, off, by simpa using h1, h2, h3, ?_⟩
          intro hb
          obtain ⟨fd, hfd⟩ := h4 hb
          subst hfd
          refine ⟨by simpa [sizeof_size_t] using hlayout k name ft aoff hk hb, fd, rfl, ?_⟩
          have hd := depth_field d key tup fd off h2 h3
          exact go_succeeds d.depth ft fd
            (hrec k name ft aoff key tup fd off hk h1 h2 h3 hb) hd)
    refine ⟨mem', calls', ?_, ?_, by simpa using hcalls, hlow⟩
    · unfold fill_arrmeta_from_numpy_dtype
      simp only [fill_arrmeta_from_numpy_dtype.go]
      exact body_struct _ _ _ _ _ _ _ _ hok
    · intro i hi
      obtain ⟨off, hoff, hval⟩ := htab i hi (by omega)
      simp only [Nat.zero_add] at hoff hval
      refine ⟨off, hoff, hval, fun h0 => ?_⟩
      rw [hval]
      exact to_uintptr_of_nonneg off h0 (foreign_field_offset_range d i off hoff)

theorem suffix_stride_last (e : Int) (shape : List Int) (h : 0 < shape.length) :
    suffix_stride e shape (shape.length - 1) = e := by
  unfold suffix_stride
  have : shape.length - 1 + 1 = shape.length := by omega
  rw [this, List.drop_length]
  simp

theorem suffix_stride_zero (e : Int) (shape : List Int) (s : Int) (h : shape[0]? = some s) :
    suffix_stride e shape 0 * s = e * shape.prod := by
  unfold suffix_stride
  cases shape with
  | nil => simp at h
  | cons x xs =>
    simp only [List.getElem?_cons_zero, Option.some.injEq] at h
    subst h
    simp only [Nat.zero_add, List.drop_succ_cons, List.drop_zero, List.prod_cons]
    ring

/-- C8: for a fixed dimension type and a foreign subarray descriptor with base element
size `e`. Tuple shape `(s_0, ..., s_{n-1})` of integers, the type having at least `n`
fixed dimensions, the descriptor `base` well formed for the element type under them
and the strides not overflowing: the function succeeds and has written the `n`
consecutive records with `size_i = s_i` and `stride_i = e * s_{i+1} * ... * s_{n-1}`,
so the innermost stride is `e` and `stride_0 * s_0 = e * s_0 * ... * s_{n-1}`; it then
invokes itself once, at the address right after the `n` records, exactly when the
element type is not builtin. Integer shape `s`: the single record is `(stride = e,
size = s)`, and the invocation for the element type is at the address after it. -/
theorem fill_arrmeta_fixed_dim_records (dim_size : Int) (element_type : ndt_type)
    (d base : PyArray_Descr) (arrmeta : Nat) (mem : arrmeta_t) :
    (∀ (shape : List Int) (el : ndt_type),
      d.subarray = some (base, PyObject.tuple (shape.map PyObject.int)) →
      (∀ s ∈ shape, in_intptr_range s = true) →
      ndt_type.peel shape.length (.fixed_dim dim_size element_type) = some el →
      (el.is_builtin = false → descr_matches el base) →
      (∀ j, j + 1 < shape.length → in_intptr_range (suffix_stride base.elsize shape j) = true) →
      ∃ mem' calls,
        fill_arrmeta_from_numpy_dtype (.fixed_dim dim_size element_type) d arrmeta mem =
          .ok (mem', .node arrmeta calls) ∧
        (∀ j, j < shape.length → ∃ s, shape[j]? = some s ∧
          mem' (md_dim_size arrmeta j) = s ∧
          mem' (md_stride arrmeta j) = base.elsize * (shape.drop (j + 1)).prod) ∧
        (0 < shape.length → mem' (md_stride arrmeta (shape.length - 1)) = base.elsize) ∧
        (0 < shape.length →
          mem' (md_stride arrmeta 0) * mem' (md_dim_size arrmeta 0) =
            base.elsize * shape.prod) ∧
        calls.map call_tree.arrmeta =
          (if el.is_builtin then []
            else [arrmeta + shape.length * sizeof_fixed_dim_type_arrmeta]) ∧
        (∀ x, x < arrmeta → mem' x = mem x)) ∧
    (∀ (s : Int),
      d.subarray = some (base, PyObject.int s) →
      in_intptr_range s = true →
      (element_type.is_builtin = false → descr_matches element_type base) →
      ∃ mem' calls,
        fill_arrmeta_from_numpy_dtype (.fixed_dim dim_size element_type) d arrmeta mem =
          .ok (mem', .node arrmeta calls) ∧
        mem' (md_dim_size arrmeta 0) = s ∧
        mem' (md_stride arrmeta 0) = base.elsize ∧
        calls.map call_tree.arrmeta =
          (if element_type.is_builtin then []
            else [arrmeta + sizeof_fixed_dim_type_arrmeta]) ∧
        (∀ x, x < arrmeta → mem' x = mem x)) := by
  constructor
  · intro shape el hsub hshape hpeel hel hrange
    obtain ⟨mem1, hloop, hdims, hstr, hframe⟩ := dim_loop_spec shape arrmeta base.elsize hshape
      shape.length base.elsize (.fixed_dim dim_size element_type) el mem (le_refl _) hpeel
    have hstr' := hstr (fun hpos => (suffix_stride_last base.elsize shape hpos).symm) hrange
    have hlow1 : ∀ x, x < arrmeta → mem1 x = mem x :=
      fun x hx => hframe x (fun j _ => md_below arrmeta x j hx)
    have hd := depth_subarray d base _ hsub
    -- the records as they stand after the loop
    have hrec1 : (∀ j, j < shape.length → ∃ s, shape[j]? = some s ∧
          mem1 (md_dim_size arrmeta j) = s ∧
          mem1 (md_stride arrmeta j) = base.elsize * (shape.drop (j + 1)).prod) := by
      intro j hj
      obtain ⟨s, hs, hds⟩ := hdims j hj
      exact ⟨s, hs, hds, hstr' j hj⟩
    have hfinish : ∀ (mem' : arrmeta_t),
        (∀ x, x < arrmeta + shape.length * sizeof_fixed_dim_type_arrmeta → mem' x = mem1 x) →
        (∀ j, j < shape.length → ∃ s, shape[j]? = some s ∧
          mem' (md_dim_size arrmeta j) = s ∧
          mem' (md_stride arrmeta j) = base.elsize * (shape.drop (j + 1)).prod) ∧
        (0 < shape.length → mem' (md_stride arrmeta (shape.length - 1)) = base.elsize) ∧
        (0 < shape.length →
          mem' (md_stride arrmeta 0) * mem' (md_dim_size arrmeta 0) =
            base.elsize * shape.prod) ∧
        (∀ x, x < arrmeta → mem' x = mem x) := by
      intro mem' hsame
      have hrec' : ∀ j, j < shape.length → ∃ s, shape[j]? = some s ∧
          mem' (md_dim_size arrmeta j) = s ∧
          mem' (md_stride arrmeta j) = base.elsize * (shape.drop (j + 1)).prod := by
        intro j hj
        obtain ⟨s, hs, h1, h2⟩ := hrec1 j hj
        refine ⟨s, hs, ?_, ?_⟩
        · rw [hsame _ (by simp only [md_dim_size, sizeof_fixed_dim_type_arrmeta]; omega)]
          exact h1
        · rw [hsame _ (by simp only [md_stride, sizeof_fixed_dim_type_arrmeta]; omega)]
          exact h2
      refine ⟨hrec', ?_, ?_, ?_⟩
      · intro hpos
        obtain ⟨s, _, _, h2⟩ := hrec' (shape.length - 1) (by omega)
        rw [h2]
        exact suffix_stride_last base.elsize shape hpos
      · intro hpos
        obtain ⟨s, hs, h1, h2⟩ := hrec' 0 hpos
        rw [h1, h2]
        exact suffix_stride_zero base.elsize shape s hs
      · intro x hx
        rw [hsame x (by omega), hlow1 x hx]
    unfold fill_arrmeta_from_numpy_dtype
    simp only [fill_arrmeta_from_numpy_dtype.go]
    cases hb : el.is_builtin with
    | true =>
      obtain ⟨h1, h2, h3, h4⟩ := hfinish mem1 (fun _ _ => rfl)
      exact ⟨mem1, [], body_fixed_dim_tuple_builtin _ _ _ _ _ _ _ _ _ _ hsub hloop hb,
        h1, h2, h3, by simp, h4⟩
    | false =>
      obtain ⟨mem2, t, hs, hlow2, hroot⟩ := go_succeeds d.depth el base (hel hb) hd
        (arrmeta + shape.length * sizeof_fixed_dim_type_arrmeta) mem1
      obtain ⟨h1, h2, h3, h4⟩ := hfinish mem2 hlow2
      exact ⟨mem2, [t],
        body_fixed_dim_tuple_nested _ _ _ _ _ _ _ _ _ _ _ _ hsub hloop hb hs,
        h1, h2, h3, by simp [hroot], h4⟩
  · intro s hsub hs hel
    have hd := depth_subarray d base _ hsub
    have hlow1 : ∀ x, x < arrmeta →
        ((mem.write (md_dim_size arrmeta 0) s).write (md_stride arrmeta 0) base.elsize) x =
          mem x := by
      intro x hx
      rw [arrmeta_write_of_ne _ _ _ _ (md_below arrmeta x 0 hx).2,
        arrmeta_write_of_ne _ _ _ _ (md_below arrmeta x 0 hx).1]
    have hsz : ((mem.write (md_dim_size arrmeta 0) s).write (md_stride arrmeta 0) base.elsize)
        (md_dim_size arrmeta 0) = s := by
      rw [arrmeta_write_of_ne _ _ _ _ (by simp [md_dim_size, md_stride])]
      exact arrmeta_write_same _ _ _
    have hst : ((mem.write (md_dim_size arrmeta 0) s).write (md_stride arrmeta 0) base.elsize)
        (md_stride arrmeta 0) = base.elsize := arrmeta_write_same _ _ _
    unfold fill_arrmeta_from_numpy_dtype
    simp only [fill_arrmeta_from_numpy_dtype.go]
    cases hb : element_type.is_builtin with
    | true =>
      exact ⟨_, [], body_fixed_dim_scalar_builtin _ _ _ _ _ _ _ _ hsub hs hb, hsz, hst,
        by simp, hlow1⟩
    | false =>
      obtain ⟨mem2, t, hs2, hlow2, hroot⟩ := go_succeeds d.depth element_type base (hel hb) hd
        (arrmeta + sizeof_fixed_dim_type_arrmeta)
        ((mem.write (md_dim_size arrmeta 0) s).write (md_stride arrmeta 0) base.elsize)
      refine ⟨mem2, [t], body_fixed_dim_scalar_nested _ _ _ _ _ _ _ _ _ _ hsub hs hb hs2,
        ?_, ?_, by simp [hroot], ?_⟩
      · rw [hlow2 _ (by simp [md_dim_size, sizeof_fixed_dim_type_arrmeta]), hsz]
      · rw [hlow2 _ (by simp [md_stride, sizeof_fixed_dim_type_arrmeta]), hst]
      · intro x hx
        rw [hlow2 x (by omega), hlow1 x hx]

/-- C7, at a concrete struct: fields `a : int32` and `b : 3 * float64`, stored by the
foreign side in the order `b`, `a` with `a` at byte offset 4 and `b` at byte offset 16;
the offset table becomes `[4, 16]` and the only recursive invocation is for `b`, at the
arrmeta offset 16 of that field. -/
theorem fill_arrmeta_struct_offsets_witness :
    ∃ mem' calls,
      fill_arrmeta_from_numpy_dtype
          (.struct [("a", .builtin .int32_id, 16),
            ("b", .fixed_dim 3 (.builtin .float64_id), 16)] 40)
          (.mk 40 0 ["a", "b"]
            [("b", .tuple [.descr (.mk 24 0 [] []
                (some (.mk 8 0 [] [] Option.none, .tuple [.int 3]))), .int 16]),
             ("a", .tuple [.descr (.mk 4 0 [] [] Option.none), .int 4, .str "title"])]
            Option.none)
          0 (fun _ => 0) = .ok (mem', .node 0 calls) ∧
      mem' 0 = 4 ∧ mem' 8 = 16 ∧ calls.map call_tree.arrmeta = [16] := by
  obtain ⟨mem', calls, hok, htab, hcalls, _⟩ := fill_arrmeta_struct_offsets
    [("a", .builtin .int32_id, 16), ("b", .fixed_dim 3 (.builtin .float64_id), 16)] 40
    (.mk 40 0 ["a", "b"]
      [("b", .tuple [.descr (.mk 24 0 [] []
          (some (.mk 8 0 [] [] Option.none, .tuple [.int 3]))), .int 16]),
       ("a", .tuple [.descr (.mk 4 0 [] [] Option.none), .int 4, .str "title"])]
      Option.none)
    0 (fun _ => 0)
    (by
      refine descr_matches.struct _ _ _ ?_ ?_
      · intro i name ft aoff h
        match i with
        | 0 =>
          simp only [List.getElem?_cons_zero, Option.some.injEq, Prod.mk.injEq] at h
          obtain ⟨_, rfl, _⟩ := h
          exact ⟨"a", _, _, 4, rfl, rfl, rfl, by simp [ndt_type.is_builtin]⟩
        | 1 =>
          simp only [List.getElem?_cons_succ, List.getElem?_cons_zero, Option.some.injEq,
            Prod.mk.injEq] at h
          obtain ⟨_, rfl, _⟩ := h
          exact ⟨"b", _, _, 16, rfl, rfl, rfl, fun _ => ⟨_, rfl⟩⟩
        | i + 2 => simp at h
      · intro i name ft aoff key tup fd off h h1 h2 h3 hb
        match i with
        | 0 =>
          simp only [List.getElem?_cons_zero, Option.some.injEq, Prod.mk.injEq] at h
          obtain ⟨_, rfl, _⟩ := h
          simp [ndt_type.is_builtin] at hb
        | 1 =>
          simp only [List.getElem?_cons_succ, List.getElem?_cons_zero, Option.some.injEq,
            Prod.mk.injEq] at h
          obtain ⟨_, rfl, _⟩ := h
          simp only [PyArray_Descr.names, List.getElem?_cons_succ, List.getElem?_cons_zero,
            Option.some.injEq] at h1
          subst h1
          simp only [PyArray_Descr.fields, PyDict_GetItem, if_true, Option.some.injEq] at h2
          subst h2
          simp only [PyArg_ParseTuple_Oi_O, in_int_range] at h3
          simp only [Int.reduceNeg, Int.reducePow, Int.reduceLE, decide_True, Int.reduceLT,
            Bool.and_self, if_true, Option.some.injEq, Prod.mk.injEq, PyObject.descr.injEq] at h3
          obtain ⟨rfl, _⟩ := h3
          exact descr_matches.fixed_dim_tuple 3 _ _ (.mk 8 0 [] [] Option.none) [3]
            (.builtin .float64_id) rfl (by decide) rfl (by simp [ndt_type.is_builtin])
        | i + 2 => simp at h)
    (by
      intro i name ft aoff h hb
      match i with
      | 0 =>
        simp only [List.getElem?_cons_zero, Option.some.injEq, Prod.mk.injEq] at h
        obtain ⟨_, _, rfl⟩ := h
        decide
      | 1 =>
        simp only [List.getElem?_cons_succ, List.getElem?_cons_zero, Option.some.injEq,
          Prod.mk.injEq] at h
        obtain ⟨_, _, rfl⟩ := h
        decide
      | i + 2 => simp at h)
  refine ⟨mem', calls, hok, ?_, ?_, ?_⟩
  · obtain ⟨off, hoff, _, hv⟩ := htab 0 (by decide)
    have : off = 4 := by
      have h4 : foreign_field_offset (.mk 40 0 ["a", "b"]
        [("b", .tuple [.descr (.mk 24 0 [] []
            (some (.mk 8 0 [] [] Option.none, .tuple [.int 3]))), .int 16]),
         ("a", .tuple [.descr (.mk 4 0 [] [] Option.none), .int 4, .str "title"])]
        Option.none) 0 = some 4 := rfl
      rw [h4] at hoff
      exact (Option.some.inj hoff).symm
    subst this
    simpa using hv (by decide)
  · obtain ⟨off, hoff, _, hv⟩ := htab 1 (by decide)
    have : off = 16 := by
      have h16 : foreign_field_offset (.mk 40 0 ["a", "b"]
        [("b", .tuple [.descr (.mk 24 0 [] []
            (some (.mk 8 0 [] [] Option.none, .tuple [.int 3]))), .int 16]),
         ("a", .tuple [.descr (.mk 4 0 [] [] Option.none), .int 4, .str "title"])]
        Option.none) 1 = some 16 := rfl
      rw [h16] at hoff
      exact (Option.some.inj hoff).symm
    subst this
    simpa [sizeof_size_t] using hv (by decide)
  · simpa [ndt_type.is_builtin] using hcalls

/-- C8, at a concrete subarray: shape `(2, 3, 4)` over 4 byte elements gives the
records `(stride 48, size 2)`, `(stride 16, size 3)`, `(stride 4, size 4)`, and no
recursive invocation since the element type is builtin. -/
theorem fill_arrmeta_fixed_dim_records_witness :
    ∃ mem' calls,
      fill_arrmeta_from_numpy_dtype
          (.fixed_dim 2 (.fixed_dim 3 (.fixed_dim 4 (.builtin .int32_id))))
          (.mk 96 0 [] [] (some (.mk 4 0 [] [] Option.none, .tuple [.int 2, .int 3, .int 4])))
          0 (fun _ => 0) = .ok (mem', .node 0 calls) ∧
      mem' 0 = 2 ∧ mem' 8 = 48 ∧ mem' 16 = 3 ∧ mem' 24 = 16 ∧ mem' 32 = 4 ∧ mem' 40 = 4 ∧
      calls = [] := by
  obtain ⟨mem', calls, hok, hrec, _, _, hcalls, _⟩ :=
    (fill_arrmeta_fixed_dim_records 2 (.fixed_dim 3 (.fixed_dim 4 (.builtin .int32_id)))
      (.mk 96 0 [] [] (some (.mk 4 0 [] [] Option.none, .tuple [.int 2, .int 3, .int 4])))
      (.mk 4 0 [] [] Option.none) 0 (fun _ => 0)).1 [2, 3, 4] (.builtin .int32_id)
      rfl (by decide) rfl (by simp [ndt_type.is_builtin]) (by
        intro j hj
        have : j = 0 ∨ j = 1 := by simp at hj; omega
        rcases this with rfl | rfl <;> decide)
  obtain ⟨s0, h0, hd0, hs0⟩ := hrec 0 (by decide)
  obtain ⟨s1, h1, hd1, hs1⟩ := hrec 1 (by decide)
  obtain ⟨s2, h2, hd2, hs2⟩ := hrec 2 (by decide)
  simp only [List.getElem?_cons_zero, List.getElem?_cons_succ, Option.some.injEq] at h0 h1 h2
  subst h0 h1 h2
  refine ⟨mem', calls, hok, ?_, ?_, ?_, ?_, ?_, ?_, ?_⟩
  · simpa [md_dim_size] using hd0
  · simpa [md_stride, PyArray_Descr.elsize] using hs0
  · simpa [md_dim_size, sizeof_fixed_dim_type_arrmeta] using hd1
  · simpa [md_stride, sizeof_fixed_dim_type_arrmeta, PyArray_Descr.elsize] using hs1
  · simpa [md_dim_size, sizeof_fixed_dim_type_arrmeta] using hd2
  · simpa [md_stride, sizeof_fixed_dim_type_arrmeta, PyArray_Descr.elsize] using hs2
  · simpa [ndt_type.is_builtin] using hcalls

/-! ## Filling the arrmeta: what a run leaves alone -/

/-- One successful iteration of the struct loop, spelled out. -/
theorem struct_loop_cons_ok (self : fill_fn) (d : PyArray_Descr) (a : Nat)
    (name : String) (ft : ndt_type) (aoff : Nat) (rest : List (String × ndt_type × Nat))
    (i : Nat) (mem : arrmeta_t) (calls : List call_tree) (r : arrmeta_t × List call_tree)
    (h : fill_arrmeta_struct_loop self d a ((name, ft, aoff) :: rest) i mem calls = .ok r) :
    ∃ key tup fld off, d.names[i]? = some key ∧ PyDict_GetItem d.fields key = some tup ∧
      PyArg_ParseTuple_Oi_O tup = some (fld, off) ∧
      ((ft.is_builtin = true ∧
          fill_arrmeta_struct_loop self d a rest (i + 1)
            (mem.write (a + sizeof_size_t * i) (to_uintptr off)) calls = .ok r) ∨
       (ft.is_builtin = false ∧ ∃ fd mem2 t, fld = PyObject.descr fd ∧
          self ft fd (a + aoff) (mem.write (a + sizeof_size_t * i) (to_uintptr off)) =
            .ok (mem2, t) ∧
          fill_arrmeta_struct_loop self d a rest (i + 1) mem2 (calls ++ [t]) = .ok r)) := by
  unfold fill_arrmeta_struct_loop at h
  cases hn : d.names[i]? with
  | none => simp [hn] at h
  | some key =>
    cases hg : PyDict_GetItem d.fields key with
    | none => simp [hn, hg] at h
    | some tup =>
      cases hp : PyArg_ParseTuple_Oi_O tup with
      | none => simp [hn, hg, hp] at h
      | some p =>
        obtain ⟨fld, off⟩ := p
        refine ⟨key, tup, fld, off, rfl, hg, hp, ?_⟩
        simp only [hn, hg, hp] at h
        cases hb : ft.is_builtin with
        | true =>
          left
          simp only [hb, Bool.not_true, Bool.false_eq_true, if_false] at h
          exact ⟨rfl, h⟩
        | false =>
          right
          simp only [hb, Bool.not_false, if_true] at h
          refine ⟨rfl, ?_⟩
          cases fld with
          | descr fd =>
            simp only at h
            cases hs : self ft fd (a + aoff)
                (mem.write (a + sizeof_size_t * i) (to_uintptr off)) with
            | error e => simp [hs] at h
            | ok p =>
              obtain ⟨mem2, t⟩ := p
              simp only [hs] at h
              exact ⟨fd, mem2, t, rfl, hs, h⟩
          | none => simp at h
          | int v => simp at h
          | str s => simp at h
          | tuple items => simp at h

theorem struct_loop_frame (self : fill_fn)
    (hself : ∀ dt d a mem mem' t, self dt d a mem = .ok (mem', t) →
      ∀ x, x < a → mem' x = mem x)
    (d : PyArray_Descr) (a : Nat) (fields : List (String × ndt_type × Nat)) :
    ∀ (i : Nat) (mem : arrmeta_t) (calls : List call_tree) (r : arrmeta_t × List call_tree),
      fill_arrmeta_struct_loop self d a fields i mem calls = .ok r →
      ∀ x, x < a → r.1 x = mem x := by
  induction fields with
  | nil =>
    intro i mem calls r h x _
    simp only [fill_arrmeta_struct_loop, Except.ok.injEq] at h
    rw [← h]
  | cons f rest ih =>
    obtain ⟨name, ft, aoff⟩ := f
    intro i mem calls r h x hx
    obtain ⟨key, tup, fld, off, _, _, _, hcase⟩ := struct_loop_cons_ok _ _ _ _ _ _ _ _ _ _ _ h
    have hw : (mem.write (a + sizeof_size_t * i) ((to_uintptr off : Nat) : Int)) x = mem x :=
      arrmeta_write_of_ne _ _ _ _ (by omega)
    rcases hcase with ⟨_, hrest⟩ | ⟨_, fd, mem2, t, _, hcall, hrest⟩
    · rw [ih _ _ _ _ hrest x hx, hw]
    · rw [ih _ _ _ _ hrest x hx, hself _ _ _ _ _ _ hcall x (by omega), hw]

theorem dim_loop_frame (items : List PyObject) (a : Nat) :
    ∀ (n : Nat) (stride : Int) (el : ndt_type) (mem : arrmeta_t) (r : arrmeta_t × ndt_type),
      fill_arrmeta_dim_loop items a n stride el mem = .ok r →
      ∀ x, x < a → r.1 x = mem x := by
  intro n
  induction n with
  | zero =>
    intro stride el mem r h x _
    simp only [fill_arrmeta_dim_loop, Except.ok.injEq] at h
    rw [← h]
  | succ n ih =>
    intro stride el mem r h x hx
    unfold fill_arrmeta_dim_loop at h
    cases hi : items[n]? with
    | none => simp [hi] at h
    | some item =>
      simp only [hi] at h
      cases hp : pyobject_as_index item with
      | error e => simp [hp] at h
      | ok dim_size =>
        simp only [hp] at h
        cases el with
        | fixed_dim ds elem =>
          simp only at h
          rw [ih _ _ _ _ h x hx]
          rw [arrmeta_write_of_ne _ _ _ _ (md_below a x n hx).2,
            arrmeta_write_of_ne _ _ _ _ (md_below a x n hx).1]
        | _ => simp at h


theorem body_frame (self : fill_fn)
    (hself : ∀ dt d a mem mem' t, self dt d a mem = .ok (mem', t) →
      ∀ x, x < a → mem' x = mem x) :
    ∀ dt d a mem mem' t, fill_arrmeta_from_numpy_dtype.body self dt d a mem = .ok (mem', t) →
      ∀ x, x < a → mem' x = mem x := by
  intro dt d a mem mem' t h x hx
  have hfin : ∀ (el : ndt_type) (base : PyArray_Descr) (a' : Nat) (mem1 : arrmeta_t),
      a ≤ a' → (∀ y, y < a → mem1 y = mem y) →
      (if (!el.is_builtin) = true then
          match self el base a' mem1 with
          | .error e => (Except.error e : Except exception (arrmeta_t × call_tree))
          | .ok (mem, t) => .ok (mem, .node a [t])
        else .ok (mem1, .node a [])) = .ok (mem', t) → mem' x = mem x := by
    intro el base a' mem1 ha hm1 hres
    cases hb : el.is_builtin with
    | true =>
      simp only [hb, Bool.not_true, Bool.false_eq_true, if_false, Except.ok.injEq,
        Prod.mk.injEq] at hres
      rw [← hres.1]; exact hm1 x hx
    | false =>
      simp only [hb, Bool.not_false, if_true] at hres
      cases hs : self el base a' mem1 with
      | error e => simp [hs] at hres
      | ok p =>
        obtain ⟨m2, t2⟩ := p
        simp only [hs, Except.ok.injEq, Prod.mk.injEq] at hres
        rw [← hres.1, hself _ _ _ _ _ _ hs x (by omega), hm1 x hx]
  cases dt with
  | struct fields data_size =>
    simp only [fill_arrmeta_from_numpy_dtype.body] at h
    cases hl : fill_arrmeta_struct_loop self d a fields 0 mem [] with
    | error e => simp [hl] at h
    | ok p =>
      simp only [hl, Except.ok.injEq, Prod.mk.injEq] at h
      rw [← h.1]
      exact struct_loop_frame self hself d a fields 0 mem [] p hl x hx
  | fixed_dim dim_size element_type =>
    simp only [fill_arrmeta_from_numpy_dtype.body] at h
    cases hsub : d.subarray with
    | none => simp [hsub] at h
    | some p =>
      obtain ⟨base, shape⟩ := p
      simp only [hsub] at h
      cases shape with
      | tuple items =>
        simp only at h
        cases hl : fill_arrmeta_dim_loop items a items.length base.elsize
            (.fixed_dim dim_size element_type) mem with
        | error e => simp [hl] at h
        | ok q =>
          obtain ⟨mem1, el⟩ := q
          simp only [hl] at h
          exact hfin el base _ mem1 (by omega)
            (fun y hy => dim_loop_frame items a _ _ _ _ _ hl y hy) h
      | int v =>
        simp only at h
        cases hp : pyobject_as_index (PyObject.int v) with
        | error e => simp [hp] at h
        | ok ds =>
          simp only [hp] at h
          exact hfin element_type base _ _ (by omega)
            (fun y hy => by
              rw [arrmeta_write_of_ne _ _ _ _ (md_below a y 0 hy).2,
                arrmeta_write_of_ne _ _ _ _ (md_below a y 0 hy).1]) h
      | none => simp [pyobject_as_index] at h
      | str s => simp [pyobject_as_index] at h
      | descr dd => simp [pyobject_as_index] at h
  | _ =>
    simp only [fill_arrmeta_from_numpy_dtype.body, Except.ok.injEq, Prod.mk.injEq] at h
    rw [← h.1]

/-- Whenever `fill_arrmeta_from_numpy_dtype` succeeds, the words below its `arrmeta`
argument are as before. -/
theorem fill_frame : ∀ (dt : ndt_type) (d : PyArray_Descr) (a : Nat) (mem mem' : arrmeta_t)
    (t : call_tree), fill_arrmeta_from_numpy_dtype dt d a mem = .ok (mem', t) →
    ∀ x, x < a → mem' x = mem x := by
  have hgo : ∀ fuel, ∀ dt d a mem mem' t,
      fill_arrmeta_from_numpy_dtype.go fuel dt d a mem = .ok (mem', t) →
      ∀ x, x < a → mem' x = mem x := by
    intro fuel
    induction fuel with
    | zero =>
      intro dt d a mem mem' t h
      simp [fill_arrmeta_from_numpy_dtype.go] at h
    | succ fuel ih =>
      intro dt d a mem mem' t h
      simp only [fill_arrmeta_from_numpy_dtype.go] at h
      exact body_frame _ ih dt d a mem mem' t h
  intro dt d a mem mem' t h
  exact hgo _ dt d a mem mem' t h

theorem write_dim_records_spec : ∀ (dims strides : List Int) (i : Nat) (mem : arrmeta_t),
    (∀ j, j < dims.length → j < strides.length →
      ∃ s t, dims[j]? = some s ∧ strides[j]? = some t ∧
        (write_dim_records dims strides i mem) (md_dim_size 0 (i + j)) = s ∧
        (write_dim_records dims strides i mem) (md_stride 0 (i + j)) = t) ∧
    (∀ k, k < i → (write_dim_records dims strides i mem) (md_dim_size 0 k) =
        mem (md_dim_size 0 k) ∧
      (write_dim_records dims strides i mem) (md_stride 0 k) = mem (md_stride 0 k)) := by
  intro dims
  induction dims with
  | nil =>
    intro strides i mem
    exact ⟨fun j hj => by simp at hj, fun k _ => by simp [write_dim_records]⟩
  | cons dim dims ih =>
    intro strides i mem
    cases strides with
    | nil => exact ⟨fun j _ hj => by simp at hj, fun k _ => by simp [write_dim_records]⟩
    | cons stride strides =>
      simp only [write_dim_records]
      obtain ⟨h1, h2⟩ := ih strides (i + 1)
        ((mem.write (md_dim_size 0 i) dim).write (md_stride 0 i) stride)
      constructor
      · intro j hj1 hj2
        cases j with
        | zero =>
          refine ⟨dim, stride, by simp, by simp, ?_, ?_⟩
          · have e := (h2 i (by omega)).1
            simp only [Nat.add_zero]
            rw [e, arrmeta_write_of_ne _ _ _ _ (by simp [md_dim_size, md_stride])]
            exact arrmeta_write_same _ _ _
          · have e := (h2 i (by omega)).2
            simp only [Nat.add_zero]
            rw [e]
            exact arrmeta_write_same _ _ _
        | succ j =>
          obtain ⟨s, t, hs, ht, h3, h4⟩ := h1 j (by simpa using hj1) (by simpa using hj2)
          have e : i + (j + 1) = i + 1 + j := by omega
          rw [e]
          exact ⟨s, t, by simpa using hs, by simpa using ht, h3, h4⟩
      · intro k hk
        obtain ⟨h3, h4⟩ := h2 k (by omega)
        rw [h3, h4]
        have hne : ∀ (y : Nat), (y = md_dim_size 0 k ∨ y = md_stride 0 k) →
            y ≠ md_dim_size 0 i ∧ y ≠ md_stride 0 i := by
          intro y hy
          simp only [md_dim_size, md_stride, sizeof_fixed_dim_type_arrmeta] at hy ⊢
          constructor <;> omega
        constructor
        · rw [arrmeta_write_of_ne _ _ _ _ (hne _ (Or.inl rfl)).2,
            arrmeta_write_of_ne _ _ _ _ (hne _ (Or.inl rfl)).1]
        · rw [arrmeta_write_of_ne _ _ _ _ (hne _ (Or.inr rfl)).2,
            arrmeta_write_of_ne _ _ _ _ (hne _ (Or.inr rfl)).1]

/-! ## Filling the arrmeta: corrupt foreign descriptors -/

theorem import_copy_type_error (c : array_access_flags) (env : import_env)
    (refcnt : Nat → Int) (obj : PyArrayObject) (access_flags : Nat) (always_copy : Bool)
    (e : exception)
    (hpass : access_check_passes c obj access_flags always_copy)
    (hcond : always_copy = true ∨ PyDataType_FLAGCHK obj.descr NPY_ITEM_HASOBJECT = true)
    (h1 : env._type_from_numpy_dtype obj.descr 0 = .error e) :
    array_from_numpy_array c env refcnt obj access_flags always_copy = .error e := by
  unfold access_check_passes at hpass
  cases always_copy with
  | true => simp [array_from_numpy_array, h1]
  | false =>
    simp only [Bool.false_eq_true, false_or] at hpass hcond
    obtain ⟨hw, hi⟩ := hpass
    have hw' : ¬ (¬ access_flags &&& c.write_access_flag = 0 ∧
        PyArray_ISWRITEABLE obj = false) := hw
    simp [array_from_numpy_array, hw', hi, hcond, h1]


theorem import_view_type_error (c : array_access_flags) (env : import_env)
    (refcnt : Nat → Int) (obj : PyArrayObject) (access_flags : Nat) (e : exception)
    (hpass : access_check_passes c obj access_flags false)
    (hobj : PyDataType_FLAGCHK obj.descr NPY_ITEM_HASOBJECT = false)
    (hd : env._type_from_numpy_dtype obj.descr
      (get_alignment_of_array obj.data obj.strides) = .error e) :
    array_from_numpy_array c env refcnt obj access_flags false = .error e := by
  unfold access_check_passes at hpass
  simp only [Bool.false_eq_true, false_or] at hpass
  obtain ⟨hw, hi⟩ := hpass
  have hw' : ¬ (¬ access_flags &&& c.write_access_flag = 0 ∧
      PyArray_ISWRITEABLE obj = false) := hw
  simp [array_from_numpy_array, hw', hi, hobj, hd]

theorem import_view_fill_error (c : array_access_flags) (env : import_env)
    (refcnt : Nat → Int) (obj : PyArrayObject) (access_flags : Nat) (e : exception)
    (f : List (String × ndt_type × Nat)) (n : Nat)
    (hpass : access_check_passes c obj access_flags false)
    (hobj : PyDataType_FLAGCHK obj.descr NPY_ITEM_HASOBJECT = false)
    (hd : env._type_from_numpy_dtype obj.descr
      (get_alignment_of_array obj.data obj.strides) = .ok (.struct f n))
    (hfill : fill_arrmeta_from_numpy_dtype (.struct f n) obj.descr
      (obj.dims.length * sizeof_fixed_dim_type_arrmeta) (view_dim_records obj) = .error e) :
    array_from_numpy_array c env refcnt obj access_flags false = .error e := by
  unfold access_check_passes at hpass
  simp only [Bool.false_eq_true, false_or] at hpass
  obtain ⟨hw, hi⟩ := hpass
  have hw' : ¬ (¬ access_flags &&& c.write_access_flag = 0 ∧
      PyArray_ISWRITEABLE obj = false) := hw
  unfold view_dim_records at hfill
  simp [array_from_numpy_array, hw', hi, hobj, hd, make_strided_array_from_data, hfill]

theorem import_view_struct (c : array_access_flags) (env : import_env)
    (refcnt : Nat → Int) (obj : PyArrayObject) (access_flags : Nat)
    (f : List (String × ndt_type × Nat)) (n : Nat) (mem : arrmeta_t) (t : call_tree)
    (hpass : access_check_passes c obj access_flags false)
    (hobj : PyDataType_FLAGCHK obj.descr NPY_ITEM_HASOBJECT = false)
    (hd : env._type_from_numpy_dtype obj.descr
      (get_alignment_of_array obj.data obj.strides) = .ok (.struct f n))
    (hfill : fill_arrmeta_from_numpy_dtype (.struct f n) obj.descr
      (obj.dims.length * sizeof_fixed_dim_type_arrmeta) (view_dim_records obj) =
        .ok (mem, t)) :
    array_from_numpy_array c env refcnt obj access_flags false =
      .ok ({ tp := .struct f n, dims := obj.dims, strides := obj.strides,
             flags := view_flags c obj access_flags, data_pointer := some obj.data,
             memblock := (view_owner env refcnt obj).1, arrmeta := mem },
           (view_owner env refcnt obj).2) := by
  unfold access_check_passes at hpass
  simp only [Bool.false_eq_true, false_or] at hpass
  obtain ⟨hw, hi⟩ := hpass
  have hw' : ¬ (¬ access_flags &&& c.write_access_flag = 0 ∧
      PyArray_ISWRITEABLE obj = false) := hw
  unfold view_dim_records at hfill
  by_cases haf : access_flags = 0 <;>
  by_cases hb : obj.base = 0 ∨ ¬ obj.flags &&& NPY_ARRAY_UPDATEIFCOPY = 0 <;>
  cases hdy : env.is_dynd_array obj.base <;>
    simp [array_from_numpy_array, hw', hi, hobj, hd, make_strided_array_from_data, hfill,
      view_flags, view_owner, haf, hb, hdy]

theorem import_view_plain (c : array_access_flags) (env : import_env)
    (refcnt : Nat → Int) (obj : PyArrayObject) (access_flags : Nat) (d : ndt_type)
    (hpass : access_check_passes c obj access_flags false)
    (hobj : PyDataType_FLAGCHK obj.descr NPY_ITEM_HASOBJECT = false)
    (hd : env._type_from_numpy_dtype obj.descr
      (get_alignment_of_array obj.data obj.strides) = .ok d)
    (hns : ∀ f n, d ≠ .struct f n) :
    array_from_numpy_array c env refcnt obj access_flags false =
      .ok ({ tp := d, dims := obj.dims, strides := obj.strides,
             flags := view_flags c obj access_flags, data_pointer := some obj.data,
             memblock := (view_owner env refcnt obj).1, arrmeta := view_dim_records obj },
           (view_owner env refcnt obj).2) := by
  unfold access_check_passes at hpass
  simp only [Bool.false_eq_true, false_or] at hpass
  obtain ⟨hw, hi⟩ := hpass
  have hw' : ¬ (¬ access_flags &&& c.write_access_flag = 0 ∧
      PyArray_ISWRITEABLE obj = false) := hw
  cases d with
  | struct f n => exact absurd rfl (hns f n)
  | _ =>
    by_cases haf : access_flags = 0 <;>
    by_cases hb : obj.base = 0 ∨ ¬ obj.flags &&& NPY_ARRAY_UPDATEIFCOPY = 0 <;>
    cases hdy : env.is_dynd_array obj.base <;>
      simp [array_from_numpy_array, hw', hi, hobj, hd, make_strided_array_from_data,
        view_flags, view_owner, view_dim_records, haf, hb, hdy]


theorem import_check_fails (c : array_access_flags) (env : import_env)
    (refcnt : Nat → Int) (obj : PyArrayObject) (access_flags : Nat)
    (h : ¬ access_check_passes c obj access_flags false) :
    array_from_numpy_array c env refcnt obj access_flags false =
        .error (.runtime_error "cannot view a readonly numpy array as readwrite") ∨
      array_from_numpy_array c env refcnt obj access_flags false =
        .error (.runtime_error "cannot view a numpy array as immutable") := by
  unfold access_check_passes at h
  simp only [Bool.false_eq_true, false_or, not_and] at h
  by_cases hw : access_flags &&& c.write_access_flag = 0
  · right
    have hi := h (fun hc => absurd hw hc)
    simp [array_from_numpy_array, hw, hi]
  · cases hro : PyArray_ISWRITEABLE obj
    · left
      simp [array_from_numpy_array, hw, hro]
    · right
      have hi := h (fun _ => by simp [hro])
      simp [array_from_numpy_array, hro, hi]

theorem import_copy_empty_error (c : array_access_flags) (env : import_env)
    (refcnt : Nat → Int) (obj : PyArrayObject) (access_flags : Nat) (always_copy : Bool)
    (tp : ndt_type) (e : exception)
    (hpass : access_check_passes c obj access_flags always_copy)
    (hcond : always_copy = true ∨ PyDataType_FLAGCHK obj.descr NPY_ITEM_HASOBJECT = true)
    (h1 : env._type_from_numpy_dtype obj.descr 0 = .ok tp)
    (h2 : env.dtyped_empty obj.dims (env.get_canonical_type tp) = .error e) :
    array_from_numpy_array c env refcnt obj access_flags always_copy = .error e := by
  unfold access_check_passes at hpass
  cases always_copy with
  | true => simp [array_from_numpy_array, h1, h2]
  | false =>
    simp only [Bool.false_eq_true, false_or] at hpass hcond
    obtain ⟨hw, hi⟩ := hpass
    have hw' : ¬ (¬ access_flags &&& c.write_access_flag = 0 ∧
        PyArray_ISWRITEABLE obj = false) := hw
    simp [array_from_numpy_array, hw', hi, hcond, h1, h2]

theorem import_copy_copy_error (c : array_access_flags) (env : import_env)
    (refcnt : Nat → Int) (obj : PyArrayObject) (access_flags : Nat) (always_copy : Bool)
    (tp : ndt_type) (r0 : nd_array) (e : exception)
    (hpass : access_check_passes c obj access_flags always_copy)
    (hcond : always_copy = true ∨ PyDataType_FLAGCHK obj.descr NPY_ITEM_HASOBJECT = true)
    (h1 : env._type_from_numpy_dtype obj.descr 0 = .ok tp)
    (h2 : env.dtyped_empty obj.dims (env.get_canonical_type tp) = .ok r0)
    (h3 : env.array_copy_from_numpy r0 obj = .error e) :
    array_from_numpy_array c env refcnt obj access_flags always_copy = .error e := by
  unfold access_check_passes at hpass
  cases always_copy with
  | true => simp [array_from_numpy_array, h1, h2, h3]
  | false =>
    simp only [Bool.false_eq_true, false_or] at hpass hcond
    obtain ⟨hw, hi⟩ := hpass
    have hw' : ¬ (¬ access_flags &&& c.write_access_flag = 0 ∧
        PyArray_ISWRITEABLE obj = false) := hw
    simp [array_from_numpy_array, hw', hi, hcond, h1, h2, h3]

theorem import_copy_ok (c : array_access_flags) (env : import_env)
    (refcnt : Nat → Int) (obj : PyArrayObject) (access_flags : Nat) (always_copy : Bool)
    (tp : ndt_type) (r0 r1 : nd_array)
    (hpass : access_check_passes c obj access_flags always_copy)
    (hcond : always_copy = true ∨ PyDataType_FLAGCHK obj.descr NPY_ITEM_HASOBJECT = true)
    (h1 : env._type_from_numpy_dtype obj.descr 0 = .ok tp)
    (h2 : env.dtyped_empty obj.dims (env.get_canonical_type tp) = .ok r0)
    (h3 : env.array_copy_from_numpy r0 obj = .ok r1) :
    array_from_numpy_array c env refcnt obj access_flags always_copy =
      .ok ({ r1 with flags := if access_flags ≠ 0 then access_flags
                               else c.default_access_flags }, refcnt) := by
  unfold access_check_passes at hpass
  cases always_copy with
  | true => by_cases haf : access_flags = 0 <;> simp [array_from_numpy_array, h1, h2, h3, haf]
  | false =>
    simp only [Bool.false_eq_true, false_or] at hpass hcond
    obtain ⟨hw, hi⟩ := hpass
    have hw' : ¬ (¬ access_flags &&& c.write_access_flag = 0 ∧
        PyArray_ISWRITEABLE obj = false) := hw
    by_cases haf : access_flags = 0 <;>
      simp [array_from_numpy_array, hw', hi, hcond, h1, h2, h3, haf]

/-- What a run through the copy path of `array_from_numpy_array` returns: the failure
of the first of the three functions of the copy that fails, else the array that
`array_copy_from_numpy` filled, with the requested flags (the default flags for a
request of 0) and the table of reference counts unchanged. -/
theorem import_copy_path (c : array_access_flags) (env : import_env)
    (refcnt : Nat → Int) (obj : PyArrayObject) (access_flags : Nat) (always_copy : Bool)
    (hpass : access_check_passes c obj access_flags always_copy)
    (hcond : always_copy = true ∨ PyDataType_FLAGCHK obj.descr NPY_ITEM_HASOBJECT = true) :
    (∀ e, array_from_numpy_array c env refcnt obj access_flags always_copy = .error e →
      env._type_from_numpy_dtype obj.descr 0 = .error e ∨
      (∃ tp, env._type_from_numpy_dtype obj.descr 0 = .ok tp ∧
        env.dtyped_empty obj.dims (env.get_canonical_type tp) = .error e) ∨
      (∃ tp r0, env._type_from_numpy_dtype obj.descr 0 = .ok tp ∧
        env.dtyped_empty obj.dims (env.get_canonical_type tp) = .ok r0 ∧
        env.array_copy_from_numpy r0 obj = .error e)) ∧
    (∀ r rc, array_from_numpy_array c env refcnt obj access_flags always_copy = .ok (r, rc) →
      rc = refcnt ∧
      ∃ tp r0 r1, env._type_from_numpy_dtype obj.descr 0 = .ok tp ∧
        env.dtyped_empty obj.dims (env.get_canonical_type tp) = .ok r0 ∧
        env.array_copy_from_numpy r0 obj = .ok r1 ∧
        r = { r1 with flags := if access_flags ≠ 0 then access_flags
                                else c.default_access_flags }) := by
  rcases except_cases (env._type_from_numpy_dtype obj.descr 0) with ⟨e1, h1⟩ | ⟨tp, h1⟩
  · have hr := import_copy_type_error c env refcnt obj access_flags always_copy e1 hpass
      hcond h1
    rw [hr]
    refine ⟨fun e he => Or.inl ?_, fun r rc h => by cases h⟩
    rw [← Except.error.inj he]
    exact h1
  · rcases except_cases (env.dtyped_empty obj.dims (env.get_canonical_type tp)) with
      ⟨e2, h2⟩ | ⟨r0, h2⟩
    · have hr := import_copy_empty_error c env refcnt obj access_flags always_copy tp e2
        hpass hcond h1 h2
      rw [hr]
      refine ⟨fun e he => Or.inr (Or.inl ⟨tp, h1, ?_⟩), fun r rc h => by cases h⟩
      rw [← Except.error.inj he]
      exact h2
    · rcases except_cases (env.array_copy_from_numpy r0 obj) with ⟨e3, h3⟩ | ⟨r1, h3⟩
      · have hr := import_copy_copy_error c env refcnt obj access_flags always_copy tp r0
          e3 hpass hcond h1 h2 h3
        rw [hr]
        refine ⟨fun e he => Or.inr (Or.inr ⟨tp, r0, h1, h2, ?_⟩), fun r rc h => by cases h⟩
        rw [← Except.error.inj he]
        exact h3
      · have hr := import_copy_ok c env refcnt obj access_flags always_copy tp r0 r1
          hpass hcond h1 h2 h3
        rw [hr]
        refine ⟨fun e he => (by cases he), fun r rc h => ?_⟩
        simp only [Except.ok.injEq, Prod.mk.injEq] at h
        exact ⟨h.2.symm, tp, r0, r1, h1, h2, h3, h.1.symm⟩

/-- What a successful run through the view path of `array_from_numpy_array` returns. -/
theorem import_view_path (c : array_access_flags) (env : import_env)
    (refcnt : Nat → Int) (obj : PyArrayObject) (access_flags : Nat)
    (r : nd_array) (rc : Nat → Int)
    (hobj : PyDataType_FLAGCHK obj.descr NPY_ITEM_HASOBJECT = false)
    (h : array_from_numpy_array c env refcnt obj access_flags false = .ok (r, rc)) :
    access_check_passes c obj access_flags false ∧
    env._type_from_numpy_dtype obj.descr (get_alignment_of_array obj.data obj.strides) =
      .ok r.tp ∧
    r.dims = obj.dims ∧ r.strides = obj.strides ∧ r.data_pointer = some obj.data ∧
    r.flags = view_flags c obj access_flags ∧
    r.memblock = (view_owner env refcnt obj).1 ∧ rc = (view_owner env refcnt obj).2 ∧
    ((∀ f n, r.tp ≠ .struct f n) → r.arrmeta = view_dim_records obj) ∧
    (∀ f n, r.tp = .struct f n →
      ∃ t, fill_arrmeta_from_numpy_dtype r.tp obj.descr
        (obj.dims.length * sizeof_fixed_dim_type_arrmeta) (view_dim_records obj) =
          .ok (r.arrmeta, t)) := by
  have hpass : access_check_passes c obj access_flags false := by
    by_contra hc
    rcases import_check_fails c env refcnt obj access_flags hc with he | he <;>
      rw [he] at h <;> cases h
  refine ⟨hpass, ?_⟩
  rcases except_cases (env._type_from_numpy_dtype obj.descr
      (get_alignment_of_array obj.data obj.strides)) with ⟨e, hd⟩ | ⟨d, hd⟩
  · rw [import_view_type_error c env refcnt obj access_flags e hpass hobj hd] at h
    cases h
  · by_cases hs : ∃ f n, d = .struct f n
    · obtain ⟨f, n, rfl⟩ := hs
      rcases except_cases (fill_arrmeta_from_numpy_dtype (.struct f n) obj.descr
          (obj.dims.length * sizeof_fixed_dim_type_arrmeta) (view_dim_records obj)) with
        ⟨e, hfill⟩ | ⟨⟨mem, t⟩, hfill⟩
      · rw [import_view_fill_error c env refcnt obj access_flags e f n hpass hobj hd hfill] at h
        cases h
      · rw [import_view_struct c env refcnt obj access_flags f n mem t hpass hobj hd hfill] at h
        simp only [Except.ok.injEq, Prod.mk.injEq] at h
        obtain ⟨rfl, rfl⟩ := h
        exact ⟨hd, rfl, rfl, rfl, rfl, rfl, rfl, fun hns => absurd rfl (hns f n),
          fun _ _ _ => ⟨t, hfill⟩⟩
    · have hns : ∀ f n, d ≠ .struct f n := fun f n hc => hs ⟨f, n, hc⟩
      rw [import_view_plain c env refcnt obj access_flags d hpass hobj hd hns] at h
      simp only [Except.ok.injEq, Prod.mk.injEq] at h
      obtain ⟨rfl, rfl⟩ := h
      exact ⟨hd, rfl, rfl, rfl, rfl, rfl, rfl, fun _ => rfl,
        fun f n hc => absurd hc (hns f n)⟩


/-- C16: a run of `array_from_numpy_array` that returns an array went through the copy
path if `always_copy` is set or the foreign dtype carries the has-object flag, and
through the view path otherwise. Copy path: the array is the one that
`array_copy_from_numpy` filled in the storage `dtyped_empty` made for the canonical
type, and no reference count changes. View path: the access check has passed, the data
pointer of the result is the foreign data pointer, its shape and strides are the
foreign ones, so are the dimension records of its arrmeta, and its memory block is not
storage of its own. A read-only request on a read-only, object-free foreign buffer
whose dtype converts succeeds as such a view. -/
theorem array_from_numpy_array_copy_or_view (c : array_access_flags) (env : import_env)
    (refcnt : Nat → Int) (obj : PyArrayObject) (access_flags : Nat) (always_copy : Bool) :
    ((always_copy = true ∨ PyDataType_FLAGCHK obj.descr NPY_ITEM_HASOBJECT = true) →
      ∀ r rc, array_from_numpy_array c env refcnt obj access_flags always_copy = .ok (r, rc) →
        rc = refcnt ∧
        ∃ tp r0 r1, env._type_from_numpy_dtype obj.descr 0 = .ok tp ∧
          env.dtyped_empty obj.dims (env.get_canonical_type tp) = .ok r0 ∧
          env.array_copy_from_numpy r0 obj = .ok r1 ∧
          r = { r1 with flags := if access_flags ≠ 0 then access_flags
                                  else c.default_access_flags }) ∧
    (always_copy = false → PyDataType_FLAGCHK obj.descr NPY_ITEM_HASOBJECT = false →
      ∀ r rc, array_from_numpy_array c env refcnt obj access_flags always_copy = .ok (r, rc) →
        access_check_passes c obj access_flags false ∧
        r.data_pointer = some obj.data ∧ r.dims = obj.dims ∧ r.strides = obj.strides ∧
        r.memblock ≠ memory_block.embedded ∧
        (∀ j, j < obj.dims.length → j < obj.strides.length →
          ∃ s t, obj.dims[j]? = some s ∧ obj.strides[j]? = some t ∧
            r.arrmeta (md_dim_size 0 j) = s ∧ r.arrmeta (md_stride 0 j) = t)) ∧
    (always_copy = false → PyDataType_FLAGCHK obj.descr NPY_ITEM_HASOBJECT = false →
      PyArray_ISWRITEABLE obj = false → access_flags = c.read_access_flag →
      c.read_access_flag &&& c.write_access_flag = 0 →
      c.read_access_flag &&& c.immutable_access_flag = 0 →
      ∀ d, env._type_from_numpy_dtype obj.descr
          (get_alignment_of_array obj.data obj.strides) = .ok d →
        ((∀ f n, d ≠ .struct f n) ∨ descr_matches d obj.descr) →
        ∃ r rc, array_from_numpy_array c env refcnt obj access_flags always_copy = .ok (r, rc) ∧
          r.tp = d ∧ r.data_pointer = some obj.data ∧ r.dims = obj.dims ∧
          r.strides = obj.strides) := by
  refine ⟨?_, ?_, ?_⟩
  · intro hcond r rc h
    have hpass : access_check_passes c obj access_flags always_copy := by
      cases always_copy with
      | true => exact Or.inl rfl
      | false =>
        by_contra hc
        rcases import_check_fails c env refcnt obj access_flags hc with he | he <;>
          rw [he] at h <;> cases h
    exact (import_copy_path c env refcnt obj access_flags always_copy hpass hcond).2 r rc h
  · intro hac hobj r rc h
    subst hac
    obtain ⟨hpass, hd, hdims, hstr, hdata, _, hmb, _, hplain, hstruct⟩ :=
      import_view_path c env refcnt obj access_flags r rc hobj h
    refine ⟨hpass, hdata, hdims, hstr, ?_, ?_⟩
    · rw [hmb]
      unfold view_owner
      split
      · simp
      · split <;> simp
    · intro j hj1 hj2
      obtain ⟨s, t, hs, ht, h1, h2⟩ :=
        (write_dim_records_spec obj.dims obj.strides 0 (fun _ => 0)).1 j hj1 hj2
      simp only [Nat.zero_add] at h1 h2
      refine ⟨s, t, hs, ht, ?_, ?_⟩
      · by_cases hs' : ∃ f n, r.tp = .struct f n
        · obtain ⟨f, n, hfn⟩ := hs'
          obtain ⟨tr, hfill⟩ := hstruct f n hfn
          rw [fill_frame _ _ _ _ _ _ hfill _ (by
            simp only [md_dim_size, sizeof_fixed_dim_type_arrmeta]; omega)]
          exact h1
        · rw [hplain (fun f n hc => hs' ⟨f, n, hc⟩)]
          exact h1
      · by_cases hs' : ∃ f n, r.tp = .struct f n
        · obtain ⟨f, n, hfn⟩ := hs'
          obtain ⟨tr, hfill⟩ := hstruct f n hfn
          rw [fill_frame _ _ _ _ _ _ hfill _ (by
            simp only [md_stride, sizeof_fixed_dim_type_arrmeta]; omega)]
          exact h2
        · rw [hplain (fun f n hc => hs' ⟨f, n, hc⟩)]
          exact h2
  · intro hac hobj hro haf hrw hri d hd hwf
    subst hac
    have hpass : access_check_passes c obj access_flags false := by
      right
      rw [haf]
      exact ⟨fun hc => hc.1 hrw, hri⟩
    by_cases hs : ∃ f n, d = .struct f n
    · obtain ⟨f, n, rfl⟩ := hs
      have hm : descr_matches (.struct f n) obj.descr := by
        rcases hwf with hns | hm
        · exact absurd rfl (hns f n)
        · exact hm
      obtain ⟨mem, t, hfill, _, _⟩ :=
        go_succeeds (obj.descr.depth + 1) (.struct f n) obj.descr hm (by omega)
          (obj.dims.length * sizeof_fixed_dim_type_arrmeta) (view_dim_records obj)
      exact ⟨_, _, import_view_struct c env refcnt obj access_flags f n mem t hpass hobj hd
        hfill, rfl, rfl, rfl, rfl⟩
    · exact ⟨_, _, import_view_plain c env refcnt obj access_flags d hpass hobj hd
        (fun f n hc => hs ⟨f, n, hc⟩), rfl, rfl, rfl, rfl⟩

/-- C16, at a concrete import: a read-only request (flags 1) on a read-only array of
two `int32` at address 4096, without base, is a view at address 4096 with shape `[2]`
and strides `[4]`. -/
theorem array_from_numpy_array_copy_or_view_witness :
    ∃ r rc, array_from_numpy_array ⟨1, 2, 4, 3⟩
        ⟨fun _ _ => .ok (.builtin .int32_id), fun t => t, fun _ _ => .error .std_exception,
          fun a _ => .ok a, fun _ => false⟩
        (fun _ => 1) ⟨100, 4096, [2], [4], .mk 4 0 [] [] Option.none, 0, 0⟩ 1 false =
          .ok (r, rc) ∧
      r.tp = .builtin .int32_id ∧ r.data_pointer = some 4096 ∧ r.dims = [2] ∧
      r.strides = [4] :=
  (array_from_numpy_array_copy_or_view ⟨1, 2, 4, 3⟩
      ⟨fun _ _ => .ok (.builtin .int32_id), fun t => t, fun _ _ => .error .std_exception,
        fun a _ => .ok a, fun _ => false⟩
      (fun _ => 1) ⟨100, 4096, [2], [4], .mk 4 0 [] [] Option.none, 0, 0⟩ 1 false).2.2
    rfl (by decide) (by decide) rfl (by decide) (by decide) _ rfl
    (Or.inl (fun f n hc => by cases hc))

/-- C17, as stated, fails: for a foreign dtype with the has-object flag, a read-write
request (flags 3) on a read-only array without `always_copy` raises the access error
"cannot view a readonly numpy array as readwrite", although a copy would be made. -/
theorem array_from_numpy_array_hasobject_access_error :
    array_from_numpy_array ⟨1, 2, 4, 3⟩
      ⟨fun _ _ => .ok (.builtin .int32_id), fun t => t,
        fun dims tp => .ok ⟨tp, dims, [], 0, Option.none, .embedded, fun _ => 0⟩,
        fun a _ => .ok a, fun _ => false⟩
      (fun _ => 1) ⟨100, 4096, [2], [8], .mk 8 1 [] [] Option.none, 0, 0⟩ 3 false =
        .error (.runtime_error "cannot view a readonly numpy array as readwrite") ∧
    PyDataType_FLAGCHK (.mk 8 1 [] [] Option.none) NPY_ITEM_HASOBJECT = true := by
  constructor
  · simp [array_from_numpy_array, PyArray_ISWRITEABLE, NPY_ARRAY_WRITEABLE]
  · decide

/-- C17, amended: whenever `always_copy` is set, for every combination of requested
access flags and foreign writeability, `array_from_numpy_array` goes through the copy
path and no access check is made: every failure is the failure of one of the three
functions that make the copy, and a result is the copy with the requested flags. When
`always_copy` is not set and the foreign dtype carries the has-object flag, the same
holds provided the access check passes. -/
theorem array_from_numpy_array_forced_copy (c : array_access_flags) (env : import_env)
    (refcnt : Nat → Int) (obj : PyArrayObject) (access_flags : Nat) (always_copy : Bool)
    (h : always_copy = true ∨
      (PyDataType_FLAGCHK obj.descr NPY_ITEM_HASOBJECT = true ∧
        access_check_passes c obj access_flags false)) :
    (∀ e, array_from_numpy_array c env refcnt obj access_flags always_copy = .error e →
      env._type_from_numpy_dtype obj.descr 0 = .error e ∨
      (∃ tp, env._type_from_numpy_dtype obj.descr 0 = .ok tp ∧
        env.dtyped_empty obj.dims (env.get_canonical_type tp) = .error e) ∨
      (∃ tp r0, env._type_from_numpy_dtype obj.descr 0 = .ok tp ∧
        env.dtyped_empty obj.dims (env.get_canonical_type tp) = .ok r0 ∧
        env.array_copy_from_numpy r0 obj = .error e)) ∧
    (∀ tp r0 r1, env._type_from_numpy_dtype obj.descr 0 = .ok tp →
      env.dtyped_empty obj.dims (env.get_canonical_type tp) = .ok r0 →
      env.array_copy_from_numpy r0 obj = .ok r1 →
      array_from_numpy_array c env refcnt obj access_flags always_copy =
        .ok ({ r1 with flags := if access_flags ≠ 0 then access_flags
                                 else c.default_access_flags }, refcnt)) := by
  have hpass : access_check_passes c obj access_flags always_copy := by
    rcases h with h | ⟨_, hp⟩
    · exact Or.inl h
    · cases always_copy with
      | true => exact Or.inl rfl
      | false => exact hp
  have hcond : always_copy = true ∨
      PyDataType_FLAGCHK obj.descr NPY_ITEM_HASOBJECT = true := by
    rcases h with h | ⟨ho, _⟩
    · exact Or.inl h
    · exact Or.inr ho
  exact ⟨(import_copy_path c env refcnt obj access_flags always_copy hpass hcond).1,
    fun tp r0 r1 h1 h2 h3 =>
      import_copy_ok c env refcnt obj access_flags always_copy tp r0 r1 hpass hcond h1 h2 h3⟩

/-- C17 amended, at a concrete import: with `always_copy` set, the read-write request
on the read-only has-object array is served by a copy with flags 3. -/
theorem array_from_numpy_array_forced_copy_witness :
    array_from_numpy_array ⟨1, 2, 4, 3⟩
      ⟨fun _ _ => .ok (.builtin .int32_id), fun t => t,
        fun dims tp => .ok ⟨tp, dims, [], 0, Option.none, .embedded, fun _ => 0⟩,
        fun a _ => .ok a, fun _ => false⟩
      (fun _ => 1) ⟨100, 4096, [2], [8], .mk 8 1 [] [] Option.none, 0, 0⟩ 3 true =
        .ok (⟨.builtin .int32_id, [2], [], 3, Option.none, .embedded, fun _ => 0⟩,
          fun _ => 1) :=
  (array_from_numpy_array_forced_copy ⟨1, 2, 4, 3⟩
      ⟨fun _ _ => .ok (.builtin .int32_id), fun t => t,
        fun dims tp => .ok ⟨tp, dims, [], 0, Option.none, .embedded, fun _ => 0⟩,
        fun a _ => .ok a, fun _ => false⟩
      (fun _ => 1) ⟨100, 4096, [2], [8], .mk 8 1 [] [] Option.none, 0, 0⟩ 3 true
      (Or.inl rfl)).2 _ _ _ rfl rfl rfl


theorem py_decref_after_incref (refcnt : Nat → Int) (owner : Nat) (h : owner ≠ 0) :
    py_decref_function (Py_INCREF refcnt owner) [] owner =
      (refcnt, [gil_event.PyGILState_Ensure, gil_event.Py_DECREF owner,
        gil_event.PyGILState_Release]) := by
  have hfun : Py_DECREF (Py_INCREF refcnt owner) owner = refcnt := by
    funext a
    by_cases ha : a = owner <;> simp [Py_DECREF, Py_INCREF, ha]
  simp [py_decref_function, h, hfun]

theorem Py_INCREF_once (refcnt : Nat → Int) (owner : Nat) :
    Py_INCREF refcnt owner owner = refcnt owner + 1 ∧
    ∀ o, o ≠ owner → Py_INCREF refcnt owner o = refcnt o := by
  refine ⟨by simp [Py_INCREF], fun o ho => by simp [Py_INCREF, ho]⟩

/-- C18: on the view path of `array_from_numpy_array` the owner of the foreign buffer
is pinned once. Without base, or with the update-if-copy flag, the array object itself
gets one reference more (no other count changes) and the memory block of the view is
the external block of that object; with a base that is a dynd array no count changes
and the block is the data block of the base; with another base, the base gets one
reference more and the block is the external block of the base. The release function
of an external block, `py_decref_function`, run on the owner, takes the GIL, makes one
`Py_DECREF` of that owner, releases the GIL, and gives back the counts from before the
import. -/
theorem array_from_numpy_array_pins_owner (c : array_access_flags) (env : import_env)
    (refcnt : Nat → Int) (obj : PyArrayObject) (access_flags : Nat)
    (r : nd_array) (rc : Nat → Int)
    (hobj : PyDataType_FLAGCHK obj.descr NPY_ITEM_HASOBJECT = false)
    (h : array_from_numpy_array c env refcnt obj access_flags false = .ok (r, rc)) :
    ((obj.base = 0 ∨ obj.flags &&& NPY_ARRAY_UPDATEIFCOPY ≠ 0) →
      r.memblock = memory_block.external obj.ob ∧
      rc obj.ob = refcnt obj.ob + 1 ∧ (∀ o, o ≠ obj.ob → rc o = refcnt o) ∧
      (obj.ob ≠ 0 → py_decref_function rc [] obj.ob =
        (refcnt, [gil_event.PyGILState_Ensure, gil_event.Py_DECREF obj.ob,
          gil_event.PyGILState_Release]))) ∧
    (¬ (obj.base = 0 ∨ obj.flags &&& NPY_ARRAY_UPDATEIFCOPY ≠ 0) →
      env.is_dynd_array obj.base = true →
      r.memblock = memory_block.data_memblock_of obj.base ∧ rc = refcnt) ∧
    (¬ (obj.base = 0 ∨ obj.flags &&& NPY_ARRAY_UPDATEIFCOPY ≠ 0) →
      env.is_dynd_array obj.base = false →
      r.memblock = memory_block.external obj.base ∧
      rc obj.base = refcnt obj.base + 1 ∧ (∀ o, o ≠ obj.base → rc o = refcnt o) ∧
      py_decref_function rc [] obj.base =
        (refcnt, [gil_event.PyGILState_Ensure, gil_event.Py_DECREF obj.base,
          gil_event.PyGILState_Release])) := by
  obtain ⟨_, _, _, _, _, _, hmb, hrc, _, _⟩ :=
    import_view_path c env refcnt obj access_flags r rc hobj h
  refine ⟨fun hb => ?_, fun hb hd => ?_, fun hb hd => ?_⟩
  · have hv : view_owner env refcnt obj =
        (memory_block.external obj.ob, Py_INCREF refcnt obj.ob) := by
      simp only [view_owner, if_pos hb]
    rw [hv] at hmb hrc
    subst hrc
    exact ⟨hmb, (Py_INCREF_once refcnt obj.ob).1, (Py_INCREF_once refcnt obj.ob).2,
      fun hne => py_decref_after_incref refcnt obj.ob hne⟩
  · have hv : view_owner env refcnt obj =
        (memory_block.data_memblock_of obj.base, refcnt) := by
      simp only [view_owner, if_neg hb, hd, if_true]
    rw [hv] at hmb hrc
    exact ⟨hmb, hrc⟩
  · have hv : view_owner env refcnt obj =
        (memory_block.external obj.base, Py_INCREF refcnt obj.base) := by
      simp [view_owner, if_neg hb, hd]
    rw [hv] at hmb hrc
    subst hrc
    have hne : obj.base ≠ 0 := fun h0 => hb (Or.inl h0)
    exact ⟨hmb, (Py_INCREF_once refcnt obj.base).1, (Py_INCREF_once refcnt obj.base).2,
      py_decref_after_incref refcnt obj.base hne⟩

/-- C18, at a concrete import: the view of the array object 100 without base holds
the external block of object 100, whose count went from 1 to 2. -/
theorem array_from_numpy_array_pins_owner_witness :
    ∃ r rc, array_from_numpy_array ⟨1, 2, 4, 3⟩
        ⟨fun _ _ => .ok (.builtin .int32_id), fun t => t, fun _ _ => .error .std_exception,
          fun a _ => .ok a, fun _ => false⟩
        (fun _ => 1) ⟨100, 4096, [2], [4], .mk 4 0 [] [] Option.none, 0, 0⟩ 1 false =
          .ok (r, rc) ∧
      r.memblock = memory_block.external 100 ∧ rc 100 = 2 :=
  ⟨_, _, rfl,
    ((array_from_numpy_array_pins_owner ⟨1, 2, 4, 3⟩
      ⟨fun _ _ => .ok (.builtin .int32_id), fun t => t, fun _ _ => .error .std_exception,
        fun a _ => .ok a, fun _ => false⟩
      (fun _ => 1) ⟨100, 4096, [2], [4], .mk 4 0 [] [] Option.none, 0, 0⟩ 1 _ _
      (by decide) rfl).1 (Or.inl rfl)).1,
    ((array_from_numpy_array_pins_owner ⟨1, 2, 4, 3⟩
      ⟨fun _ _ => .ok (.builtin .int32_id), fun t => t, fun _ _ => .error .std_exception,
        fun a _ => .ok a, fun _ => false⟩
      (fun _ => 1) ⟨100, 4096, [2], [4], .mk 4 0 [] [] Option.none, 0, 0⟩ 1 _ _
      (by decide) rfl).1 (Or.inl rfl)).2.1⟩
/-! ## Export -/

theorem numpy_dtype_from__type_primitive_ok (print : ndt_type → String) (id : builtin_id)
    (k : scalar_kind) (w : Int) (h : id.primitive = some (k, w)) :
    ∃ t, numpy_dtype_from__type print (.builtin id) = .ok (PyArray_DescrFromType t) ∧
      t.primitive = some (k, w) ∧ t.elsize = w := by
  cases id <;> simp [builtin_id.primitive] at h <;> obtain ⟨rfl, rfl⟩ := h <;>
    exact ⟨_, rfl, rfl, rfl⟩

theorem numpy_dtype_from__type_primitive_inj (print : ndt_type → String)
    (id id' : builtin_id) (d d' : npy_descr)
    (hd : numpy_dtype_from__type print (.builtin id) = .ok d)
    (hd' : numpy_dtype_from__type print (.builtin id') = .ok d')
    (ht : d'.type_num = d.type_num) : id' = id := by
  cases id <;> cases id' <;>
    simp [numpy_dtype_from__type, PyArray_DescrFromType] at hd hd' <;>
    subst hd hd' <;> simp at ht <;> rfl

/-- C12: for every builtin type descriptor that is Bool, Int of width 8, 16, 32 or 64
(signed or unsigned), Float of width 32 or 64, or Complex over float32 or float64,
`numpy_dtype_from__type` succeeds with the builtin foreign descriptor of the same
kind, signedness and byte width, its item size being that width; and a descriptor
that is exported to the same foreign type number is the same descriptor. -/
theorem numpy_dtype_from__type_primitive (print : ndt_type → String) (id : builtin_id)
    (k : scalar_kind) (w : Int) (h : id.primitive = some (k, w)) :
    ∃ d, numpy_dtype_from__type print (.builtin id) = .ok d ∧
      d.type_num.primitive = some (k, w) ∧ d.elsize = w ∧
      d = PyArray_DescrFromType d.type_num ∧
      ∀ (id' : builtin_id) (d' : npy_descr),
        numpy_dtype_from__type print (.builtin id') = .ok d' →
        d'.type_num = d.type_num → id' = id := by
  obtain ⟨t, hok, hp, he⟩ := numpy_dtype_from__type_primitive_ok print id k w h
  refine ⟨_, hok, hp, he, rfl, ?_⟩
  intro id' d' hd' ht
  exact numpy_dtype_from__type_primitive_inj print id id' _ d' hok hd' ht

/-- C12, at a concrete descriptor: `uint16` is exported as `NPY_UINT16` with item
size 2. -/
theorem numpy_dtype_from__type_primitive_witness :
    ∃ d, numpy_dtype_from__type (fun _ => "T") (.builtin .uint16_id) = .ok d ∧
      d.type_num = .NPY_UINT16 ∧ d.elsize = 2 := by
  obtain ⟨d, hd, _, he, _, _⟩ := numpy_dtype_from__type_primitive (fun _ => "T") .uint16_id
    .unsigned_int 2 rfl
  refine ⟨d, hd, ?_, he⟩
  simp [numpy_dtype_from__type, PyArray_DescrFromType] at hd
  rw [← hd]

theorem to_int_of_lt (n : Nat) (h : n < 2 ^ 31) : to_int n = n := by
  unfold to_int
  have h1 : n % 2 ^ 32 = n := Nat.mod_eq_of_lt (by omega)
  rw [h1]
  have h2 : n < 2147483648 := by omega
  simp [h2]

/-- C13, as stated, fails: for the fixed-width ASCII string of `2 ^ 31` bytes the item
size of the foreign descriptor returned is `-2 ^ 31`, not the declared byte width; the
same holds for UTF-32. -/
theorem numpy_dtype_from__type_fixed_string_narrowed :
    numpy_dtype_from__type (fun _ => "T") (.fixed_string (2 ^ 31) .string_encoding_ascii) =
      .ok { type_num := .NPY_STRING, elsize := -(2 ^ 31) } ∧
    numpy_dtype_from__type (fun _ => "T") (.fixed_string (2 ^ 31) .string_encoding_utf_32) =
      .ok { type_num := .NPY_UNICODE, elsize := -(2 ^ 31) } ∧
    (-(2 ^ 31) : Int) ≠ ((2 ^ 31 : Nat) : Int) := by
  refine ⟨?_, ?_, by norm_num⟩ <;>
    simp [numpy_dtype_from__type, PyArray_DescrNewFromType, to_int]

/-- C13, amended: a fixed-width string descriptor with ASCII encoding is exported as
the foreign fixed-width byte-string kind `NPY_STRING`, one with UTF-32 encoding as the
foreign fixed-width unicode kind `NPY_UNICODE`, for every declared byte width; the item
size of the descriptor returned is `(int)data_size`, the low 32 bits of the width read
as two's complement, which is the declared byte width whenever that is below
`2 ^ 31`. -/
theorem numpy_dtype_from__type_fixed_string (print : ndt_type → String) (data_size : Nat) :
    numpy_dtype_from__type print (.fixed_string data_size .string_encoding_ascii) =
      .ok { type_num := .NPY_STRING, elsize := to_int data_size } ∧
    numpy_dtype_from__type print (.fixed_string data_size .string_encoding_utf_32) =
      .ok { type_num := .NPY_UNICODE, elsize := to_int data_size } ∧
    (data_size < 2 ^ 31 →
      numpy_dtype_from__type print (.fixed_string data_size .string_encoding_ascii) =
        .ok { type_num := .NPY_STRING, elsize := data_size } ∧
      numpy_dtype_from__type print (.fixed_string data_size .string_encoding_utf_32) =
        .ok { type_num := .NPY_UNICODE, elsize := data_size }) := by
  refine ⟨?_, ?_, fun h => ?_⟩
  · simp [numpy_dtype_from__type, PyArray_DescrNewFromType]
  · simp [numpy_dtype_from__type, PyArray_DescrNewFromType]
  · simp [numpy_dtype_from__type, PyArray_DescrNewFromType, to_int_of_lt data_size h]

/-- C13 amended, at a concrete descriptor: a UTF-32 fixed-width string of 40 bytes is
exported as `NPY_UNICODE` with item size 40. -/
theorem numpy_dtype_from__type_fixed_string_witness :
    numpy_dtype_from__type (fun _ => "T") (.fixed_string 40 .string_encoding_utf_32) =
      .ok { type_num := .NPY_UNICODE, elsize := 40 } :=
  ((numpy_dtype_from__type_fixed_string (fun _ => "T") 40).2.2 (by norm_num)).2

/-- C14: the export of a view whose operand type is raw fixed bytes is the export of
its value type, the same descriptor when that succeeds and the same failure when that
fails; a view whose operand is not fixed bytes fails export, with the message that
names the view type. -/
theorem numpy_dtype_from__type_view (print : ndt_type → String)
    (value_type operand_type : ndt_type) :
    (∀ n, operand_type = .fixed_bytes n →
      numpy_dtype_from__type print (.view value_type operand_type) =
        numpy_dtype_from__type print value_type) ∧
    (∀ n d, operand_type = .fixed_bytes n →
      (numpy_dtype_from__type print (.view value_type operand_type) = .ok d ↔
        numpy_dtype_from__type print value_type = .ok d)) ∧
    (∀ n, operand_type = .fixed_bytes n →
      ((∃ e, numpy_dtype_from__type print (.view value_type operand_type) = .error e) ↔
        ∃ e, numpy_dtype_from__type print value_type = .error e)) ∧
    ((∀ n, operand_type ≠ .fixed_bytes n) →
      numpy_dtype_from__type print (.view value_type operand_type) =
        .error (.type_error ("cannot convert dynd type " ++
          print (.view value_type operand_type) ++ " into a Numpy dtype"))) := by
  have heq : ∀ n, operand_type = .fixed_bytes n →
      numpy_dtype_from__type print (.view value_type operand_type) =
        numpy_dtype_from__type print value_type := by
    intro n hn
    subst hn
    simp [numpy_dtype_from__type]
  refine ⟨heq, fun n d hn => by rw [heq n hn], fun n hn => by rw [heq n hn], ?_⟩
  intro hne
  cases operand_type with
  | fixed_bytes n => exact absurd rfl (hne n)
  | _ => simp [numpy_dtype_from__type, cannot_convert]

/-- C14, at a concrete view: a view of 4 raw bytes as `int32` is exported as
`NPY_INT32`, like `int32` itself. -/
theorem numpy_dtype_from__type_view_witness :
    numpy_dtype_from__type (fun _ => "T") (.view (.builtin .int32_id) (.fixed_bytes 4)) =
      .ok (PyArray_DescrFromType .NPY_INT32) := by
  rw [(numpy_dtype_from__type_view (fun _ => "T") (.builtin .int32_id) (.fixed_bytes 4)).1 4 rfl]
  rfl

/-- The type descriptors that are a Struct, a FixedDim, an Option or a TypeValue. -/
theorem numpy_dtype_from__type_unrepresentable_aux (print : ndt_type → String)
    (tp : ndt_type)
    (h : (∃ fields n, tp = .struct fields n) ∨ (∃ n e, tp = .fixed_dim n e) ∨
      (∃ v af, tp = .option v af) ∨ tp = .type) :
    numpy_dtype_from__type print tp = .error (cannot_convert print tp) := by
  rcases h with ⟨f, n, rfl⟩ | ⟨n, e, rfl⟩ | ⟨v, af, rfl⟩ | rfl <;>
    simp [numpy_dtype_from__type]

/-- C15: for every type descriptor that is a Struct, a FixedDim, an Option or a
TypeValue, `numpy_dtype_from__type(tp)` throws the type error "cannot convert dynd type
T into a Numpy dtype", where T is the printed description of the type; the message
contains that description and no foreign descriptor is returned. -/
theorem numpy_dtype_from__type_unrepresentable (print : ndt_type → String) (tp : ndt_type)
    (h : (∃ fields n, tp = .struct fields n) ∨ (∃ n e, tp = .fixed_dim n e) ∨
      (∃ v af, tp = .option v af) ∨ tp = .type) :
    numpy_dtype_from__type print tp =
      .error (.type_error ("cannot convert dynd type " ++ print tp ++ " into a Numpy dtype")) ∧
    (∃ e, numpy_dtype_from__type print tp = .error e ∧
      ∃ pre post, e.what = pre ++ print tp ++ post) ∧
    (∀ d, numpy_dtype_from__type print tp ≠ .ok d) := by
  have hmain := numpy_dtype_from__type_unrepresentable_aux print tp h
  refine ⟨hmain, ⟨_, hmain, "cannot convert dynd type ", " into a Numpy dtype", ?_⟩,
    fun d hd => ?_⟩
  · simp [cannot_convert, exception.what]
  · rw [hmain] at hd
    cases hd

/-- C15, at a concrete type: the type-valued type, printed as "type", is not
exportable. -/
theorem numpy_dtype_from__type_unrepresentable_witness :
    numpy_dtype_from__type (fun _ => "type") .type =
      .error (.type_error "cannot convert dynd type type into a Numpy dtype") :=
  (numpy_dtype_from__type_unrepresentable (fun _ => "type") .type
    (Or.inr (Or.inr (Or.inr rfl)))).1

/-! ## Kernel builder: the convertible types -/

theorem make_copy_leaf (print : ndt_type → String) (ckb : ckernel_builder) (off : Nat)
    (tp : ndt_type) (arrmeta : Nat) (kernreq : kernel_request_t)
    (h : in_leaf_set tp = true) :
    ∃ k, leaf_kernel tp arrmeta = some k ∧
      make_copy_to_pyobject_kernel print ckb off tp arrmeta kernreq =
        .ok (ckb ++ [{ offset := off, kernreq := kernreq, kernel := k }], off + k.sizeof) := by
  cases tp with
  | builtin id =>
    cases id <;> simp [in_leaf_set] at h <;>
      exact ⟨_, rfl, by simp [make_copy_to_pyobject_kernel, ck.create]⟩
  | string encoding =>
    cases encoding <;> simp [in_leaf_set] at h <;>
      exact ⟨_, rfl, by simp [make_copy_to_pyobject_kernel, ck.create]⟩
  | fixed_string n encoding =>
    cases encoding <;> simp [in_leaf_set] at h <;>
      exact ⟨_, rfl, by simp [make_copy_to_pyobject_kernel, ck.create]⟩
  | bytes => exact ⟨_, rfl, by simp [make_copy_to_pyobject_kernel, ck.create]⟩
  | fixed_bytes n => exact ⟨_, rfl, by simp [make_copy_to_pyobject_kernel, ck.create]⟩
  | char => exact ⟨_, rfl, by simp [make_copy_to_pyobject_kernel, ck.create]⟩
  | date => exact ⟨_, rfl, by simp [make_copy_to_pyobject_kernel, ck.create]⟩
  | time => exact ⟨_, rfl, by simp [make_copy_to_pyobject_kernel, ck.create]⟩
  | datetime => exact ⟨_, rfl, by simp [make_copy_to_pyobject_kernel, ck.create]⟩
  | type => exact ⟨_, rfl, by simp [make_copy_to_pyobject_kernel, ck.create]⟩
  | _ => simp [in_leaf_set] at h

theorem make_copy_not_leaf (print : ndt_type → String) (ckb : ckernel_builder) (off : Nat)
    (tp : ndt_type) (arrmeta : Nat) (kernreq : kernel_request_t)
    (h : in_leaf_set tp = false) (hopt : ∀ v af, tp ≠ .option v af) :
    make_copy_to_pyobject_kernel print ckb off tp arrmeta kernreq =
      .error (unable_to_copy print tp) := by
  cases tp with
  | builtin id =>
    cases id <;> simp [in_leaf_set] at h <;> simp [make_copy_to_pyobject_kernel]
  | string encoding =>
    cases encoding <;> simp [in_leaf_set] at h
    simp [make_copy_to_pyobject_kernel]
  | fixed_string n encoding =>
    cases encoding <;> simp [in_leaf_set] at h
    simp [make_copy_to_pyobject_kernel]
  | option v af => exact absurd rfl (hopt v af)
  | struct f n => simp [make_copy_to_pyobject_kernel]
  | fixed_dim n e => simp [make_copy_to_pyobject_kernel]
  | view v o => simp [make_copy_to_pyobject_kernel]
  | other name => simp [make_copy_to_pyobject_kernel]
  | _ => simp [in_leaf_set] at h

theorem make_copy_option (print : ndt_type → String) (ckb : ckernel_builder) (off : Nat)
    (v : ndt_type) (af : arrfunc_type_data) (arrmeta : Nat) (kernreq : kernel_request_t) :
    make_copy_to_pyobject_kernel print ckb off (.option v af) arrmeta kernreq =
      match af.instantiate (off + sizeof_option_ck) with
      | .error e => .error e
      | .ok off' =>
        make_copy_to_pyobject_kernel print
          (set_copy_value_offset
            ((ckb ++ [{ offset := off, kernreq := kernreq, kernel := .option_ck 0 }]) ++
              [{ offset := off + sizeof_option_ck, kernreq := .kernel_request_single,
                 kernel := .is_avail_ck }])
            off ((off' : Int) - (off : Int)))
          off' v arrmeta .kernel_request_single := by
  rw [make_copy_to_pyobject_kernel]
  simp only [ck.create, ck.sizeof]

theorem make_copy_succeeds_iff (print : ndt_type → String) :
    ∀ (tp : ndt_type) (ckb : ckernel_builder) (off arrmeta : Nat) (kernreq : kernel_request_t),
      (∃ r, make_copy_to_pyobject_kernel print ckb off tp arrmeta kernreq = .ok r) ↔
        convertible off tp
  | .option v af, ckb, off, arrmeta, kernreq => by
    rw [make_copy_option]
    simp only [convertible]
    cases h : af.instantiate (off + sizeof_option_ck) with
    | error e => simp
    | ok off' =>
      simp only [Except.ok.injEq, exists_eq_left']
      exact make_copy_succeeds_iff print v _ off' arrmeta .kernel_request_single
  | .builtin id, ckb, off, arrmeta, kernreq => by
    cases h : in_leaf_set (.builtin id) with
    | true =>
      obtain ⟨k, _, hk⟩ := make_copy_leaf print ckb off _ arrmeta kernreq h
      simp [convertible, h, hk]
    | false =>
      simp [convertible, h, make_copy_not_leaf print ckb off _ arrmeta kernreq h
        (fun _ _ hc => by cases hc)]
  | .bytes, ckb, off, arrmeta, kernreq => by
    simp [convertible, in_leaf_set, make_copy_to_pyobject_kernel]
  | .fixed_bytes n, ckb, off, arrmeta, kernreq => by
    simp [convertible, in_leaf_set, make_copy_to_pyobject_kernel]
  | .char, ckb, off, arrmeta, kernreq => by
    simp [convertible, in_leaf_set, make_copy_to_pyobject_kernel]
  | .string e, ckb, off, arrmeta, kernreq => by
    cases h : in_leaf_set (.string e) with
    | true =>
      obtain ⟨k, _, hk⟩ := make_copy_leaf print ckb off _ arrmeta kernreq h
      simp [convertible, h, hk]
    | false =>
      simp [convertible, h, make_copy_not_leaf print ckb off _ arrmeta kernreq h
        (fun _ _ hc => by cases hc)]
  | .fixed_string n e, ckb, off, arrmeta, kernreq => by
    cases h : in_leaf_set (.fixed_string n e) with
    | true =>
      obtain ⟨k, _, hk⟩ := make_copy_leaf print ckb off _ arrmeta kernreq h
      simp [convertible, h, hk]
    | false =>
      simp [convertible, h, make_copy_not_leaf print ckb off _ arrmeta kernreq h
        (fun _ _ hc => by cases hc)]
  | .date, ckb, off, arrmeta, kernreq => by
    simp [convertible, in_leaf_set, make_copy_to_pyobject_kernel]
  | .time, ckb, off, arrmeta, kernreq => by
    simp [convertible, in_leaf_set, make_copy_to_pyobject_kernel]
  | .datetime, ckb, off, arrmeta, kernreq => by
    simp [convertible, in_leaf_set, make_copy_to_pyobject_kernel]
  | .type, ckb, off, arrmeta, kernreq => by
    simp [convertible, in_leaf_set, make_copy_to_pyobject_kernel]
  | .struct f n, ckb, off, arrmeta, kernreq => by
    simp [convertible, in_leaf_set, make_copy_to_pyobject_kernel]
  | .fixed_dim n e, ckb, off, arrmeta, kernreq => by
    simp [convertible, in_leaf_set, make_copy_to_pyobject_kernel]
  | .view v o, ckb, off, arrmeta, kernreq => by
    simp [convertible, in_leaf_set, make_copy_to_pyobject_kernel]
  | .other name, ckb, off, arrmeta, kernreq => by
    simp [convertible, in_leaf_set, make_copy_to_pyobject_kernel]

/-- C11: `make_copy_to_pyobject_kernel` succeeds for a source type if and only if the
type is convertible: one of the leaf set (Bool; Int of width 8 to 128, signed or
unsigned; Float of width 16, 32 or 64; Complex over float32 or float64; Bytes;
FixedBytes; Char; Date; Time; DateTime; TypeValue; String or FixedString with encoding
ASCII, UTF-8, UCS-2, UTF-16 or UTF-32), or `Option{value_type}` whose is-available
predicate instantiates and whose value type is convertible. For a type of the leaf set
exactly one record is appended to the chain, at the given offset and with the given
request mode: the leaf kernel selected by the variant tag and, for strings, by the
encoding (UCS-2 using the UTF-16 kernel); the offset returned is past that record. -/
theorem make_copy_to_pyobject_kernel_succeeds_iff (print : ndt_type → String)
    (tp : ndt_type) (ckb : ckernel_builder) (off arrmeta : Nat) (kernreq : kernel_request_t) :
    ((∃ r, make_copy_to_pyobject_kernel print ckb off tp arrmeta kernreq = .ok r) ↔
      convertible off tp) ∧
    (in_leaf_set tp = true →
      ∃ k, leaf_kernel tp arrmeta = some k ∧
        make_copy_to_pyobject_kernel print ckb off tp arrmeta kernreq =
          .ok (ckb ++ [{ offset := off, kernreq := kernreq, kernel := k }],
            off + k.sizeof)) :=
  ⟨make_copy_succeeds_iff print tp ckb off arrmeta kernreq,
    make_copy_leaf print ckb off tp arrmeta kernreq⟩

/-- C11, at a concrete type: `Option{String[UCS-2]}` with a predicate that takes 16
bytes is built, the value kernel being the UTF-16 string kernel. -/
theorem make_copy_to_pyobject_kernel_succeeds_iff_witness :
    (∃ r, make_copy_to_pyobject_kernel (fun _ => "T") [] 0
      (.option (.string .string_encoding_ucs_2) ⟨fun off => .ok (off + 16)⟩) 0
      .kernel_request_strided = .ok r) ∧
    leaf_kernel (.string .string_encoding_ucs_2) 0 = some .string_utf16_ck :=
  ⟨(make_copy_to_pyobject_kernel_succeeds_iff (fun _ => "T")
      (.option (.string .string_encoding_ucs_2) ⟨fun off => .ok (off + 16)⟩) [] 0 0
      .kernel_request_strided).1.2 ⟨_, rfl, rfl⟩, rfl⟩

/-! ## The reference holder, the index conversion and the release function -/

/-- C21: the ownership protocol of `pyobject_ownref`. Both constructors and `reset`
throw on `NULL`, and `reset(NULL)` leaves the holder and every reference count as they
were; `release()` returns the owned pointer and leaves `NULL` in the holder without
changing a reference count, so that the destructor run afterwards changes none;
`clear()` leaves `NULL` and decrements the owned reference once (nothing else). -/
theorem pyobject_ownref_protocol (self : pyobject_ownref) (refcnt : Nat → Int)
    (inc_ref : Bool) :
    pyobject_ownref.ctor 0 = .error (.runtime_error "propagating a Python exception...") ∧
    pyobject_ownref.ctor_inc_ref refcnt 0 inc_ref =
      .error (.runtime_error "propagating a Python exception...") ∧
    self.reset refcnt 0 =
      (.error (.runtime_error "propagating a Python exception..."), self, refcnt) ∧
    self.release refcnt = (self.m_obj, { m_obj := 0 }, refcnt) ∧
    (self.release refcnt).2.1.dtor (self.release refcnt).2.2 = refcnt ∧
    (self.clear refcnt).1 = { m_obj := 0 } ∧
    (self.clear refcnt).2 = Py_XDECREF refcnt self.m_obj ∧
    (self.m_obj ≠ 0 →
      (self.clear refcnt).2 self.m_obj = refcnt self.m_obj - 1 ∧
      ∀ ob, ob ≠ self.m_obj → (self.clear refcnt).2 ob = refcnt ob) ∧
    (self.clear refcnt).1.dtor (self.clear refcnt).2 = (self.clear refcnt).2 := by
  refine ⟨rfl, rfl, rfl, rfl, ?_, rfl, rfl, ?_, ?_⟩
  · simp [pyobject_ownref.release, pyobject_ownref.dtor, Py_XDECREF]
  · intro h
    refine ⟨?_, fun ob hob => ?_⟩
    · simp [pyobject_ownref.clear, Py_XDECREF, Py_DECREF, h]
    · simp [pyobject_ownref.clear, Py_XDECREF, Py_DECREF, h, hob]
  · simp [pyobject_ownref.clear, pyobject_ownref.dtor, Py_XDECREF]

/-- C21, at a concrete holder: `clear()` on a holder of object 5, whose count is 3,
leaves the count at 2. -/
theorem pyobject_ownref_protocol_witness :
    (pyobject_ownref.clear { m_obj := 5 } (fun _ => 3)).2 5 = 3 - 1 :=
  ((pyobject_ownref_protocol { m_obj := 5 } (fun _ => 3) false).2.2.2.2.2.2.2.1
    (by decide)).1

/-- With a `long` of 64 bits, `pyobject_as_int_index` returns the integers from 0 to
`2 ^ 31 - 1` unchanged, returns `v - 2 ^ 32` for `v` from `2 ^ 31` to `2 ^ 32 - 1`, and
throws the overflow error for every other integer that fits a `long`. -/
theorem pyobject_as_int_index_64 (v : Int) (hlo : -(2 ^ 63 : Int) ≤ v) (hhi : v < 2 ^ 63) :
    (0 ≤ v → v < 2 ^ 31 → pyobject_as_int_index 64 (.int v) = .ok v) ∧
    (2 ^ 31 ≤ v → v < 2 ^ 32 → pyobject_as_int_index 64 (.int v) = .ok (v - 2 ^ 32)) ∧
    (v < 0 ∨ 2 ^ 32 ≤ v → pyobject_as_int_index 64 (.int v) =
      .error (.overflow_error "overflow converting Python integer to 32-bit int")) := by
  have hr : -(2 ^ (64 - 1) : Int) ≤ v ∧ v < 2 ^ (64 - 1) := ⟨by simpa using hlo, by simpa using hhi⟩
  have hmask : ∀ u : Nat, u &&& 0xffffffff = u % 2 ^ 32 := fun u =>
    Nat.and_pow_two_sub_one_eq_mod u 32
  refine ⟨fun h0 h1 => ?_, fun h0 h1 => ?_, fun h => ?_⟩
  · have hu : (v % 2 ^ 64).toNat = v.toNat := by
      rw [Int.emod_eq_of_lt h0 (by omega)]
    have hlt : v.toNat < 2 ^ 31 := by omega
    simp only [pyobject_as_int_index, hr, and_self, if_true, hu, hmask]
    rw [Nat.mod_eq_of_lt (by omega : v.toNat < 2 ^ 32)]
    simp only [ne_eq, not_true_eq_false, if_false]
    rw [to_int_of_lt _ hlt]
    simp [Int.toNat_of_nonneg h0]
  · have hu : (v % 2 ^ 64).toNat = v.toNat := by
      rw [Int.emod_eq_of_lt (by omega) (by omega)]
    have hlt : v.toNat < 2 ^ 32 := by omega
    have hge : 2 ^ 31 ≤ v.toNat := by omega
    simp only [pyobject_as_int_index, hr, and_self, if_true, hu, hmask]
    rw [Nat.mod_eq_of_lt hlt]
    simp only [ne_eq, not_true_eq_false, if_false]
    unfold to_int
    rw [Nat.mod_eq_of_lt hlt, if_neg (by omega)]
    rw [Int.toNat_of_nonneg (by omega)]
  · have hne : (v % 2 ^ 64).toNat % 2 ^ 32 ≠ (v % 2 ^ 64).toNat := by
      intro heq
      have hlt : (v % 2 ^ 64).toNat < 2 ^ 32 := by
        rw [← heq]
        exact Nat.mod_lt _ (by norm_num)
      rcases h with h | h
      · have : v % 2 ^ 64 = v + 2 ^ 64 := by
          rw [← Int.add_emod_self, Int.emod_eq_of_lt (by omega) (by omega)]
        omega
      · have : v % 2 ^ 64 = v := Int.emod_eq_of_lt (by omega) (by omega)
        omega
    simp only [pyobject_as_int_index, hr, and_self, if_true, hmask]
    rw [if_pos hne]

/-- C24: with a `long` of 64 bits, the integer -1 is in the
signed 32 bit range, and `pyobject_as_int_index` throws the overflow error for it;
`2 ^ 31` is outside the range, and it is returned as `-2 ^ 31`. -/
theorem pyobject_as_int_index_negative_overflows :
    pyobject_as_int_index 64 (.int (-1)) =
      .error (.overflow_error "overflow converting Python integer to 32-bit int") ∧
    pyobject_as_int_index 64 (.int (2 ^ 31)) = .ok (-(2 ^ 31)) ∧
    pyobject_as_int_index 64 (.int (2 ^ 31 - 1)) = .ok (2 ^ 31 - 1) := by
  refine ⟨?_, ?_, ?_⟩
  · exact (pyobject_as_int_index_64 (-1) (by norm_num) (by norm_num)).2.2 (Or.inl (by norm_num))
  · have h := (pyobject_as_int_index_64 (2 ^ 31) (by norm_num) (by norm_num)).2.1
      (by norm_num) (by norm_num)
    rw [h]
    norm_num
  · exact (pyobject_as_int_index_64 (2 ^ 31 - 1) (by norm_num) (by norm_num)).1
      (by norm_num) (by norm_num)

/-- C25: `py_decref_function` decrements under the global lock only. For an owner
that is not `NULL` its steps are, in this order and once each, `PyGILState_Ensure`,
`Py_DECREF` of that owner, `PyGILState_Release`, and the count of the owner alone goes
down by one; for `NULL` it takes no step and changes no count. -/
theorem py_decref_function_under_gil (refcnt : Nat → Int) (log : List gil_event)
    (obj : Nat) :
    (obj ≠ 0 →
      (py_decref_function refcnt log obj).2 =
        log ++ [gil_event.PyGILState_Ensure, gil_event.Py_DECREF obj,
          gil_event.PyGILState_Release] ∧
      (py_decref_function refcnt log obj).1 obj = refcnt obj - 1 ∧
      ∀ ob, ob ≠ obj → (py_decref_function refcnt log obj).1 ob = refcnt ob) ∧
    py_decref_function refcnt log 0 = (refcnt, log) := by
  refine ⟨fun h => ⟨?_, ?_, fun ob hob => ?_⟩, ?_⟩
  · simp [py_decref_function, h]
  · simp [py_decref_function, h, Py_DECREF]
  · simp [py_decref_function, h, Py_DECREF, hob]
  · simp [py_decref_function]

/-- C25, at a concrete owner: releasing object 9 logs the three steps in order. -/
theorem py_decref_function_under_gil_witness :
    (py_decref_function (fun _ => 1) [] 9).2 =
      [] ++ [gil_event.PyGILState_Ensure, gil_event.Py_DECREF 9,
        gil_event.PyGILState_Release] :=
  ((py_decref_function_under_gil (fun _ => 1) [] 9).1 (by decide)).1
/-! ## Export: the exportable set and the export with arrmeta -/

theorem numpy_dtype_from__type_succeeds_iff (print : ndt_type → String) :
    ∀ tp : ndt_type, (∃ d, numpy_dtype_from__type print tp = .ok d) ↔ exportable tp = true
  | .builtin id => by
    cases id <;> simp [numpy_dtype_from__type, exportable, builtin_id.primitive, cannot_convert]
  | .fixed_string n e => by
    cases e <;> simp [numpy_dtype_from__type, exportable, cannot_convert]
  | .view v o => by
    cases o with
    | fixed_bytes n =>
      have h := numpy_dtype_from__type_succeeds_iff print v
      simpa [numpy_dtype_from__type, exportable] using h
    | _ => simp [numpy_dtype_from__type, exportable, cannot_convert]
  | .bytes => by simp [numpy_dtype_from__type, exportable, cannot_convert]
  | .fixed_bytes n => by simp [numpy_dtype_from__type, exportable, cannot_convert]
  | .char => by simp [numpy_dtype_from__type, exportable, cannot_convert]
  | .string e => by simp [numpy_dtype_from__type, exportable, cannot_convert]
  | .date => by simp [numpy_dtype_from__type, exportable, cannot_convert]
  | .time => by simp [numpy_dtype_from__type, exportable, cannot_convert]
  | .datetime => by simp [numpy_dtype_from__type, exportable, cannot_convert]
  | .type => by simp [numpy_dtype_from__type, exportable, cannot_convert]
  | .option v af => by simp [numpy_dtype_from__type, exportable, cannot_convert]
  | .struct f n => by simp [numpy_dtype_from__type, exportable, cannot_convert]
  | .fixed_dim n e => by simp [numpy_dtype_from__type, exportable, cannot_convert]
  | .other name => by simp [numpy_dtype_from__type, exportable, cannot_convert]

/-- C28: `numpy_dtype_from__type(tp)` succeeds if and only if `tp` is exportable: Bool,
Int or UInt of width 8 to 64, Float32, Float64, Complex over float32 or float64, a
FixedString with ASCII or UTF-32 encoding, or a view over fixed bytes of an exportable
value type. It fails for the 128 bit integers, Float16, FixedBytes, Bytes, every
String, and FixedString with UTF-8, UTF-16 or UCS-2 encoding. -/
theorem numpy_dtype_from__type_exportable_set (print : ndt_type → String) (tp : ndt_type) :
    ((∃ d, numpy_dtype_from__type print tp = .ok d) ↔ exportable tp = true) ∧
    (∀ d, numpy_dtype_from__type print (.builtin .int128_id) ≠ .ok d) ∧
    (∀ d, numpy_dtype_from__type print (.builtin .uint128_id) ≠ .ok d) ∧
    (∀ d, numpy_dtype_from__type print (.builtin .float16_id) ≠ .ok d) ∧
    (∀ n d, numpy_dtype_from__type print (.fixed_bytes n) ≠ .ok d) ∧
    (∀ d, numpy_dtype_from__type print .bytes ≠ .ok d) ∧
    (∀ e d, numpy_dtype_from__type print (.string e) ≠ .ok d) ∧
    (∀ n e d, e ≠ .string_encoding_ascii → e ≠ .string_encoding_utf_32 →
      numpy_dtype_from__type print (.fixed_string n e) ≠ .ok d) := by
  refine ⟨numpy_dtype_from__type_succeeds_iff print tp, ?_, ?_, ?_, ?_, ?_, ?_, ?_⟩
  · simp [numpy_dtype_from__type, cannot_convert]
  · simp [numpy_dtype_from__type, cannot_convert]
  · simp [numpy_dtype_from__type, cannot_convert]
  · simp [numpy_dtype_from__type, cannot_convert]
  · simp [numpy_dtype_from__type, cannot_convert]
  · simp [numpy_dtype_from__type, cannot_convert]
  · intro n e d h1 h2
    cases e <;> simp_all [numpy_dtype_from__type, cannot_convert]

/-- C28, at a concrete type: a view over 8 fixed bytes of a view over 8 fixed bytes of
`float64` is exported. -/
theorem numpy_dtype_from__type_exportable_set_witness :
    ∃ d, numpy_dtype_from__type (fun _ => "T")
      (.view (.view (.builtin .float64_id) (.fixed_bytes 8)) (.fixed_bytes 8)) = .ok d :=
  (numpy_dtype_from__type_exportable_set (fun _ => "T")
    (.view (.view (.builtin .float64_id) (.fixed_bytes 8)) (.fixed_bytes 8))).1.2 rfl

theorem numpy_dtype_from__type_arrmeta_spec (print : ndt_type → String) :
    (∀ fields data_size arrmeta,
      numpy_dtype_from__type_arrmeta print (.struct fields data_size) arrmeta =
        .error (.runtime_error "converting")) ∧
    (∀ tp arrmeta, (∀ fields data_size, tp ≠ .struct fields data_size) →
      numpy_dtype_from__type_arrmeta print tp arrmeta = numpy_dtype_from__type print tp) := by
  refine ⟨fun _ _ _ => rfl, ?_⟩
  intro tp arrmeta h
  cases tp with
  | struct f n => exact absurd rfl (h f n)
  | _ => rfl

/-- C22: the export with arrmeta of a struct type
throws the runtime error "converting" before it looks at the arrmeta or at the fields,
here for the struct of one `int32` field "x" with data size 4 and arrmeta at address
64, although the field type `int32` is exportable; for a type that is not a struct,
here `int32`, it returns what the export without arrmeta returns. -/
theorem numpy_dtype_from__type_arrmeta_struct_throws :
    numpy_dtype_from__type_arrmeta (fun _ => "T")
        (.struct [("x", .builtin .int32_id, 0)] 4) (some 64) =
      .error (.runtime_error "converting") ∧
    numpy_dtype_from__type (fun _ => "T") (.builtin .int32_id) =
      .ok (PyArray_DescrFromType .NPY_INT32) ∧
    numpy_dtype_from__type_arrmeta (fun _ => "T") (.builtin .int32_id) (some 64) =
      numpy_dtype_from__type (fun _ => "T") (.builtin .int32_id) :=
  ⟨rfl, rfl, rfl⟩
/-! ## Import: the access flags of the result -/

/-- C27: the access flags of an array that `array_from_numpy_array` returns. On the
view path they are the requested flags when these are not 0, and read access, with
write access if the foreign array is writeable, when the request is 0; with the
flag constants on distinct bits, the array has the write flag only if the foreign
array is writeable and never has the immutable flag. On the copy path they are the
requested flags when these are not 0 and the default access flags otherwise. -/
theorem array_from_numpy_array_flags (c : array_access_flags) (env : import_env)
    (refcnt : Nat → Int) (obj : PyArrayObject) (access_flags : Nat) (always_copy : Bool)
    (r : nd_array) (rc : Nat → Int)
    (h : array_from_numpy_array c env refcnt obj access_flags always_copy = .ok (r, rc)) :
    (always_copy = false → PyDataType_FLAGCHK obj.descr NPY_ITEM_HASOBJECT = false →
      r.flags = (if access_flags ≠ 0 then access_flags
        else c.read_access_flag |||
          (if PyArray_ISWRITEABLE obj then c.write_access_flag else 0)) ∧
      (c.read_access_flag &&& c.write_access_flag = 0 →
        r.flags &&& c.write_access_flag ≠ 0 → PyArray_ISWRITEABLE obj = true) ∧
      (c.read_access_flag &&& c.immutable_access_flag = 0 →
        c.write_access_flag &&& c.immutable_access_flag = 0 →
        r.flags &&& c.immutable_access_flag = 0)) ∧
    ((always_copy = true ∨ PyDataType_FLAGCHK obj.descr NPY_ITEM_HASOBJECT = true) →
      r.flags = if access_flags ≠ 0 then access_flags else c.default_access_flags) := by
  constructor
  · intro hac hobj
    subst hac
    obtain ⟨hpass, _, _, _, _, hflags, _⟩ :=
      import_view_path c env refcnt obj access_flags r rc hobj h
    have hp : ¬ (access_flags &&& c.write_access_flag ≠ 0 ∧ PyArray_ISWRITEABLE obj = false) ∧
        access_flags &&& c.immutable_access_flag = 0 := by
      rcases hpass with hc | hc
      · cases hc
      · exact hc
    rw [hflags]
    refine ⟨rfl, ?_, ?_⟩
    · intro hrw hw
      by_cases haf : access_flags ≠ 0
      · simp only [view_flags, if_pos haf] at hw
        by_contra hro
        exact hp.1 ⟨hw, by simpa using hro⟩
      · simp only [view_flags, if_neg haf] at hw
        by_contra hro
        have hro' : PyArray_ISWRITEABLE obj = false := by simpa using hro
        simp [hro', hrw] at hw
    · intro hri hwi
      by_cases haf : access_flags ≠ 0
      · simp only [view_flags, if_pos haf]
        exact hp.2
      · simp only [view_flags, if_neg haf]
        cases hw : PyArray_ISWRITEABLE obj
        · simp [hri]
        · simp [Nat.and_distrib_right, hri, hwi]
  · intro hcond
    have hpass : access_check_passes c obj access_flags always_copy := by
      cases always_copy with
      | true => exact Or.inl rfl
      | false =>
        by_contra hc
        rcases import_check_fails c env refcnt obj access_flags hc with he | he <;>
          rw [he] at h <;> cases h
    obtain ⟨_, tp, r0, r1, _, _, _, hr⟩ :=
      (import_copy_path c env refcnt obj access_flags always_copy hpass hcond).2 r rc h
    rw [hr]

/-- C27, at a concrete import: a view requested with flags 0 of a writeable array
has the flags read and write, `1 ||| 2`. -/
theorem array_from_numpy_array_flags_witness :
    (⟨.builtin .int32_id, [2], [4], 1 ||| 2, some 4096, .external 100,
      write_dim_records [2] [4] 0 (fun _ => 0)⟩ : nd_array).flags =
        (if (0 : Nat) ≠ 0 then 0 else 1 ||| (if PyArray_ISWRITEABLE
          ⟨100, 4096, [2], [4], .mk 4 0 [] [] Option.none, 0x0400, 0⟩ then 2 else 0)) :=
  ((array_from_numpy_array_flags ⟨1, 2, 4, 3⟩
      ⟨fun _ _ => .ok (.builtin .int32_id), fun t => t, fun _ _ => .error .std_exception,
        fun a _ => .ok a, fun _ => false⟩
      (fun _ => 1) ⟨100, 4096, [2], [4], .mk 4 0 [] [] Option.none, 0x0400, 0⟩ 0 false
      ⟨.builtin .int32_id, [2], [4], 1 ||| 2, some 4096, .external 100,
        write_dim_records [2] [4] 0 (fun _ => 0)⟩ (Py_INCREF (fun _ => 1) 100)
      (by simp [array_from_numpy_array, PyArray_ISWRITEABLE, NPY_ARRAY_WRITEABLE,
        PyDataType_FLAGCHK, NPY_ITEM_HASOBJECT, PyArray_Descr.flags, NPY_ARRAY_UPDATEIFCOPY,
        make_strided_array_from_data, get_alignment_of_array])).1 rfl (by decide)).1
/-! ## The layout of an Option chain -/

theorem set_copy_value_offset_fresh (ckb : ckernel_builder) (root : Nat) (v : Int)
    (h : ∀ rec ∈ ckb, rec.offset < root) : set_copy_value_offset ckb root v = ckb := by
  unfold set_copy_value_offset
  conv_rhs => rw [← List.map_id ckb]
  apply List.map_congr_left
  intro rec hrec
  have hne : rec.offset ≠ root := Nat.ne_of_lt (h rec hrec)
  cases hk : rec.kernel <;> simp [hk, hne]

theorem set_copy_value_offset_option (ckb : ckernel_builder) (root : Nat) (v : Int)
    (kernreq : kernel_request_t) (h : ∀ rec ∈ ckb, rec.offset < root) :
    set_copy_value_offset
        ((ckb ++ [{ offset := root, kernreq := kernreq, kernel := .option_ck 0 }]) ++
          [{ offset := root + sizeof_option_ck, kernreq := .kernel_request_single,
             kernel := .is_avail_ck }]) root v =
      ckb ++ [{ offset := root, kernreq := kernreq, kernel := .option_ck v },
        { offset := root + sizeof_option_ck, kernreq := .kernel_request_single,
          kernel := .is_avail_ck }] := by
  have h1 := set_copy_value_offset_fresh ckb root v h
  unfold set_copy_value_offset at h1 ⊢
  simp only [List.map_append, h1, List.map_cons, List.map_nil, List.append_assoc,
    List.singleton_append]
  simp

/-- C23: the layout of an Option chain. When `make_copy_to_pyobject_kernel` is called
for `Option{value_type}` at root offset `off`, with every earlier record of the chain
before `off`, and the is-available arrfunc, instantiated right after the header of the
option record (offset `off + sizeof(option_ck)`, request mode single), returns the
chain offset `off'`: the value kernel is built by the recursive call at offset `off'`
with request mode single, on a chain that holds the option record at `off`, with the
request mode of the caller and `m_copy_value_offset = off' - off`, followed by the
predicate record. For a value type of the leaf set the chain returned is these two
records and the value record at `off'`. If the predicate record is not empty, the
stored offset is greater than the size of the header, so the value record begins after
the header and after the predicate record. -/
theorem make_copy_to_pyobject_kernel_option_layout (print : ndt_type → String)
    (ckb : ckernel_builder) (off off' arrmeta : Nat) (value_type : ndt_type)
    (is_avail_af : arrfunc_type_data) (kernreq : kernel_request_t)
    (hfresh : ∀ rec ∈ ckb, rec.offset < off)
    (hinst : is_avail_af.instantiate (off + sizeof_option_ck) = .ok off') :
    make_copy_to_pyobject_kernel print ckb off (.option value_type is_avail_af) arrmeta
        kernreq =
      make_copy_to_pyobject_kernel print
        (ckb ++ [{ offset := off, kernreq := kernreq,
                   kernel := .option_ck ((off' : Int) - (off : Int)) },
          { offset := off + sizeof_option_ck, kernreq := .kernel_request_single,
            kernel := .is_avail_ck }])
        off' value_type arrmeta .kernel_request_single ∧
    (in_leaf_set value_type = true →
      ∃ k, leaf_kernel value_type arrmeta = some k ∧
        make_copy_to_pyobject_kernel print ckb off (.option value_type is_avail_af) arrmeta
            kernreq =
          .ok (ckb ++ [{ offset := off, kernreq := kernreq,
                         kernel := .option_ck ((off' : Int) - (off : Int)) },
                { offset := off + sizeof_option_ck, kernreq := .kernel_request_single,
                  kernel := .is_avail_ck },
                { offset := off', kernreq := .kernel_request_single, kernel := k }],
            off' + k.sizeof)) ∧
    (off + sizeof_option_ck < off' →
      ((ck.option_ck ((off' : Int) - (off : Int))).sizeof : Int) < (off' : Int) - (off : Int) ∧
      off + (ck.option_ck ((off' : Int) - (off : Int))).sizeof ≤ off + sizeof_option_ck ∧
      ((off : Int) + ((off' : Int) - (off : Int))).toNat = off') := by
  have heq : make_copy_to_pyobject_kernel print ckb off (.option value_type is_avail_af)
      arrmeta kernreq =
      make_copy_to_pyobject_kernel print
        (ckb ++ [{ offset := off, kernreq := kernreq,
                   kernel := .option_ck ((off' : Int) - (off : Int)) },
          { offset := off + sizeof_option_ck, kernreq := .kernel_request_single,
            kernel := .is_avail_ck }])
        off' value_type arrmeta .kernel_request_single := by
    rw [make_copy_option, hinst]
    simp only []
    rw [set_copy_value_offset_option ckb off _ kernreq hfresh]
  refine ⟨heq, ?_, ?_⟩
  · intro hleaf
    obtain ⟨k, hk, hmk⟩ := make_copy_leaf print
      (ckb ++ [{ offset := off, kernreq := kernreq,
                 kernel := .option_ck ((off' : Int) - (off : Int)) },
        { offset := off + sizeof_option_ck, kernreq := .kernel_request_single,
          kernel := .is_avail_ck }])
      off' value_type arrmeta .kernel_request_single hleaf
    refine ⟨k, hk, ?_⟩
    rw [heq, hmk]
    simp
  · intro hadv
    refine ⟨?_, ?_, ?_⟩
    · simp only [ck.sizeof]
      omega
    · simp [ck.sizeof]
    · omega

/-- C23, at a concrete chain: `Option{Int32}` built with request mode strided at root
offset 0, with a predicate record of 16 bytes, gives the option record with
`m_copy_value_offset = 40`, the predicate record at offset 24 and `int_ck<int32_t>` at
offset 40, both children with request mode single. -/
theorem make_copy_to_pyobject_kernel_option_layout_witness :
    make_copy_to_pyobject_kernel (fun _ => "T") [] 0
        (.option (.builtin .int32_id) ⟨fun off => .ok (off + 16)⟩) 0
        .kernel_request_strided =
      .ok ([{ offset := 0, kernreq := .kernel_request_strided, kernel := .option_ck 40 },
            { offset := 24, kernreq := .kernel_request_single, kernel := .is_avail_ck },
            { offset := 40, kernreq := .kernel_request_single,
              kernel := .int_ck .int32_id }], 56) := by
  obtain ⟨k, hk, h⟩ := (make_copy_to_pyobject_kernel_option_layout (fun _ => "T") [] 0 40 0
    (.builtin .int32_id) ⟨fun off => .ok (off + 16)⟩ .kernel_request_strided
    (by simp) rfl).2.1 rfl
  simp only [leaf_kernel, Option.some.injEq] at hk
  subst hk
  rw [h]
  rfl
/-! ## The low level API: arrays from raw pointers -/

theorem array_from_ptr_fails (c : array_access_flags) (env : lowlevel_env)
    (refcnt : Nat → Int) (dt ptr : PyObject) (owner : Nat) (access : PyObject)
    (d : ndt_type) (ptr_val v : Nat)
    (hd : env.make_ndt_type_from_pyobject dt = .ok d)
    (hp : env.pyobject_as_size_t ptr = .ok ptr_val)
    (ha : pyarg_strings_to_int env.no_match access "access" c.read_access_flag
      [("readwrite", c.read_access_flag ||| c.write_access_flag),
       ("readonly", c.read_access_flag),
       ("immutable", c.read_access_flag ||| c.immutable_access_flag)] = .ok v)
    (hm : env.get_metadata_size d ≠ 0) :
    array_from_ptr c env refcnt dt ptr owner access =
      (.error (.runtime_error
        ("Cannot create a dynd array from a raw pointer with non-empty metadata, type: "
          ++ env.print d)), refcnt) := by
  simp [array_from_ptr, hd, hp, ha, hm]

theorem array_from_ptr_ok (c : array_access_flags) (env : lowlevel_env)
    (refcnt : Nat → Int) (dt ptr : PyObject) (owner : Nat) (access : PyObject)
    (d : ndt_type) (ptr_val v : Nat)
    (hd : env.make_ndt_type_from_pyobject dt = .ok d)
    (hp : env.pyobject_as_size_t ptr = .ok ptr_val)
    (ha : pyarg_strings_to_int env.no_match access "access" c.read_access_flag
      [("readwrite", c.read_access_flag ||| c.write_access_flag),
       ("readonly", c.read_access_flag),
       ("immutable", c.read_access_flag ||| c.immutable_access_flag)] = .ok v)
    (hm : env.get_metadata_size d = 0) :
    array_from_ptr c env refcnt dt ptr owner access =
      (.ok { tp := d, dims := [], strides := [], flags := v % 2 ^ 32,
             data_pointer := some ptr_val, memblock := memory_block.external owner,
             arrmeta := fun _ => 0 }, Py_INCREF refcnt owner) := by
  simp [array_from_ptr, hd, hp, ha, hm]

/-- The flags that the access argument of `array_from_ptr` selects. -/
theorem pyarg_access_table (c : array_access_flags) (no_match : String → exception) :
    pyarg_strings_to_int no_match (.str "readwrite") "access" c.read_access_flag
      [("readwrite", c.read_access_flag ||| c.write_access_flag),
       ("readonly", c.read_access_flag),
       ("immutable", c.read_access_flag ||| c.immutable_access_flag)] =
        .ok (c.read_access_flag ||| c.write_access_flag) ∧
    pyarg_strings_to_int no_match (.str "readonly") "access" c.read_access_flag
      [("readwrite", c.read_access_flag ||| c.write_access_flag),
       ("readonly", c.read_access_flag),
       ("immutable", c.read_access_flag ||| c.immutable_access_flag)] =
        .ok c.read_access_flag ∧
    pyarg_strings_to_int no_match .none "access" c.read_access_flag
      [("readwrite", c.read_access_flag ||| c.write_access_flag),
       ("readonly", c.read_access_flag),
       ("immutable", c.read_access_flag ||| c.immutable_access_flag)] =
        .ok c.read_access_flag ∧
    pyarg_strings_to_int no_match (.str "immutable") "access" c.read_access_flag
      [("readwrite", c.read_access_flag ||| c.write_access_flag),
       ("readonly", c.read_access_flag),
       ("immutable", c.read_access_flag ||| c.immutable_access_flag)] =
        .ok (c.read_access_flag ||| c.immutable_access_flag) := by
  refine ⟨?_, ?_, ?_, ?_⟩ <;> simp [pyarg_strings_to_int, List.lookup]

/-- C26: `array_from_ptr`, once its three arguments are parsed (the type, the pointer
value and an access argument that is left out or is "readwrite", "readonly" or
"immutable"), fails if and only if the metadata size of the type is not 0, and then
no reference count changes. When it succeeds, the data pointer of the result is the
pointer value, its type is the given type, its memory block is the external block of
the owner, whose release function is `py_decref_function`, the count of the owner
alone goes up by one, and the flags are read and write for "readwrite", read for
"readonly" or no argument, read and immutable for "immutable" (the flag constants
being `uint32_t` values). -/
theorem array_from_ptr_spec (c : array_access_flags) (env : lowlevel_env)
    (refcnt : Nat → Int) (dt ptr : PyObject) (owner : Nat) (access : PyObject)
    (d : ndt_type) (ptr_val : Nat)
    (hd : env.make_ndt_type_from_pyobject dt = .ok d)
    (hp : env.pyobject_as_size_t ptr = .ok ptr_val)
    (haccess : access = .none ∨ access = .str "readwrite" ∨ access = .str "readonly" ∨
      access = .str "immutable")
    (hr : c.read_access_flag < 2 ^ 32)
    (hrw : c.read_access_flag ||| c.write_access_flag < 2 ^ 32)
    (hri : c.read_access_flag ||| c.immutable_access_flag < 2 ^ 32) :
    ((∃ e, (array_from_ptr c env refcnt dt ptr owner access).1 = .error e) ↔
      env.get_metadata_size d ≠ 0) ∧
    (env.get_metadata_size d ≠ 0 →
      (array_from_ptr c env refcnt dt ptr owner access).2 = refcnt) ∧
    (env.get_metadata_size d = 0 →
      ∃ r, (array_from_ptr c env refcnt dt ptr owner access).1 = .ok r ∧
        r.data_pointer = some ptr_val ∧ r.tp = d ∧
        r.memblock = memory_block.external owner ∧
        (access = .str "readwrite" →
          r.flags = c.read_access_flag ||| c.write_access_flag) ∧
        (access = .str "readonly" ∨ access = .none → r.flags = c.read_access_flag) ∧
        (access = .str "immutable" →
          r.flags = c.read_access_flag ||| c.immutable_access_flag) ∧
        (array_from_ptr c env refcnt dt ptr owner access).2 owner = refcnt owner + 1 ∧
        ∀ ob, ob ≠ owner →
          (array_from_ptr c env refcnt dt ptr owner access).2 ob = refcnt ob) := by
  obtain ⟨t1, t2, t3, t4⟩ := pyarg_access_table c env.no_match
  have hv : ∃ v, pyarg_strings_to_int env.no_match access "access" c.read_access_flag
      [("readwrite", c.read_access_flag ||| c.write_access_flag),
       ("readonly", c.read_access_flag),
       ("immutable", c.read_access_flag ||| c.immutable_access_flag)] = .ok v ∧
      (access = .str "readwrite" → v % 2 ^ 32 = c.read_access_flag ||| c.write_access_flag) ∧
      (access = .str "readonly" ∨ access = .none → v % 2 ^ 32 = c.read_access_flag) ∧
      (access = .str "immutable" →
        v % 2 ^ 32 = c.read_access_flag ||| c.immutable_access_flag) := by
    rcases haccess with h | h | h | h
    · subst h
      refine ⟨_, t3, fun hc => ?_, fun _ => Nat.mod_eq_of_lt hr, fun hc => ?_⟩
      · cases hc
      · cases hc
    · subst h
      refine ⟨_, t1, fun _ => Nat.mod_eq_of_lt hrw, fun hc => ?_, fun hc => ?_⟩
      · rcases hc with hc | hc
        · simp at hc
        · cases hc
      · simp at hc
    · subst h
      refine ⟨_, t2, fun hc => ?_, fun _ => Nat.mod_eq_of_lt hr, fun hc => ?_⟩
      · simp at hc
      · simp at hc
    · subst h
      refine ⟨_, t4, fun hc => ?_, fun hc => ?_, fun _ => Nat.mod_eq_of_lt hri⟩
      · simp at hc
      · rcases hc with hc | hc
        · simp at hc
        · cases hc
  obtain ⟨v, ha, f1, f2, f3⟩ := hv
  refine ⟨?_, ?_, ?_⟩
  · constructor
    · rintro ⟨e, he⟩
      by_contra hm
      have hm0 : env.get_metadata_size d = 0 := by simpa using hm
      rw [array_from_ptr_ok c env refcnt dt ptr owner access d ptr_val v hd hp ha hm0] at he
      cases he
    · intro hm
      rw [array_from_ptr_fails c env refcnt dt ptr owner access d ptr_val v hd hp ha hm]
      exact ⟨_, rfl⟩
  · intro hm
    rw [array_from_ptr_fails c env refcnt dt ptr owner access d ptr_val v hd hp ha hm]
  · intro hm
    rw [array_from_ptr_ok c env refcnt dt ptr owner access d ptr_val v hd hp ha hm]
    refine ⟨_, rfl, rfl, rfl, rfl, f1, f2, f3, ?_, ?_⟩
    · simp [Py_INCREF]
    · intro ob hob
      simp [Py_INCREF, hob]

/-- C26, at a concrete call: with read, write and immutable flags 1, 2 and 4, a type
without metadata, pointer 4096, owner 100 and access "immutable", the array has data
pointer 4096 and flags 5, and the count of object 100 goes from 1 to 2. -/
theorem array_from_ptr_spec_witness :
    ∃ r, (array_from_ptr ⟨1, 2, 4, 3⟩
        ⟨fun _ => .ok (.builtin .int32_id), fun _ => .ok 4096, fun _ => 0, fun _ => "int32",
          fun _ => .std_exception⟩
        (fun _ => 1) .none (.int 4096) 100 (.str "immutable")).1 = .ok r ∧
      r.data_pointer = some 4096 ∧ r.flags = 1 ||| 4 ∧
      (array_from_ptr ⟨1, 2, 4, 3⟩
        ⟨fun _ => .ok (.builtin .int32_id), fun _ => .ok 4096, fun _ => 0, fun _ => "int32",
          fun _ => .std_exception⟩
        (fun _ => 1) .none (.int 4096) 100 (.str "immutable")).2 100 = 1 + 1 := by
  obtain ⟨r, h1, h2, _, _, _, _, h3, h4, _⟩ := (array_from_ptr_spec ⟨1, 2, 4, 3⟩
    ⟨fun _ => .ok (.builtin .int32_id), fun _ => .ok 4096, fun _ => 0, fun _ => "int32",
      fun _ => .std_exception⟩
    (fun _ => 1) .none (.int 4096) 100 (.str "immutable") (.builtin .int32_id) 4096
    rfl rfl (Or.inr (Or.inr (Or.inr rfl))) (by norm_num) (by decide) (by decide)).2.2 rfl
  exact ⟨r, h1, h2, h3 rfl, h4⟩
/-! ## Import of NumPy scalars -/

theorem static_cast_int_8 (x : Int) (h1 : -128 ≤ x) (h2 : x < 128) :
    static_cast_int 8 x = x := by
  unfold static_cast_int to_signed
  have hm : ((x % 2 ^ 8).toNat : Int) = x % 2 ^ 8 :=
    Int.toNat_of_nonneg (Int.emod_nonneg _ (by norm_num))
  have hlt : x % 2 ^ 8 < 2 ^ 8 := Int.emod_lt_of_pos _ (by norm_num)
  have hmod : (x % 2 ^ 8).toNat % 2 ^ 8 = (x % 2 ^ 8).toNat := Nat.mod_eq_of_lt (by omega)
  rw [hmod]
  split
  · rw [hm]; omega
  · rw [hm]; omega

theorem static_cast_int_16 (x : Int) (h1 : -32768 ≤ x) (h2 : x < 32768) :
    static_cast_int 16 x = x := by
  unfold static_cast_int to_signed
  have hm : ((x % 2 ^ 16).toNat : Int) = x % 2 ^ 16 :=
    Int.toNat_of_nonneg (Int.emod_nonneg _ (by norm_num))
  have hlt : x % 2 ^ 16 < 2 ^ 16 := Int.emod_lt_of_pos _ (by norm_num)
  have hmod : (x % 2 ^ 16).toNat % 2 ^ 16 = (x % 2 ^ 16).toNat := Nat.mod_eq_of_lt (by omega)
  rw [hmod]
  split
  · rw [hm]; omega
  · rw [hm]; omega

theorem static_cast_int_32 (x : Int) (h1 : -2147483648 ≤ x) (h2 : x < 2147483648) :
    static_cast_int 32 x = x := by
  unfold static_cast_int to_signed
  have hm : ((x % 2 ^ 32).toNat : Int) = x % 2 ^ 32 :=
    Int.toNat_of_nonneg (Int.emod_nonneg _ (by norm_num))
  have hlt : x % 2 ^ 32 < 2 ^ 32 := Int.emod_lt_of_pos _ (by norm_num)
  have hmod : (x % 2 ^ 32).toNat % 2 ^ 32 = (x % 2 ^ 32).toNat := Nat.mod_eq_of_lt (by omega)
  rw [hmod]
  split
  · rw [hm]; omega
  · rw [hm]; omega

/-- The quotient that the month case computes, by truncating division, is the floor
of `val / 12`. -/
theorem month_year_quotient (val : Int) :
    (if val ≥ 0 then Int.tdiv val 12 else Int.tdiv (val - 11) 12) = val / 12 := by
  split
  · rename_i h
    rw [Int.tdiv_eq_ediv h (by norm_num)]
  · rename_i h
    have hneg : val - 11 = -(11 - val) := by ring
    rw [hneg, Int.neg_tdiv, Int.tdiv_eq_ediv (by omega) (by norm_num)]
    omega

theorem datetime_month (senv : scalar_env) (val : Int) (hnat : val ≠ NPY_DATETIME_NAT)
    (h1 : -32768 ≤ val / 12 + 1970) (h2 : val / 12 + 1970 < 32768) :
    array_from_numpy_scalar.datetime senv val NPY_FR_M =
      .ok (some (.date, [senv.to_days (1970 + val / 12) (val % 12 + 1) 1])) := by
  have hq := month_year_quotient val
  have hyear : (if val ≥ 0 then static_cast_int 16 (Int.tdiv val 12 + 1970)
      else static_cast_int 16 (Int.tdiv (val - 11) 12 + 1970)) = 1970 + val / 12 := by
    by_cases h : val ≥ 0
    · rw [if_pos h] at hq ⊢
      rw [hq, static_cast_int_16 _ h1 h2]
      ring
    · rw [if_neg h] at hq ⊢
      rw [hq, static_cast_int_16 _ h1 h2]
      ring
  have hmonth : static_cast_int 8 (val - (1970 + val / 12 - 1970) * 12 + 1) = val % 12 + 1 := by
    have : val - (1970 + val / 12 - 1970) * 12 + 1 = val % 12 + 1 := by omega
    rw [this, static_cast_int_8 _ (by omega) (by omega)]
  simp only [array_from_numpy_scalar.datetime, NPY_FR_M, NPY_FR_D, NPY_FR_Y, hnat, if_false,
    hyear, hmonth]
  simp

theorem datetime_year (senv : scalar_env) (val : Int) (hnat : val ≠ NPY_DATETIME_NAT)
    (h1 : -32768 ≤ val + 1970) (h2 : val + 1970 < 32768) :
    array_from_numpy_scalar.datetime senv val NPY_FR_Y =
      .ok (some (.date, [senv.to_days (val + 1970) 1 1])) := by
  simp [array_from_numpy_scalar.datetime, NPY_FR_D, NPY_FR_Y, hnat,
    static_cast_int_16 _ h1 h2]

theorem datetime_day (senv : scalar_env) (val : Int) (hnat : val ≠ NPY_DATETIME_NAT)
    (h1 : -2147483648 ≤ val) (h2 : val < 2147483648) :
    array_from_numpy_scalar.datetime senv val NPY_FR_D =
      .ok (some (.date, [val])) := by
  simp [array_from_numpy_scalar.datetime, NPY_FR_D, NPY_FR_Y, NPY_FR_M, hnat,
    static_cast_int_32 _ h1 h2]

theorem datetime_nat (senv : scalar_env) (base : Int)
    (hb : base = NPY_FR_Y ∨ base = NPY_FR_M ∨ base = NPY_FR_D) :
    array_from_numpy_scalar.datetime senv NPY_DATETIME_NAT base =
      .ok (some (.date, [senv.DYND_DATE_NA])) := by
  rcases hb with rfl | rfl | rfl <;>
    simp [array_from_numpy_scalar.datetime, NPY_FR_D, NPY_FR_Y, NPY_FR_M]

theorem array_from_numpy_scalar_datetime_ok (c : array_access_flags) (senv : scalar_env)
    (env : import_env) (refcnt : Nat → Int) (val base : Int) (access_flags : Nat)
    (tp : ndt_type) (data : List Int)
    (h : array_from_numpy_scalar.datetime senv val base = .ok (some (tp, data))) :
    array_from_numpy_scalar c senv env refcnt (.Datetime val base) access_flags =
      .ok (.scalar { tp := tp, data := data,
                     flags := if access_flags ≠ 0 then access_flags
                              else c.default_access_flags }, refcnt) := by
  simp [array_from_numpy_scalar, h]

/-- C29, as stated, fails for the year unit and the day unit: the day value `2 ^ 31` is
stored as the day count `-2 ^ 31`, and the year value 38030 (year 40000) is stored as
January 1 of year -25536, here with `to_days` giving `year * 10000 + month * 100 +
day`. -/
theorem array_from_numpy_scalar_date_narrowed :
    array_from_numpy_scalar ⟨1, 2, 4, 3⟩
        ⟨.int64_id, .uint64_id, -2 ^ 31, fun y m d => y * 10000 + m * 100 + d,
          fun _ _ => Option.none⟩
        ⟨fun _ _ => .ok (.builtin .int32_id), fun t => t, fun _ _ => .error .std_exception,
          fun a _ => .ok a, fun _ => false⟩
        (fun _ => 1) (.Datetime (2 ^ 31) NPY_FR_D) 0 =
      .ok (.scalar { tp := .date, data := [-(2 ^ 31)], flags := 3 }, fun _ => 1) ∧
    array_from_numpy_scalar ⟨1, 2, 4, 3⟩
        ⟨.int64_id, .uint64_id, -2 ^ 31, fun y m d => y * 10000 + m * 100 + d,
          fun _ _ => Option.none⟩
        ⟨fun _ _ => .ok (.builtin .int32_id), fun t => t, fun _ _ => .error .std_exception,
          fun a _ => .ok a, fun _ => false⟩
        (fun _ => 1) (.Datetime 38030 NPY_FR_Y) 0 =
      .ok (.scalar { tp := .date, data := [-25536 * 10000 + 1 * 100 + 1], flags := 3 },
        fun _ => 1) ∧
    (-(2 ^ 31) : Int) ≠ 2 ^ 31 ∧
    (-25536 * 10000 + 1 * 100 + 1 : Int) ≠ (38030 + 1970) * 10000 + 1 * 100 + 1 := by
  refine ⟨?_, ?_, by norm_num, by norm_num⟩
  · simp [array_from_numpy_scalar, array_from_numpy_scalar.datetime, NPY_FR_D, NPY_FR_Y,
      NPY_FR_M, NPY_DATETIME_NAT, static_cast_int, to_signed]
  · simp [array_from_numpy_scalar, array_from_numpy_scalar.datetime, NPY_FR_D, NPY_FR_Y,
      NPY_FR_M, NPY_DATETIME_NAT, static_cast_int, to_signed]

/-- C29, amended: the date that `array_from_numpy_scalar` stores for a NumPy datetime
scalar with value `val`. For the month unit, `val` not NaT and `val / 12 + 1970` in the
16 bit year range: the days of year `1970 + floor(val / 12)`, month `(val mod 12) + 1`,
day 1, where the month is from 1 to 12 and `(year - 1970) * 12 + (month - 1) = val`,
for negative `val` too. For the year unit, `val` not NaT and `val + 1970` in the 16 bit
year range: the days of January 1 of year `val + 1970`. For the day unit, `val` not NaT
and in the 32 bit range of the stored day count: `val`. NaT gives the date NA marker
for the three units. -/
theorem array_from_numpy_scalar_date (c : array_access_flags) (senv : scalar_env)
    (env : import_env) (refcnt : Nat → Int) (val : Int) (access_flags : Nat) :
    (val ≠ NPY_DATETIME_NAT → -32768 ≤ val / 12 + 1970 → val / 12 + 1970 < 32768 →
      array_from_numpy_scalar c senv env refcnt (.Datetime val NPY_FR_M) access_flags =
        .ok (.scalar { tp := .date,
                       data := [senv.to_days (1970 + val / 12) (val % 12 + 1) 1],
                       flags := if access_flags ≠ 0 then access_flags
                                else c.default_access_flags }, refcnt) ∧
      1 ≤ val % 12 + 1 ∧ val % 12 + 1 ≤ 12 ∧
      ((1970 + val / 12) - 1970) * 12 + ((val % 12 + 1) - 1) = val) ∧
    (val ≠ NPY_DATETIME_NAT → -32768 ≤ val + 1970 → val + 1970 < 32768 →
      array_from_numpy_scalar c senv env refcnt (.Datetime val NPY_FR_Y) access_flags =
        .ok (.scalar { tp := .date, data := [senv.to_days (val + 1970) 1 1],
                       flags := if access_flags ≠ 0 then access_flags
                                else c.default_access_flags }, refcnt)) ∧
    (val ≠ NPY_DATETIME_NAT → -2147483648 ≤ val → val < 2147483648 →
      array_from_numpy_scalar c senv env refcnt (.Datetime val NPY_FR_D) access_flags =
        .ok (.scalar { tp := .date, data := [val],
                       flags := if access_flags ≠ 0 then access_flags
                                else c.default_access_flags }, refcnt)) ∧
    (∀ base, base = NPY_FR_Y ∨ base = NPY_FR_M ∨ base = NPY_FR_D →
      array_from_numpy_scalar c senv env refcnt (.Datetime NPY_DATETIME_NAT base)
          access_flags =
        .ok (.scalar { tp := .date, data := [senv.DYND_DATE_NA],
                       flags := if access_flags ≠ 0 then access_flags
                                else c.default_access_flags }, refcnt)) := by
  refine ⟨fun hnat h1 h2 => ⟨?_, by omega, by omega, by omega⟩, fun hnat h1 h2 => ?_,
    fun hnat h1 h2 => ?_, fun base hb => ?_⟩
  · exact array_from_numpy_scalar_datetime_ok c senv env refcnt val _ access_flags _ _
      (datetime_month senv val hnat h1 h2)
  · exact array_from_numpy_scalar_datetime_ok c senv env refcnt val _ access_flags _ _
      (datetime_year senv val hnat h1 h2)
  · exact array_from_numpy_scalar_datetime_ok c senv env refcnt val _ access_flags _ _
      (datetime_day senv val hnat h1 h2)
  · exact array_from_numpy_scalar_datetime_ok c senv env refcnt _ base access_flags _ _
      (datetime_nat senv base hb)

/-- C29 amended, at a concrete scalar: the month value -1 (December 1969), with `to_days`
giving `year * 10000 + month * 100 + day`, is stored as 19691201. -/
theorem array_from_numpy_scalar_date_witness :
    array_from_numpy_scalar ⟨1, 2, 4, 3⟩
        ⟨.int64_id, .uint64_id, -2 ^ 31, fun y m d => y * 10000 + m * 100 + d,
          fun _ _ => Option.none⟩
        ⟨fun _ _ => .ok (.builtin .int32_id), fun t => t, fun _ _ => .error .std_exception,
          fun a _ => .ok a, fun _ => false⟩
        (fun _ => 1) (.Datetime (-1) NPY_FR_M) 0 =
      .ok (.scalar { tp := .date, data := [19691201], flags := 3 }, fun _ => 1) := by
  have h := ((array_from_numpy_scalar_date ⟨1, 2, 4, 3⟩
    ⟨.int64_id, .uint64_id, -2 ^ 31, fun y m d => y * 10000 + m * 100 + d,
      fun _ _ => Option.none⟩
    ⟨fun _ _ => .ok (.builtin .int32_id), fun t => t, fun _ _ => .error .std_exception,
      fun a _ => .ok a, fun _ => false⟩
    (fun _ => 1) (-1) 0).1 (by decide) (by decide) (by decide)).1
  rw [h]
  rfl

/-- A datetime scalar of any unit after `NPY_FR_D` reaches the final assignment of the
access flags with `result` still null, whatever its value. -/
theorem array_from_numpy_scalar_finer_unit (c : array_access_flags) (senv : scalar_env)
    (env : import_env) (refcnt : Nat → Int) (val base : Int) (access_flags : Nat)
    (h : NPY_FR_D < base) :
    array_from_numpy_scalar c senv env refcnt (.Datetime val base) access_flags =
      .error (.undefined "result.get()->flags on a null nd::array") := by
  have hb : ¬ base ≤ NPY_FR_D := by omega
  simp [array_from_numpy_scalar, array_from_numpy_scalar.datetime, hb]

/-- C30: for a datetime scalar whose unit is finer
than a day, here hours (and likewise seconds), no branch assigns `result` and none
throws, so the final assignment of the access flags goes through a null `result`;
for the week unit the type error "Unsupported NumPy date unit" is thrown. -/
theorem array_from_numpy_scalar_null_result :
    array_from_numpy_scalar ⟨1, 2, 4, 3⟩
        ⟨.int64_id, .uint64_id, -2 ^ 31, fun y m d => y * 10000 + m * 100 + d,
          fun _ _ => Option.none⟩
        ⟨fun _ _ => .ok (.builtin .int32_id), fun t => t, fun _ _ => .error .std_exception,
          fun a _ => .ok a, fun _ => false⟩
        (fun _ => 1) (.Datetime 0 NPY_FR_h) 1 =
      .error (.undefined "result.get()->flags on a null nd::array") ∧
    array_from_numpy_scalar ⟨1, 2, 4, 3⟩
        ⟨.int64_id, .uint64_id, -2 ^ 31, fun y m d => y * 10000 + m * 100 + d,
          fun _ _ => Option.none⟩
        ⟨fun _ _ => .ok (.builtin .int32_id), fun t => t, fun _ _ => .error .std_exception,
          fun a _ => .ok a, fun _ => false⟩
        (fun _ => 1) (.Datetime 0 NPY_FR_s) 1 =
      .error (.undefined "result.get()->flags on a null nd::array") ∧
    array_from_numpy_scalar ⟨1, 2, 4, 3⟩
        ⟨.int64_id, .uint64_id, -2 ^ 31, fun y m d => y * 10000 + m * 100 + d,
          fun _ _ => Option.none⟩
        ⟨fun _ _ => .ok (.builtin .int32_id), fun t => t, fun _ _ => .error .std_exception,
          fun a _ => .ok a, fun _ => false⟩
        (fun _ => 1) (.Datetime 0 NPY_FR_W) 1 =
      .error (.type_error "Unsupported NumPy date unit") := by
  refine ⟨?_, ?_, ?_⟩ <;>
    simp [array_from_numpy_scalar, array_from_numpy_scalar.datetime, NPY_FR_h, NPY_FR_s,
      NPY_FR_W, NPY_FR_D, NPY_FR_Y, NPY_FR_M, NPY_DATETIME_NAT]
end pydynd
